import Mathlib

/-!
# RGB-Depth cropper: array codec, crop geometry, validation and export

A shallow embedding of `src/RGBDepthCropper.js`.

Modelling conventions.

* A JavaScript string is the list of its code points (`JSString`).
* A byte is a `Nat` below 256; an `ArrayBuffer` is a `List Nat`.
* A typed array is its element kind together with the raw little-endian bit
  pattern of every element (`TypedArray`).
* Pointer and rectangle coordinates are finite doubles, modelled as exact
  rationals: `+`, `-`, `*` are exact, `Math.floor` is `Int.floor` and
  `Math.round` is `⌊q + 1/2⌋`.  Divisions whose divisor may be zero return a
  `JSNum`, which keeps `NaN` and the two infinities.
* Integers printed by template literals and parsed by `parseInt` are exact
  (JavaScript is exact below `2^53` and prints plain decimals below `10^21`).
* A `throw` is an `Except.error`.
-/

namespace RGBDCropper

/-! ## JavaScript strings -/

/-- A JavaScript string, as the list of its code points. -/
abbrev JSString := List Char

/-- The characters matched by `\s`, stripped by `String.prototype.trim` and skipped by
`parseInt`: ECMAScript `WhiteSpace` and `LineTerminator`. -/
def isJsWhitespace (c : Char) : Bool :=
  c.toNat = 0x09 || c.toNat = 0x0A || c.toNat = 0x0B || c.toNat = 0x0C || c.toNat = 0x0D ||
  c.toNat = 0x20 || c.toNat = 0xA0 || c.toNat = 0x1680 ||
  (0x2000 ≤ c.toNat && c.toNat ≤ 0x200A) ||
  c.toNat = 0x2028 || c.toNat = 0x2029 || c.toNat = 0x202F || c.toNat = 0x205F ||
  c.toNat = 0x3000 || c.toNat = 0xFEFF

/-- Number-to-string conversion of an integer, as done by template literals and
`Array.prototype.join`. -/
def jsNumToString (n : Int) : JSString :=
  if n < 0 then '-' :: Nat.toDigits 10 n.natAbs else Nat.toDigits 10 n.natAbs

/-- The method `Array.prototype.join` on an array of strings. -/
def jsJoin (sep : JSString) : List JSString → JSString
  | [] => []
  | [a] => a
  | a :: b :: rest => a ++ sep ++ jsJoin sep (b :: rest)

/-- The method `String.prototype.split(',')`. -/
def splitComma : JSString → List JSString
  | [] => [[]]
  | c :: cs =>
    if c = ',' then [] :: splitComma cs
    else
      match splitComma cs with
      | [] => [[c]]
      | h :: t => (c :: h) :: t

/-- The method `String.prototype.trim`. -/
def jsTrim (s : JSString) : JSString :=
  ((s.dropWhile isJsWhitespace).reverse.dropWhile isJsWhitespace).reverse

/-- Value of a character as a digit in the given radix (10 or 16), if it is one. -/
def digitValue (radix : Nat) (c : Char) : Option Nat :=
  if '0'.toNat ≤ c.toNat ∧ c.toNat ≤ '9'.toNat then some (c.toNat - '0'.toNat)
  else if radix = 16 ∧ 'a'.toNat ≤ c.toNat ∧ c.toNat ≤ 'f'.toNat then
    some (c.toNat - 'a'.toNat + 10)
  else if radix = 16 ∧ 'A'.toNat ≤ c.toNat ∧ c.toNat ≤ 'F'.toNat then
    some (c.toNat - 'A'.toNat + 10)
  else none

/-- Reads the longest prefix of radix digits: returns the number of digits read and their
value, starting from the accumulator `acc`. -/
def readDigits (radix : Nat) : JSString → Nat → Nat × Nat
  | [], acc => (0, acc)
  | c :: cs, acc =>
    match digitValue radix c with
    | none => (0, acc)
    | some d => let r := readDigits radix cs (acc * radix + d); (r.1 + 1, r.2)

/-- The function `parseInt(s)` with no radix argument; `none` is `NaN`.  Leading white space is
skipped, a sign is read, a `0x` or `0X` prefix selects radix 16, and the longest prefix of
digits is the value. -/
def parseInt (s : JSString) : Option Int :=
  let s1 := s.dropWhile isJsWhitespace
  let sign : Int := if s1.head? = some '-' then -1 else 1
  let s2 := if s1.head? = some '-' ∨ s1.head? = some '+' then s1.tail else s1
  let hex : Bool := s2.take 2 = ['0', 'x'] ∨ s2.take 2 = ['0', 'X']
  let radix := if hex then 16 else 10
  let s3 := if hex then s2.drop 2 else s2
  let r := readDigits radix s3 0
  if r.1 = 0 then none else some (sign * (r.2 : Int))

/-- The method `String.prototype.includes`. -/
def includes (needle : JSString) : JSString → Bool
  | [] => needle.isEmpty
  | c :: cs => needle.isPrefixOf (c :: cs) || includes needle cs

/-- Removes a literal prefix, when present. -/
def dropLiteral : JSString → JSString → Option JSString
  | [], s => some s
  | _ :: _, [] => none
  | p :: ps, c :: cs => if p = c then dropLiteral ps cs else none

/-- Leftmost match of a pattern, given the matcher of the pattern at a fixed position. -/
def regexSearch {α : Type} (m : JSString → Option α) : JSString → Option α
  | [] => m []
  | c :: cs =>
    match m (c :: cs) with
    | some a => some a
    | none => regexSearch m cs

/-- First capture group of `/'shape':\s*\(([^)]+)\)/` matched at the start of `s`.  The greedy
runs `\s*` and `[^)]+` need no backtracking: the next pattern character (`(`, resp. `)`) is
excluded from the run, so only the maximal run can be followed by it. -/
def matchShapeAt (s : JSString) : Option JSString :=
  match dropLiteral "'shape':".toList s with
  | none => none
  | some r1 =>
    match r1.dropWhile isJsWhitespace with
    | '(' :: r2 =>
      match r2.dropWhile (fun c => c != ')') with
      | ')' :: _ =>
        if (r2.takeWhile (fun c => c != ')')).isEmpty then none
        else some (r2.takeWhile (fun c => c != ')'))
      | _ => none
    | _ => none

/-- First capture group of `/'descr':\s*'([^']+)'/` matched at the start of `s`. -/
def matchDescrAt (s : JSString) : Option JSString :=
  match dropLiteral "'descr':".toList s with
  | none => none
  | some r1 =>
    match r1.dropWhile isJsWhitespace with
    | '\'' :: r2 =>
      match r2.dropWhile (fun c => c != '\'') with
      | '\'' :: _ =>
        if (r2.takeWhile (fun c => c != '\'')).isEmpty then none
        else some (r2.takeWhile (fun c => c != '\''))
      | _ => none
    | _ => none

/-! ## UTF-8 (`TextEncoder`, `TextDecoder`) -/

/-- The `TextEncoder` encoding of one code point. -/
def utf8EncodeChar (c : Char) : List Nat :=
  let n := c.toNat
  if n < 0x80 then [n]
  else if n < 0x800 then [0xC0 + n / 64, 0x80 + n % 64]
  else if n < 0x10000 then [0xE0 + n / 4096, 0x80 + n / 64 % 64, 0x80 + n % 64]
  else [0xF0 + n / 262144, 0x80 + n / 4096 % 64, 0x80 + n / 64 % 64, 0x80 + n % 64]

/-- The method `TextEncoder.prototype.encode`. -/
def textEncode (s : JSString) : List Nat :=
  s.flatMap utf8EncodeChar

/-- State of the UTF-8 decoder of the Encoding standard. -/
structure Utf8State where
  codePoint : Nat
  bytesSeen : Nat
  bytesNeeded : Nat
  lower : Nat
  upper : Nat
deriving DecidableEq, Repr

/-- The decoder state between two code points. -/
def Utf8State.init : Utf8State :=
  { codePoint := 0, bytesSeen := 0, bytesNeeded := 0, lower := 0x80, upper := 0xBF }

/-- The replacement character emitted for malformed input. -/
def replacementChar : Char := Char.ofNat 0xFFFD

/-- Decoder step on a byte read while no code point is pending. -/
def utf8Lead (b : Nat) : List Char × Utf8State :=
  if b ≤ 0x7F then ([Char.ofNat b], Utf8State.init)
  else if 0xC2 ≤ b ∧ b ≤ 0xDF then
    ([], { Utf8State.init with bytesNeeded := 1, codePoint := b % 32 })
  else if 0xE0 ≤ b ∧ b ≤ 0xEF then
    ([], { codePoint := b % 16, bytesSeen := 0, bytesNeeded := 2,
           lower := if b = 0xE0 then 0xA0 else 0x80,
           upper := if b = 0xED then 0x9F else 0xBF })
  else if 0xF0 ≤ b ∧ b ≤ 0xF4 then
    ([], { codePoint := b % 8, bytesSeen := 0, bytesNeeded := 3,
           lower := if b = 0xF0 then 0x90 else 0x80,
           upper := if b = 0xF4 then 0x8F else 0xBF })
  else ([replacementChar], Utf8State.init)

/-- One step of the decoder: the code points emitted and the next state. -/
def utf8Step (st : Utf8State) (b : Nat) : List Char × Utf8State :=
  if st.bytesNeeded = 0 then utf8Lead b
  else if b < st.lower ∨ st.upper < b then
    (replacementChar :: (utf8Lead b).1, (utf8Lead b).2)
  else
    let cp := st.codePoint * 64 + b % 64
    if st.bytesSeen + 1 ≠ st.bytesNeeded then
      ([], { codePoint := cp, bytesSeen := st.bytesSeen + 1, bytesNeeded := st.bytesNeeded,
             lower := 0x80, upper := 0xBF })
    else ([Char.ofNat cp], Utf8State.init)

/-- Runs the decoder over a byte sequence. -/
def utf8DecodeFrom (st : Utf8State) : List Nat → JSString
  | [] => if st.bytesNeeded = 0 then [] else [replacementChar]
  | b :: bs => (utf8Step st b).1 ++ utf8DecodeFrom (utf8Step st b).2 bs

/-- The call `new TextDecoder().decode(bytes)`: UTF-8 with replacement, a leading byte order
mark dropped. -/
def textDecode (bytes : List Nat) : JSString :=
  match utf8DecodeFrom Utf8State.init bytes with
  | c :: rest => if c.toNat = 0xFEFF then rest else c :: rest
  | [] => []

/-! ## Typed arrays and buffers -/

/-- The four element kinds the decoder dispatches to. -/
inductive DType where
  | float32
  | float64
  | int32
  | uint8
deriving DecidableEq, Repr

/-- The constant `BYTES_PER_ELEMENT` of each kind of typed array. -/
def DType.bytesPerElement : DType → Nat
  | .float32 => 4
  | .float64 => 8
  | .int32 => 4
  | .uint8 => 1

/-- A typed array: its kind and, for every element, the raw bit pattern stored for it
(below `256 ^ bytesPerElement`). -/
structure TypedArray where
  kind : DType
  elems : List Nat
deriving DecidableEq, Repr

/-- The `k` little-endian bytes of a bit pattern. -/
def leBytes : Nat → Nat → List Nat
  | 0, _ => []
  | k + 1, v => v % 256 :: leBytes k (v / 256)

/-- The bit pattern held by little-endian bytes. -/
def leValue : List Nat → Nat
  | [] => 0
  | b :: bs => b + 256 * leValue bs

/-- The property `length` of a typed array. -/
def TypedArray.length (a : TypedArray) : Nat := a.elems.length

/-- The property `byteLength` of a typed array. -/
def TypedArray.byteLength (a : TypedArray) : Nat := a.elems.length * a.kind.bytesPerElement

/-- The bytes seen by `new Uint8Array(data.buffer, data.byteOffset, data.byteLength)`. -/
def TypedArray.bytes (a : TypedArray) : List Nat :=
  a.elems.flatMap (leBytes a.kind.bytesPerElement)

/-- Exceptions raised by the codec. -/
inductive JsError where
  | rangeError
  | typeError
  | error (message : JSString)
deriving DecidableEq, Repr

/-- The constructor `new Float32Array(buffer)` and its siblings: a view of a whole buffer,
a `RangeError` when the byte length is not a multiple of the element size. -/
def TypedArray.ofBuffer (kind : DType) (buffer : List Nat) : Except JsError TypedArray :=
  if buffer.length % kind.bytesPerElement ≠ 0 then .error .rangeError
  else
    .ok { kind := kind,
          elems := (List.range (buffer.length / kind.bytesPerElement)).map fun i =>
            leValue ((buffer.drop (i * kind.bytesPerElement)).take kind.bytesPerElement) }

/-- The method `TypedArray.prototype.set(source, offset)` on a `Uint8Array`. -/
def setBytes (buffer source : List Nat) (offset : Nat) : Except JsError (List Nat) :=
  if offset + source.length > buffer.length then .error .rangeError
  else .ok (buffer.take offset ++ source ++ buffer.drop (offset + source.length))

/-- The method `DataView.prototype.getUint8`. -/
def getUint8 (buffer : List Nat) (i : Nat) : Except JsError Nat :=
  match buffer.get? i with
  | some b => .ok b
  | none => .error .rangeError

/-- The method `DataView.prototype.getUint16(i, true)`. -/
def getUint16LE (buffer : List Nat) (i : Nat) : Except JsError Nat :=
  match buffer.get? i, buffer.get? (i + 1) with
  | some lo, some hi => .ok (lo + 256 * hi)
  | _, _ => .error .rangeError

/-- The method `DataView.prototype.setUint16(0, v, true)` on a fresh two-byte buffer. -/
def setUint16LE (v : Nat) : List Nat :=
  [v % 65536 % 256, v % 65536 / 256]

/-! ## The array codec -/

/-- The text of the shape tuple written by `createNpyFile`. -/
def shapeStr (shape : List Int) : JSString :=
  match shape with
  | [n] => "(".toList ++ jsNumToString n ++ ",)".toList
  | _ => "(".toList ++ jsJoin ", ".toList (shape.map jsNumToString) ++ ")".toList

/-- The constant `headerWithNewline` of `createNpyFile`. -/
def headerWithNewline (shape : List Int) : JSString :=
  "\x7b'descr': '<f4', 'fortran_order': False, 'shape': ".toList ++ shapeStr shape
    ++ "\x7d".toList ++ "\n".toList

/-- The constant `padding` of `createNpyFile`. -/
def headerPadding (shape : List Int) : Nat :=
  (16 - (10 + (headerWithNewline shape).length) % 16) % 16

/-- The constant `paddedHeader` of `createNpyFile`. -/
def paddedHeader (shape : List Int) : JSString :=
  headerWithNewline shape ++ List.replicate (headerPadding shape) ' '

/-- The constant `finalHeaderLen` of `createNpyFile`. -/
def finalHeaderLen (shape : List Int) : Nat :=
  (paddedHeader shape).length

/-- The magic bytes `\x93NUMPY`. -/
def npyMagic : List Nat := [0x93, 0x4E, 0x55, 0x4D, 0x50, 0x59]

/-- The function `createNpyFile(data, shape)`. -/
def createNpyFile (data : TypedArray) (shape : List Int) : Except JsError (List Nat) := do
  let version : List Nat := [0x01, 0x00]
  let headerLenBytes := setUint16LE (finalHeaderLen shape)
  let headerBytes := textEncode (paddedHeader shape)
  let buffer := List.replicate (10 + finalHeaderLen shape + data.byteLength) 0
  let buffer ← setBytes buffer npyMagic 0
  let buffer ← setBytes buffer version 6
  let buffer ← setBytes buffer headerLenBytes 8
  let buffer ← setBytes buffer headerBytes 10
  let buffer ← setBytes buffer data.bytes (10 + finalHeaderLen shape)
  return buffer

/-- The value returned by `parseNpyFile`, also the state variable `depthData`. -/
structure DepthData where
  data : TypedArray
  shape : List Int
  dtype : JSString
deriving DecidableEq, Repr

/-- The element kind selected by the `descr` token, tested in the order of the source. -/
def dtypeOf (dtype : JSString) : DType :=
  if includes "f4".toList dtype || includes "float32".toList dtype then .float32
  else if includes "f8".toList dtype || includes "float64".toList dtype then .float64
  else if includes "i4".toList dtype || includes "int32".toList dtype then .int32
  else if includes "u1".toList dtype || includes "uint8".toList dtype then .uint8
  else .float32

/-- The function `parseNpyFile(buffer)`. -/
def parseNpyFile (buffer : List Nat) : Except JsError DepthData := do
  let b0 ← getUint8 buffer 0
  let b1 ← getUint8 buffer 1
  let b2 ← getUint8 buffer 2
  let b3 ← getUint8 buffer 3
  let b4 ← getUint8 buffer 4
  let b5 ← getUint8 buffer 5
  if [b0, b1, b2, b3, b4, b5] ≠ npyMagic then
    throw (.error "Not a valid .npy file".toList)
  let headerLen ← getUint16LE buffer 8
  if 10 + headerLen > buffer.length then throw .rangeError
  let header := textDecode ((buffer.drop 10).take headerLen)
  match regexSearch matchShapeAt header, regexSearch matchDescrAt header with
  | some shapeText, some dtype =>
    let shape := (splitComma shapeText).filterMap fun s => parseInt (jsTrim s)
    let data ← TypedArray.ofBuffer (dtypeOf dtype) (buffer.drop (10 + headerLen))
    return { data := data, shape := shape, dtype := dtype }
  | _, _ => throw (.error "Could not parse .npy header".toList)

/-! ## Numbers -/

/-- The function `Math.floor` on a finite number. -/
def jsFloor (q : ℚ) : Int := ⌊q⌋

/-- The function `Math.round` on a finite number: the nearest integer, ties towards `+∞`. -/
def jsRound (q : ℚ) : Int := ⌊q + 1 / 2⌋

/-- A number that may be the result of a division by zero. -/
inductive JSNum where
  | fin (q : ℚ)
  | posInf
  | negInf
  | nan
deriving DecidableEq, Repr

/-- The quotient `a / b` of finite numbers, for a divisor `b ≥ 0` (a zero divisor is `+0`). -/
def jsDiv (a b : ℚ) : JSNum :=
  if b = 0 then
    if a = 0 then .nan else if 0 < a then .posInf else .negInf
  else .fin (a / b)

/-- The product `v * k` for a finite constant `k > 0`. -/
def JSNum.scale (v : JSNum) (k : ℚ) : JSNum :=
  match v with
  | .fin q => .fin (q * k)
  | other => other

/-- The expression `Math.round(v) / 100`. -/
def JSNum.roundDiv100 (v : JSNum) : JSNum :=
  match v with
  | .fin q => .fin ((jsRound q : ℚ) / 100)
  | other => other

/-- The comparison `v < c` with a finite constant. -/
def JSNum.ltConst (v : JSNum) (c : ℚ) : Bool :=
  match v with
  | .fin q => decide (q < c)
  | .negInf => true
  | _ => false

/-- The comparison `v > c` with a finite constant. -/
def JSNum.gtConst (v : JSNum) (c : ℚ) : Bool :=
  match v with
  | .fin q => decide (c < q)
  | .posInf => true
  | _ => false

/-- Template-literal text of a value that may be `undefined`. -/
def jsOptToString : Option Int → JSString
  | some n => jsNumToString n
  | none => "undefined".toList

/-- The method `Number.prototype.toFixed(1)` on a finite number: the nearest multiple of one
tenth, ties away from zero. -/
def toFixed1 (q : ℚ) : JSString :=
  let n : Nat := (jsRound (|q| * 10)).toNat
  (if q < 0 then ['-'] else []) ++ Nat.toDigits 10 (n / 10) ++ ['.']
    ++ Nat.toDigits 10 (n % 10)

/-! ## Double-precision arithmetic

Every JavaScript number is an IEEE 754 binary64 value and every `+`, `-`, `*`, `/` rounds
its exact result to the nearest such value, ties to the even mantissa.  A finite double is
the rational it denotes.  Two things are left out: the sign of zero, which no comparison and
no output of this program observes, and the overflow to `Infinity`, which needs a magnitude
of about `1.8e308`. -/

/-- The nearest integer, a tie going to the even one. -/
def roundHalfEven (q : ℚ) : Int :=
  if q - ⌊q⌋ < 1 / 2 then ⌊q⌋
  else if 1 / 2 < q - ⌊q⌋ then ⌊q⌋ + 1
  else if ⌊q⌋ % 2 = 0 then ⌊q⌋ else ⌊q⌋ + 1

/-- The binary exponent of the unit in the last place of the doubles around `q`: 52 below the
binary exponent of `q` for a normal number, `-1074` in the subnormal range. -/
def ulpExponent (q : ℚ) : Int :=
  max (Int.log 2 |q| - 52) (-1074)

/-- The double nearest to a rational, ties to even: the value a JavaScript operation stores
for the exact result `q`. -/
def toDouble (q : ℚ) : ℚ :=
  (roundHalfEven (q / 2 ^ ulpExponent q) : ℚ) * 2 ^ ulpExponent q

/-- The JavaScript sum `a + b` of two finite numbers. -/
def add64 (a b : ℚ) : ℚ := toDouble (a + b)

/-- The JavaScript difference `a - b` of two finite numbers. -/
def sub64 (a b : ℚ) : ℚ := toDouble (a - b)

/-- The JavaScript product `a * b` of two finite numbers. -/
def mul64 (a b : ℚ) : ℚ := toDouble (a * b)

/-- Rounding of a result that may be infinite or `NaN`. -/
def JSNum.round64 (v : JSNum) : JSNum :=
  match v with
  | .fin q => .fin (toDouble q)
  | other => other

/-- The JavaScript quotient `a / b` of two finite numbers, for a divisor `b ≥ 0`. -/
def div64 (a b : ℚ) : JSNum := (jsDiv a b).round64

/-- The JavaScript product `v * k` for a finite constant `k > 0`. -/
def JSNum.scale64 (v : JSNum) (k : ℚ) : JSNum := (v.scale k).round64

/-- The expression `Math.round(v) / 100` in double arithmetic; `Math.round` is exact. -/
def JSNum.roundDiv100At64 (v : JSNum) : JSNum :=
  match v with
  | .fin q => .fin (toDouble ((jsRound q : ℚ) / 100))
  | other => other

/-! ## Data model -/

/-- The crop rectangle `cropArea`, in raster pixel space. -/
structure Rect where
  x : ℚ
  y : ℚ
  width : ℚ
  height : ℚ
deriving DecidableEq, Repr

/-- A pointer position in canvas pixel space, as returned by `getMousePos`. -/
structure Point where
  x : ℚ
  y : ℚ
deriving DecidableEq, Repr

/-- The image element `imgElementRef.current`. -/
structure ImgElement where
  naturalWidth : Nat
  naturalHeight : Nat
deriving DecidableEq, Repr

/-- The canvas element `canvasRef.current`. -/
structure Canvas where
  width : Nat
  height : Nat
deriving DecidableEq, Repr

/-- The integer crop window. -/
structure CropWindow where
  startX : Int
  startY : Int
  endX : Int
  endY : Int
  croppedWidth : Int
  croppedHeight : Int
deriving DecidableEq, Repr

/-- The record `details.cropBox`, also `metadata.cropBox`. -/
structure CropBox where
  x : Int
  y : Int
  width : Int
  height : Int
  right : Int
  bottom : Int
deriving DecidableEq, Repr

/-- The record `details.borderValidation`. -/
structure BorderValidation where
  expectedWidth : Int
  expectedHeight : Int
  actualWidth : Int
  actualHeight : Int
  widthDiff : Int
  heightDiff : Int
deriving DecidableEq, Repr

/-- The record `details.dataQuality`. -/
structure DataQuality where
  totalPixels : Nat
  validPixels : Nat
  validPercentage : JSNum
deriving DecidableEq, Repr

/-- The record `details` of a report computed on loaded data.  Its constant entry
`npyCompatibility` is left out. -/
structure Details where
  originalWidth : Nat
  originalHeight : Nat
  depthWidth : Option Int
  depthHeight : Option Int
  dimensionsMatch : Bool
  cropBox : CropBox
  areaPercent : JSNum
  croppedWidth : Int
  croppedHeight : Int
  borderValidation : BorderValidation
  dataQuality : DataQuality
deriving DecidableEq, Repr

/-- The state variable `validationStatus`; `details = none` is the empty record. -/
structure ValidationStatus where
  isValid : Bool
  issues : List JSString
  warnings : List JSString
  details : Option Details
deriving DecidableEq, Repr

/-! ## Validation (`runValidation`) -/

/-- Step 1: the pair `(depthWidth, depthHeight)` extracted from the shape; `none` when the
shape is neither rank 2 nor rank 3 with a trailing 1, in which case both stay `undefined`. -/
def depthDims : List Int → Option (Int × Int)
  | [h, w] => some (w, h)
  | [h, w, c] => if c = 1 then some (w, h) else none
  | _ => none

/-- Step 4: the integer crop window computed by `runValidation`. -/
def validationWindow (cropArea : Rect) (rgbWidth rgbHeight : Nat) : CropWindow :=
  let startY := jsFloor cropArea.y
  let endY := min (jsFloor (cropArea.y + cropArea.height)) (rgbHeight : Int)
  let startX := jsFloor cropArea.x
  let endX := min (jsFloor (cropArea.x + cropArea.width)) (rgbWidth : Int)
  { startX := startX, startY := startY, endX := endX, endY := endY,
    croppedWidth := endX - startX, croppedHeight := endY - startY }

/-- The dimension-mismatch issue. -/
def msgDimensionMismatch (rgbWidth rgbHeight : Nat) (depthWidth depthHeight : Option Int) :
    JSString :=
  "RGB and Depth dimensions do not match: RGB (".toList ++ jsNumToString rgbWidth
    ++ "x".toList ++ jsNumToString rgbHeight ++ ") vs Depth (".toList
    ++ jsOptToString depthWidth ++ "x".toList ++ jsOptToString depthHeight ++ ")".toList

/-- The critical width-mismatch issue. -/
def msgWidthMismatch (expected actual diff : Int) : JSString :=
  "CRITICAL: Width dimension mismatch - expected ".toList ++ jsNumToString expected
    ++ ", got ".toList ++ jsNumToString actual ++ " (".toList ++ jsNumToString diff
    ++ "px difference)".toList

/-- The critical height-mismatch issue. -/
def msgHeightMismatch (expected actual diff : Int) : JSString :=
  "CRITICAL: Height dimension mismatch - expected ".toList ++ jsNumToString expected
    ++ ", got ".toList ++ jsNumToString actual ++ " (".toList ++ jsNumToString diff
    ++ "px difference)".toList

/-- The one-pixel width-adjustment warning. -/
def msgWidthAdjusted (expected actual : Int) : JSString :=
  "BORDER ADJUSTMENT: Width adjusted by 1px (".toList ++ jsNumToString expected
    ++ " ‚Üí ".toList ++ jsNumToString actual ++ ")".toList

/-- The one-pixel height-adjustment warning. -/
def msgHeightAdjusted (expected actual : Int) : JSString :=
  "BORDER ADJUSTMENT: Height adjusted by 1px (".toList ++ jsNumToString expected
    ++ " ‚Üí ".toList ++ jsNumToString actual ++ ")".toList

/-- The invalid-cropped-dimensions issue. -/
def msgInvalidCropped (croppedWidth croppedHeight : Int) : JSString :=
  "CRITICAL: Invalid cropped dimensions - ".toList ++ jsNumToString croppedWidth
    ++ " √ó ".toList ++ jsNumToString croppedHeight

/-- The low-data-quality warning. -/
def msgLowQuality (validPercentage : ℚ) : JSString :=
  "Low depth data quality: ".toList ++ toFixed1 validPercentage ++ "% valid pixels".toList

/-- The test `!isNaN(val) && isFinite(val)` on an element, read from its bit pattern: a float
is finite unless its exponent field is all ones; integers are always finite. -/
def isFiniteElem (kind : DType) (bits : Nat) : Bool :=
  match kind with
  | .float32 => bits / 2 ^ 23 % 256 != 255
  | .float64 => bits / 2 ^ 52 % 2048 != 2047
  | .int32 => true
  | .uint8 => true

/-- The unrounded `areaPercent` of step 3. -/
def areaPercentOf (cropArea : Rect) (rgbWidth rgbHeight : Nat) : JSNum :=
  (jsDiv (cropArea.width * cropArea.height) ((rgbWidth : ℚ) * (rgbHeight : ℚ))).scale 100

/-- The unrounded `validPercentage` of the data quality check. -/
def validPercentageOf (data : TypedArray) : JSNum :=
  (jsDiv (((data.elems.filter (isFiniteElem data.kind)).length : ℕ) : ℚ)
    ((data.elems.length : ℕ) : ℚ)).scale 100

/-- The array `issues` after all the checks, in the order they are pushed. -/
def validationIssues (img : ImgElement) (depthData : DepthData) (cropArea : Rect) :
    List JSString :=
  let rgbWidth := img.naturalWidth
  let rgbHeight := img.naturalHeight
  let depthWidth := (depthDims depthData.shape).map Prod.fst
  let depthHeight := (depthDims depthData.shape).map Prod.snd
  let cropRight := cropArea.x + cropArea.width
  let cropBottom := cropArea.y + cropArea.height
  let w := validationWindow cropArea rgbWidth rgbHeight
  let expectedWidth := jsRound cropArea.width
  let expectedHeight := jsRound cropArea.height
  let widthDiff := |expectedWidth - w.croppedWidth|
  let heightDiff := |expectedHeight - w.croppedHeight|
  (if depthDims depthData.shape = none then ["Unsupported depth data format".toList] else [])
  ++ (if some (rgbWidth : Int) ≠ depthWidth ∨ some (rgbHeight : Int) ≠ depthHeight then
        [msgDimensionMismatch rgbWidth rgbHeight depthWidth depthHeight] else [])
  ++ (if cropArea.x < 0 ∨ cropArea.y < 0 then ["Crop coordinates are negative".toList] else [])
  ++ (if cropRight > rgbWidth ∨ cropBottom > rgbHeight then
        ["Crop extends beyond image boundaries".toList] else [])
  ++ (if cropArea.width ≤ 0 ∨ cropArea.height ≤ 0 then
        ["Crop dimensions are invalid (zero or negative)".toList] else [])
  ++ (if widthDiff > 1 then [msgWidthMismatch expectedWidth w.croppedWidth widthDiff] else [])
  ++ (if heightDiff > 1 then [msgHeightMismatch expectedHeight w.croppedHeight heightDiff]
      else [])
  ++ (if w.croppedWidth ≤ 0 ∨ w.croppedHeight ≤ 0 then
        [msgInvalidCropped w.croppedWidth w.croppedHeight] else [])
  ++ (if w.croppedWidth > rgbWidth ∨ w.croppedHeight > rgbHeight then
        ["CRITICAL: Cropped dimensions exceed original image bounds".toList] else [])
  ++ (if w.startX < 0 ∨ w.startY < 0 ∨ w.endX > rgbWidth ∨ w.endY > rgbHeight then
        ["CRITICAL: Crop coordinates extend beyond image boundaries".toList] else [])

/-- The array `warnings` after all the checks, in the order they are pushed. -/
def validationWarnings (img : ImgElement) (depthData : DepthData) (cropArea : Rect) :
    List JSString :=
  let rgbWidth := img.naturalWidth
  let rgbHeight := img.naturalHeight
  let areaPercent := areaPercentOf cropArea rgbWidth rgbHeight
  let w := validationWindow cropArea rgbWidth rgbHeight
  let expectedWidth := jsRound cropArea.width
  let expectedHeight := jsRound cropArea.height
  let widthDiff := |expectedWidth - w.croppedWidth|
  let heightDiff := |expectedHeight - w.croppedHeight|
  (if areaPercent.ltConst 1 then ["Crop area is very small (< 1%)".toList]
   else if areaPercent.gtConst 95 then ["Crop area is very large (> 95%)".toList] else [])
  ++ (if widthDiff > 1 then []
      else if widthDiff = 1 then [msgWidthAdjusted expectedWidth w.croppedWidth] else [])
  ++ (if heightDiff > 1 then []
      else if heightDiff = 1 then [msgHeightAdjusted expectedHeight w.croppedHeight] else [])
  ++ (match validPercentageOf depthData.data with
      | .fin p => if p < 90 then [msgLowQuality p] else []
      | .negInf => ["Low depth data quality: -Infinity% valid pixels".toList]
      | _ => [])

/-- The record `details` after all the checks. -/
def validationDetails (img : ImgElement) (depthData : DepthData) (cropArea : Rect) : Details :=
  let rgbWidth := img.naturalWidth
  let rgbHeight := img.naturalHeight
  let depthWidth := (depthDims depthData.shape).map Prod.fst
  let depthHeight := (depthDims depthData.shape).map Prod.snd
  let w := validationWindow cropArea rgbWidth rgbHeight
  let expectedWidth := jsRound cropArea.width
  let expectedHeight := jsRound cropArea.height
  { originalWidth := rgbWidth
    originalHeight := rgbHeight
    depthWidth := depthWidth
    depthHeight := depthHeight
    dimensionsMatch :=
      if some (rgbWidth : Int) ≠ depthWidth ∨ some (rgbHeight : Int) ≠ depthHeight then false
      else true
    cropBox :=
      { x := jsRound cropArea.x, y := jsRound cropArea.y
        width := jsRound cropArea.width, height := jsRound cropArea.height
        right := jsRound (cropArea.x + cropArea.width)
        bottom := jsRound (cropArea.y + cropArea.height) }
    areaPercent := ((areaPercentOf cropArea rgbWidth rgbHeight).scale 100).roundDiv100
    croppedWidth := w.croppedWidth
    croppedHeight := w.croppedHeight
    borderValidation :=
      { expectedWidth := expectedWidth, expectedHeight := expectedHeight
        actualWidth := w.croppedWidth, actualHeight := w.croppedHeight
        widthDiff := |expectedWidth - w.croppedWidth|
        heightDiff := |expectedHeight - w.croppedHeight| }
    dataQuality :=
      { totalPixels := depthData.data.elems.length
        validPixels := (depthData.data.elems.filter (isFiniteElem depthData.data.kind)).length
        validPercentage := ((validPercentageOf depthData.data).scale 100).roundDiv100 } }

/-- The function `runValidation`: the value it passes to `setValidationStatus`, from the image
element, `depthData` and `cropArea`. -/
def runValidation (img : Option ImgElement) (depthData : Option DepthData)
    (cropArea : Option Rect) : ValidationStatus :=
  match img, depthData, cropArea with
  | some img, some depthData, some cropArea =>
    { isValid := decide ((validationIssues img depthData cropArea).length = 0)
      issues := validationIssues img depthData cropArea
      warnings := validationWarnings img depthData cropArea
      details := some (validationDetails img depthData cropArea) }
  | _, _, _ =>
    { isValid := false
      issues := ["No crop area defined or data not loaded".toList]
      warnings := []
      details := none }

/-! ## Crop geometry (pointer handlers) -/

/-- The state variable `dragMode`. -/
inductive DragMode where
  | create
  | move
  | resize
deriving DecidableEq, Repr

/-- The state of the component: its `useState` variables and the two element references. -/
structure State where
  rgbImage : Option JSString
  depthData : Option DepthData
  cropArea : Option Rect
  isDragging : Bool
  dragStart : Point
  dragMode : DragMode
  imageLoaded : Bool
  depthLoaded : Bool
  error : JSString
  validationStatus : ValidationStatus
  img : Option ImgElement
  canvas : Canvas
deriving DecidableEq, Repr

/-- The function `isInsideCropArea(pos)`. -/
def isInsideCropArea (cropArea : Option Rect) (pos : Point) : Bool :=
  match cropArea with
  | none => false
  | some r =>
    decide (pos.x ≥ r.x) && decide (pos.x ≤ r.x + r.width) &&
      decide (pos.y ≥ r.y) && decide (pos.y ≤ r.y + r.height)

/-- The handler `handleMouseDown`, on the pointer position `getMousePos(e)`. -/
def handleMouseDown (s : State) (pos : Point) : State :=
  if !s.imageLoaded then s
  else
    match s.cropArea with
    | some r =>
      if isInsideCropArea (some r) pos then
        { s with dragMode := .move, isDragging := true,
                 dragStart := { x := pos.x - r.x, y := pos.y - r.y } }
      else
        { s with dragMode := .create, isDragging := true, dragStart := pos,
                 cropArea := some { x := pos.x, y := pos.y, width := 0, height := 0 } }
    | none =>
      { s with dragMode := .create, isDragging := true, dragStart := pos,
               cropArea := some { x := pos.x, y := pos.y, width := 0, height := 0 } }

/-- The handler `handleMouseMove`, on the pointer position `getMousePos(e)`.  The differences
are the doubles the platform computes; `Math.max`, `Math.min` and `Math.abs` are exact. -/
def handleMouseMove (s : State) (pos : Point) : State :=
  if !s.isDragging || !s.imageLoaded then s
  else
    match s.dragMode, s.cropArea with
    | .move, some r =>
      let newX := max 0 (min (sub64 pos.x s.dragStart.x) (sub64 (s.canvas.width : ℚ) r.width))
      let newY := max 0 (min (sub64 pos.y s.dragStart.y) (sub64 (s.canvas.height : ℚ) r.height))
      { s with cropArea := some { x := newX, y := newY, width := r.width, height := r.height } }
    | .create, _ =>
      { s with cropArea := some { x := min s.dragStart.x pos.x, y := min s.dragStart.y pos.y,
                                  width := |sub64 pos.x s.dragStart.x|,
                                  height := |sub64 pos.y s.dragStart.y| } }
    | _, _ => s

/-- The handler `handleMouseUp`. -/
def handleMouseUp (s : State) : State :=
  { s with isDragging := false, dragMode := .create }

/-- The function `clearCrop`. -/
def clearCrop (s : State) : State :=
  { s with cropArea := none }

/-- The function `resetAll`. -/
def resetAll (s : State) : State :=
  { s with rgbImage := none, depthData := none, cropArea := none, imageLoaded := false,
           depthLoaded := false, error := [],
           validationStatus := { isValid := false, issues := [], warnings := [], details := none } }

/-! ## Export (`downloadCropped`) -/

/-- The integer crop window recomputed by `downloadCropped`. -/
def exportWindow (cropArea : Rect) (img : ImgElement) : CropWindow :=
  let startY := jsFloor cropArea.y
  let endY := min (jsFloor (cropArea.y + cropArea.height)) (img.naturalHeight : Int)
  let startX := jsFloor cropArea.x
  let endX := min (jsFloor (cropArea.x + cropArea.width)) (img.naturalWidth : Int)
  { startX := startX, startY := startY, endX := endX, endY := endY,
    croppedWidth := endX - startX, croppedHeight := endY - startY }

/-- The read `data[i]` of a typed array; `none` is `undefined`, also for an index that is
`NaN` (given as `none`), negative or past the end. -/
def readElem (data : TypedArray) (i : Option Int) : Option Nat :=
  match i with
  | some i => if 0 ≤ i then data.elems.get? i.toNat else none
  | none => none

/-- The write `array[i] = v` on a typed array: ignored outside the bounds. -/
def writeElem (elems : List Nat) (i : Int) (v : Nat) : List Nat :=
  if 0 ≤ i then elems.set i.toNat v else elems

/-- The two gather loops of `downloadCropped`, over a zero-filled `Float32Array`.  The
conversion `toFloat32 kind v` is the bit pattern stored in a `Float32Array` when it is assigned
the value read from an array of the given kind (`none` for `undefined`). -/
def cropDepth (toFloat32 : DType → Option Nat → Nat) (depthData : DepthData) (w : CropWindow) :
    Except JsError TypedArray :=
  let width : Option Int := depthData.shape.get? 1
  if w.croppedHeight * w.croppedWidth < 0 then .error .rangeError
  else
    .ok { kind := .float32
          elems :=
            (List.range w.croppedHeight.toNat).foldl (fun croppedData (y : Nat) =>
              (List.range w.croppedWidth.toNat).foldl (fun croppedData (x : Nat) =>
                let srcIdx := width.map fun width =>
                  (w.startY + (y : Int)) * width + (w.startX + (x : Int))
                let dstIdx : Int := (y : Int) * w.croppedWidth + (x : Int)
                writeElem croppedData dstIdx (toFloat32 depthData.data.kind
                  (readElem depthData.data srcIdx))) croppedData)
              (List.replicate (w.croppedHeight * w.croppedWidth).toNat 0) }

/-- The region of the image drawn on the export canvas by `drawImage`. -/
structure RasterCrop where
  sx : Int
  sy : Int
  width : Int
  height : Int
deriving DecidableEq, Repr

/-- The record `croppedFrom` of the metadata. -/
structure CroppedFrom where
  top : Int
  right : Int
  bottom : Int
  left : Int
deriving DecidableEq, Repr

/-- The record `remainingArea` of the metadata. -/
structure RemainingArea where
  widthPercent : JSNum
  heightPercent : JSNum
  areaPercent : JSNum
deriving DecidableEq, Repr

/-- The record written to `crop_metadata.json`. -/
structure Metadata where
  originalWidth : Nat
  originalHeight : Nat
  cropBox : CropBox
  croppedFrom : CroppedFrom
  remainingArea : RemainingArea
  timestamp : JSString
  folderName : JSString
deriving DecidableEq, Repr

/-- The content of the ZIP archive: the `original` and the `crop` folders. -/
structure ExportBundle where
  folderName : JSString
  originalRgb : Option JSString
  originalDepth : List Nat
  cropRgb : RasterCrop
  cropDepth : List Nat
  metadata : Metadata
deriving DecidableEq, Repr

/-- What a call of `downloadCropped` does. -/
inductive ExportOutcome where
  /-- The first guard returned: nothing is reported. -/
  | ignored
  /-- The validation gate returned after `setError(message)`. -/
  | blocked (message : JSString)
  /-- An exception was caught: `setError('Error creating ZIP download: ' + err.message)`. -/
  | failed (err : JsError)
  /-- The archive was generated and `setError('')` called. -/
  | exported (bundle : ExportBundle)
deriving DecidableEq, Repr

/-- The folder name derived from the ISO timestamp. -/
def folderNameOf (iso : JSString) : JSString :=
  "rgbd_crop_".toList ++ (iso.map fun c => if c = ':' ∨ c = '.' then '-' else c).take 19

/-- The metadata record built by `downloadCropped`. -/
def metadataOf (cropArea : Rect) (img : ImgElement) (w : CropWindow) (iso : JSString) :
    Metadata :=
  { originalWidth := img.naturalWidth
    originalHeight := img.naturalHeight
    cropBox :=
      { x := jsRound cropArea.x, y := jsRound cropArea.y
        width := w.croppedWidth, height := w.croppedHeight
        right := jsRound cropArea.x + w.croppedWidth
        bottom := jsRound cropArea.y + w.croppedHeight }
    croppedFrom :=
      { top := jsRound cropArea.y
        right := jsRound ((img.naturalWidth : ℚ) - (cropArea.x + (w.croppedWidth : ℚ)))
        bottom := jsRound ((img.naturalHeight : ℚ) - (cropArea.y + (w.croppedHeight : ℚ)))
        left := jsRound cropArea.x }
    remainingArea :=
      { widthPercent :=
          ((jsDiv (w.croppedWidth : ℚ) (img.naturalWidth : ℚ)).scale 100).roundDiv100
        heightPercent :=
          ((jsDiv (w.croppedHeight : ℚ) (img.naturalHeight : ℚ)).scale 100).roundDiv100
        areaPercent :=
          (((jsDiv ((w.croppedWidth : ℚ) * (w.croppedHeight : ℚ))
              ((img.naturalWidth : ℚ) * (img.naturalHeight : ℚ))).scale 100).scale 100).roundDiv100 }
    timestamp := iso
    folderName := folderNameOf iso }

/-- The function `downloadCropped`, given the float32 conversion of the platform and the ISO
text of the current date. -/
def downloadCropped (toFloat32 : DType → Option Nat → Nat) (iso : JSString) (s : State) :
    ExportOutcome :=
  match s.cropArea, s.imageLoaded, s.depthLoaded, s.depthData with
  | some cropArea, true, true, some depthData =>
    if !s.validationStatus.isValid then
      .blocked ("Validation failed: ".toList ++ jsJoin ", ".toList s.validationStatus.issues)
    else
      match s.img with
      | none => .failed .typeError
      | some img =>
        let w := exportWindow cropArea img
        match cropDepth toFloat32 depthData w with
        | .error e => .failed e
        | .ok croppedData =>
          match createNpyFile croppedData [w.croppedHeight, w.croppedWidth],
              createNpyFile depthData.data depthData.shape with
          | .ok depthBuffer, .ok originalDepthBuffer =>
            .exported
              { folderName := folderNameOf iso
                originalRgb := s.rgbImage
                originalDepth := originalDepthBuffer
                cropRgb := { sx := w.startX, sy := w.startY, width := w.croppedWidth,
                             height := w.croppedHeight }
                cropDepth := depthBuffer
                metadata := metadataOf cropArea img w iso }
          | .error e, _ => .failed e
          | _, .error e => .failed e
  | _, _, _, _ => .ignored

/-! ## Component state -/

/-- The state of the component when it is mounted: the initial values of its `useState`
variables, an image element without a source, and a canvas of the default size. -/
def initialState : State :=
  { rgbImage := none
    depthData := none
    cropArea := none
    isDragging := false
    dragStart := { x := 0, y := 0 }
    dragMode := .create
    imageLoaded := false
    depthLoaded := false
    error := []
    validationStatus := { isValid := false, issues := [], warnings := [], details := none }
    img := some { naturalWidth := 0, naturalHeight := 0 }
    canvas := { width := 300, height := 150 } }

/-- The effect that runs `runValidation` after a render and stores its report. -/
def validated (s : State) : State :=
  { s with validationStatus := runValidation s.img s.depthData s.cropArea }

/-- A state in which an image and a depth array are loaded and a rectangle is selected. -/
def loadedState (img : ImgElement) (depthData : DepthData) (cropArea : Rect)
    (report : ValidationStatus) : State :=
  { rgbImage := some "data:image/png;base64,".toList
    depthData := some depthData
    cropArea := some cropArea
    isDragging := false
    dragStart := { x := 0, y := 0 }
    dragMode := .create
    imageLoaded := true
    depthLoaded := true
    error := []
    validationStatus := report
    img := some img
    canvas := { width := img.naturalWidth, height := img.naturalHeight } }

/-- The same state while the rectangle is being moved, grabbed at `anchor`. -/
def movingState (img : ImgElement) (depthData : DepthData) (cropArea : Rect)
    (report : ValidationStatus) (anchor : Point) : State :=
  { loadedState img depthData cropArea report with
    isDragging := true, dragMode := .move, dragStart := anchor }

/-- A report without issues. -/
def passingReport : ValidationStatus :=
  { isValid := true, issues := [], warnings := [], details := none }

/-- A report with one blocking issue. -/
def failingReport : ValidationStatus :=
  { isValid := false, issues := ["Crop coordinates are negative".toList], warnings := [],
    details := none }

/-- A depth array of shape `[2, 3]` of the given kind, with the given element bit patterns,
decoded from a file whose `descr` token is `dtype`. -/
def depth2x3 (kind : DType) (elems : List Nat) (dtype : JSString) : DepthData :=
  { data := { kind := kind, elems := elems }, shape := [2, 3], dtype := dtype }

/-- The bytes `createNpyFile` writes, as one concatenation. -/
def npyBytes (data : TypedArray) (shape : List Int) : List Nat :=
  npyMagic ++ [1, 0] ++ setUint16LE (finalHeaderLen shape) ++ textEncode (paddedHeader shape)
    ++ data.bytes

/-! ## Vocabulary of the properties -/

/-- A decimal digit character. -/
def IsDecDigit (c : Char) : Prop := 48 ≤ c.toNat ∧ c.toNat ≤ 57

instance (c : Char) : Decidable (IsDecDigit c) := by
  unfold IsDecDigit; infer_instance

/-- Text made of ASCII characters only. -/
def IsAsciiText (s : JSString) : Prop := ∀ c ∈ s, c.toNat < 128

instance (s : JSString) : Decidable (IsAsciiText s) := by
  unfold IsAsciiText; infer_instance

/-- A text occurs inside a message. -/
def Occurs (needle s : JSString) : Prop := needle <:+: s

instance (needle s : JSString) : Decidable (Occurs needle s) := by
  unfold Occurs; infer_instance

/-- A character that can occur in the text of an integer. -/
def IsNumChar (c : Char) : Prop := c = '-' ∨ IsDecDigit c

instance (c : Char) : Decidable (IsNumChar c) := by
  unfold IsNumChar; infer_instance

/-- An issue that reports a critical width mismatch. -/
def IsWidthMismatchIssue (m : JSString) : Prop :=
  "CRITICAL: Width dimension mismatch".toList <+: m

/-- An issue that reports a critical height mismatch. -/
def IsHeightMismatchIssue (m : JSString) : Prop :=
  "CRITICAL: Height dimension mismatch".toList <+: m

/-- A warning that reports a width adjusted by one pixel. -/
def IsWidthAdjustedWarning (m : JSString) : Prop :=
  "BORDER ADJUSTMENT: Width adjusted by 1px".toList <+: m

/-- A warning that reports a height adjusted by one pixel. -/
def IsHeightAdjustedWarning (m : JSString) : Prop :=
  "BORDER ADJUSTMENT: Height adjusted by 1px".toList <+: m

/-- The inner loop over `x`, with natural-number indices. -/
def fillRow (g : Nat → Nat → Nat) (c y n : Nat) (dst : List Nat) : List Nat :=
  (List.range n).foldl (fun dst x => dst.set (y * c + x) (g y x)) dst

/-- The outer loop over `y`, with natural-number indices. -/
def fillRows (g : Nat → Nat → Nat) (c m : Nat) (dst : List Nat) : List Nat :=
  (List.range m).foldl (fun dst y => fillRow g c y c dst) dst

/-- The value gathered for the destination cell `(y, x)`. -/
def gathered (toFloat32 : DType → Option Nat → Nat) (depthData : DepthData) (w : CropWindow)
    (y x : Nat) : Nat :=
  toFloat32 depthData.data.kind (readElem depthData.data
    ((depthData.shape.get? 1).map fun width => (w.startY + y) * width + (w.startX + x)))

/-! ## Vocabulary of the decoder properties -/

/-- The little-endian 16-bit field at offset 8 of a buffer of at least ten bytes. -/
def headerLenOf (buffer : List Nat) : Nat :=
  buffer.getD 8 0 + 256 * buffer.getD 9 0

/-- The header text: the `headerLen` bytes at offset 10, decoded. -/
def headerTextOf (buffer : List Nat) : JSString :=
  textDecode ((buffer.drop 10).take (headerLenOf buffer))

/-- The payload: the bytes after the header. -/
def payloadOf (buffer : List Nat) : List Nat :=
  buffer.drop (10 + headerLenOf buffer)

/-- The text contains a parenthesised non-empty `'shape'` tuple: `'shape':`, white space,
`(`, at least one character other than `)`, and `)`. -/
def HasShapeTuple (header : JSString) : Prop :=
  ∃ before ws body after,
    header = before ++ ("'shape':".toList ++ (ws ++ '(' :: (body ++ ')' :: after))) ∧
      (∀ c ∈ ws, isJsWhitespace c = true) ∧ body ≠ [] ∧ ∀ c ∈ body, c ≠ ')'

/-- The text contains a quoted non-empty `'descr'` string: `'descr':`, white space, a quote,
at least one character other than a quote, and a quote. -/
def HasDescrString (header : JSString) : Prop :=
  ∃ before ws body after,
    header = before ++ ("'descr':".toList ++ (ws ++ '\'' :: (body ++ '\'' :: after))) ∧
      (∀ c ∈ ws, isJsWhitespace c = true) ∧ body ≠ [] ∧ ∀ c ∈ body, c ≠ '\''

/-! ## Vocabulary of the validation properties -/

/-- An issue that reports an empty integer window. -/
def IsInvalidCroppedIssue (m : JSString) : Prop :=
  "CRITICAL: Invalid cropped dimensions".toList <+: m

instance (m : JSString) : Decidable (IsInvalidCroppedIssue m) := by
  unfold IsInvalidCroppedIssue; infer_instance

/-- An issue that reports a depth size different from the raster size. -/
def IsDimensionMismatchIssue (m : JSString) : Prop :=
  "RGB and Depth dimensions do not match".toList <+: m

instance (m : JSString) : Decidable (IsDimensionMismatchIssue m) := by
  unfold IsDimensionMismatchIssue; infer_instance

/-- A shape the validation accepts: rank 2, or rank 3 with `shape[2] = 1`. -/
def IsSupportedShape (shape : List Int) : Prop :=
  shape.length = 2 ∨ (shape.length = 3 ∧ shape.get? 2 = some 1)

instance (shape : List Int) : Decidable (IsSupportedShape shape) := by
  unfold IsSupportedShape; infer_instance

/-- A file with the given header text and payload: the magic, version 1.0, the length of the
encoded header on two bytes, the encoded header and the payload. -/
def npyFileOf (header : JSString) (payload : List Nat) : List Nat :=
  npyMagic ++ [1, 0] ++ setUint16LE (textEncode header).length ++ textEncode header ++ payload

/-- A file whose header declares little-endian 16-bit integers, a descr token that names
none of the four supported kinds, over the given payload. -/
def int16File (payload : List Nat) : List Nat :=
  npyFileOf "\x7b'descr': '<i2', 'fortran_order': False, 'shape': (3,), \x7d".toList payload

/-! ## Validation in double arithmetic

The definitions of `runValidation` above compute its sums, products and quotients on exact
rationals.  Here is the function again with each of them rounded as the platform rounds it.
`Math.floor`, `Math.round`, `Math.min`, `Math.abs` and the comparisons are exact on doubles.
The differences `endX - startX` and `endY - startY` of the integer window are kept exact:
they are exact in doubles below `2^53`. -/

/-- Step 4 in double arithmetic: the integer crop window computed by `runValidation`. -/
def validationWindow64 (cropArea : Rect) (rgbWidth rgbHeight : Nat) : CropWindow :=
  let startY := jsFloor cropArea.y
  let endY := min (jsFloor (add64 cropArea.y cropArea.height)) (rgbHeight : Int)
  let startX := jsFloor cropArea.x
  let endX := min (jsFloor (add64 cropArea.x cropArea.width)) (rgbWidth : Int)
  { startX := startX, startY := startY, endX := endX, endY := endY,
    croppedWidth := endX - startX, croppedHeight := endY - startY }

/-- The `areaPercent` of step 3 in double arithmetic, before `details` rounds it. -/
def areaPercentOf64 (cropArea : Rect) (rgbWidth rgbHeight : Nat) : JSNum :=
  (div64 (mul64 cropArea.width cropArea.height)
    (mul64 (rgbWidth : ℚ) (rgbHeight : ℚ))).scale64 100

/-- The `validPercentage` of the data quality check in double arithmetic. -/
def validPercentageOf64 (data : TypedArray) : JSNum :=
  (div64 (((data.elems.filter (isFiniteElem data.kind)).length : ℕ) : ℚ)
    ((data.elems.length : ℕ) : ℚ)).scale64 100

/-- The array `issues` after all the checks, in double arithmetic. -/
def validationIssues64 (img : ImgElement) (depthData : DepthData) (cropArea : Rect) :
    List JSString :=
  let rgbWidth := img.naturalWidth
  let rgbHeight := img.naturalHeight
  let depthWidth := (depthDims depthData.shape).map Prod.fst
  let depthHeight := (depthDims depthData.shape).map Prod.snd
  let cropRight := add64 cropArea.x cropArea.width
  let cropBottom := add64 cropArea.y cropArea.height
  let w := validationWindow64 cropArea rgbWidth rgbHeight
  let expectedWidth := jsRound cropArea.width
  let expectedHeight := jsRound cropArea.height
  let widthDiff := |expectedWidth - w.croppedWidth|
  let heightDiff := |expectedHeight - w.croppedHeight|
  (if depthDims depthData.shape = none then ["Unsupported depth data format".toList] else [])
  ++ (if some (rgbWidth : Int) ≠ depthWidth ∨ some (rgbHeight : Int) ≠ depthHeight then
        [msgDimensionMismatch rgbWidth rgbHeight depthWidth depthHeight] else [])
  ++ (if cropArea.x < 0 ∨ cropArea.y < 0 then ["Crop coordinates are negative".toList] else [])
  ++ (if cropRight > rgbWidth ∨ cropBottom > rgbHeight then
        ["Crop extends beyond image boundaries".toList] else [])
  ++ (if cropArea.width ≤ 0 ∨ cropArea.height ≤ 0 then
        ["Crop dimensions are invalid (zero or negative)".toList] else [])
  ++ (if widthDiff > 1 then [msgWidthMismatch expectedWidth w.croppedWidth widthDiff] else [])
  ++ (if heightDiff > 1 then [msgHeightMismatch expectedHeight w.croppedHeight heightDiff]
      else [])
  ++ (if w.croppedWidth ≤ 0 ∨ w.croppedHeight ≤ 0 then
        [msgInvalidCropped w.croppedWidth w.croppedHeight] else [])
  ++ (if w.croppedWidth > rgbWidth ∨ w.croppedHeight > rgbHeight then
        ["CRITICAL: Cropped dimensions exceed original image bounds".toList] else [])
  ++ (if w.startX < 0 ∨ w.startY < 0 ∨ w.endX > rgbWidth ∨ w.endY > rgbHeight then
        ["CRITICAL: Crop coordinates extend beyond image boundaries".toList] else [])

/-- The array `warnings` after all the checks, in double arithmetic. -/
def validationWarnings64 (img : ImgElement) (depthData : DepthData) (cropArea : Rect) :
    List JSString :=
  let rgbWidth := img.naturalWidth
  let rgbHeight := img.naturalHeight
  let areaPercent := areaPercentOf64 cropArea rgbWidth rgbHeight
  let w := validationWindow64 cropArea rgbWidth rgbHeight
  let expectedWidth := jsRound cropArea.width
  let expectedHeight := jsRound cropArea.height
  let widthDiff := |expectedWidth - w.croppedWidth|
  let heightDiff := |expectedHeight - w.croppedHeight|
  (if areaPercent.ltConst 1 then ["Crop area is very small (< 1%)".toList]
   else if areaPercent.gtConst 95 then ["Crop area is very large (> 95%)".toList] else [])
  ++ (if widthDiff > 1 then []
      else if widthDiff = 1 then [msgWidthAdjusted expectedWidth w.croppedWidth] else [])
  ++ (if heightDiff > 1 then []
      else if heightDiff = 1 then [msgHeightAdjusted expectedHeight w.croppedHeight] else [])
  ++ (match validPercentageOf64 depthData.data with
      | .fin p => if p < 90 then [msgLowQuality p] else []
      | .negInf => ["Low depth data quality: -Infinity% valid pixels".toList]
      | _ => [])

/-- The record `details` after all the checks, in double arithmetic. -/
def validationDetails64 (img : ImgElement) (depthData : DepthData) (cropArea : Rect) :
    Details :=
  let rgbWidth := img.naturalWidth
  let rgbHeight := img.naturalHeight
  let depthWidth := (depthDims depthData.shape).map Prod.fst
  let depthHeight := (depthDims depthData.shape).map Prod.snd
  let w := validationWindow64 cropArea rgbWidth rgbHeight
  let expectedWidth := jsRound cropArea.width
  let expectedHeight := jsRound cropArea.height
  { originalWidth := rgbWidth
    originalHeight := rgbHeight
    depthWidth := depthWidth
    depthHeight := depthHeight
    dimensionsMatch :=
      if some (rgbWidth : Int) ≠ depthWidth ∨ some (rgbHeight : Int) ≠ depthHeight then false
      else true
    cropBox :=
      { x := jsRound cropArea.x, y := jsRound cropArea.y
        width := jsRound cropArea.width, height := jsRound cropArea.height
        right := jsRound (add64 cropArea.x cropArea.width)
        bottom := jsRound (add64 cropArea.y cropArea.height) }
    areaPercent :=
      ((areaPercentOf64 cropArea rgbWidth rgbHeight).scale64 100).roundDiv100At64
    croppedWidth := w.croppedWidth
    croppedHeight := w.croppedHeight
    borderValidation :=
      { expectedWidth := expectedWidth, expectedHeight := expectedHeight
        actualWidth := w.croppedWidth, actualHeight := w.croppedHeight
        widthDiff := |expectedWidth - w.croppedWidth|
        heightDiff := |expectedHeight - w.croppedHeight| }
    dataQuality :=
      { totalPixels := depthData.data.elems.length
        validPixels := (depthData.data.elems.filter (isFiniteElem depthData.data.kind)).length
        validPercentage := ((validPercentageOf64 depthData.data).scale64 100).roundDiv100At64 } }

/-- The function `runValidation` in double arithmetic. -/
def runValidation64 (img : Option ImgElement) (depthData : Option DepthData)
    (cropArea : Option Rect) : ValidationStatus :=
  match img, depthData, cropArea with
  | some img, some depthData, some cropArea =>
    { isValid := decide ((validationIssues64 img depthData cropArea).length = 0)
      issues := validationIssues64 img depthData cropArea
      warnings := validationWarnings64 img depthData cropArea
      details := some (validationDetails64 img depthData cropArea) }
  | _, _, _ =>
    { isValid := false
      issues := ["No crop area defined or data not loaded".toList]
      warnings := []
      details := none }

/-! # Properties -/

/-! ### Decimal digits -/

theorem digitChar_toNat (k : Nat) (h : k < 10) : (Nat.digitChar k).toNat = 48 + k := by
  interval_cases k <;> rfl

theorem toDigitsCore_acc (n : Nat) :
    ∀ f1 f2 acc, n < f1 → n < f2 →
      Nat.toDigitsCore 10 f1 n acc = Nat.toDigitsCore 10 f2 n [] ++ acc := by
  induction n using Nat.strong_induction_on with
  | _ n ih =>
    intro f1 f2 acc h1 h2
    obtain ⟨g1, rfl⟩ : ∃ g, f1 = g + 1 := ⟨f1 - 1, by omega⟩
    obtain ⟨g2, rfl⟩ : ∃ g, f2 = g + 1 := ⟨f2 - 1, by omega⟩
    simp only [Nat.toDigitsCore]
    by_cases h0 : n / 10 = 0
    · simp [h0]
    · have hlt : n / 10 < n := by omega
      simp only [h0, if_false]
      rw [ih (n / 10) hlt g1 g2 _ (by omega) (by omega),
        ih (n / 10) hlt g2 g2 [Nat.digitChar (n % 10)] (by omega) (by omega)]
      simp

theorem toDigits_small (n : Nat) (h : n < 10) : Nat.toDigits 10 n = [Nat.digitChar n] := by
  have h0 : n / 10 = 0 := by omega
  have h1 : n % 10 = n := by omega
  simp [Nat.toDigits, Nat.toDigitsCore, h0, h1]

theorem toDigits_step (n : Nat) (h : 10 ≤ n) :
    Nat.toDigits 10 n = Nat.toDigits 10 (n / 10) ++ [Nat.digitChar (n % 10)] := by
  have h0 : n / 10 ≠ 0 := by omega
  have hlt : n / 10 < n := by omega
  simp only [Nat.toDigits, Nat.toDigitsCore, h0, if_false]
  exact toDigitsCore_acc (n / 10) n (n / 10 + 1) _ hlt (by omega)

theorem toDigits_isDecDigit (n : Nat) : ∀ c ∈ Nat.toDigits 10 n, IsDecDigit c := by
  induction n using Nat.strong_induction_on with
  | _ n ih =>
    intro c hc
    by_cases h : n < 10
    · rw [toDigits_small n h] at hc
      simp only [List.mem_singleton] at hc
      subst hc
      have := digitChar_toNat n h
      unfold IsDecDigit; omega
    · rw [toDigits_step n (by omega)] at hc
      rcases List.mem_append.mp hc with hc | hc
      · exact ih (n / 10) (by omega) c hc
      · simp only [List.mem_singleton] at hc
        subst hc
        have := digitChar_toNat (n % 10) (by omega)
        unfold IsDecDigit; omega

theorem toDigits_ne_nil (n : Nat) : Nat.toDigits 10 n ≠ [] := by
  by_cases h : n < 10
  · rw [toDigits_small n h]; simp
  · rw [toDigits_step n (by omega)]; simp

theorem toDigits_length_le (k : Nat) : ∀ n, n < 10 ^ (k + 1) → (Nat.toDigits 10 n).length ≤ k + 1 := by
  induction k with
  | zero =>
    intro n hn
    rw [toDigits_small n (by simpa using hn)]; simp
  | succ k ih =>
    intro n hn
    by_cases h : n < 10
    · rw [toDigits_small n h]; simp
    · rw [toDigits_step n (by omega)]
      have : n / 10 < 10 ^ (k + 1) := by
        rw [Nat.div_lt_iff_lt_mul (by norm_num)]
        calc n < 10 ^ (k + 1 + 1) := hn
          _ = 10 ^ (k + 1) * 10 := by ring
      have := ih (n / 10) this
      simp; omega

theorem digitValue_of_isDecDigit (c : Char) (h : IsDecDigit c) :
    digitValue 10 c = some (c.toNat - 48) := by
  unfold IsDecDigit at h
  have h48 : '0'.toNat = 48 := rfl
  have h57 : '9'.toNat = 57 := rfl
  simp [digitValue, h48, h57, h.1, h.2]

theorem digitValue_digitChar (k : Nat) (h : k < 10) :
    digitValue 10 (Nat.digitChar k) = some k := by
  have ht := digitChar_toNat k h
  rw [digitValue_of_isDecDigit _ (by unfold IsDecDigit; omega), ht]
  simp

/-- Reading back the digits printed for `n`, followed by any text. -/
theorem readDigits_toDigits (n : Nat) :
    ∀ rest acc, readDigits 10 (Nat.toDigits 10 n ++ rest) acc =
      ((readDigits 10 rest (acc * 10 ^ (Nat.toDigits 10 n).length + n)).1
          + (Nat.toDigits 10 n).length,
        (readDigits 10 rest (acc * 10 ^ (Nat.toDigits 10 n).length + n)).2) := by
  induction n using Nat.strong_induction_on with
  | _ n ih =>
    intro rest acc
    by_cases h : n < 10
    · rw [toDigits_small n h]
      simp [readDigits, digitValue_digitChar n h]
    · rw [toDigits_step n (by omega), List.append_assoc, ih (n / 10) (by omega)]
      simp only [List.singleton_append, readDigits, digitValue_digitChar (n % 10) (by omega),
        List.length_append, List.length_singleton]
      have e : (acc * 10 ^ (Nat.toDigits 10 (n / 10)).length + n / 10) * 10 + n % 10
          = acc * 10 ^ ((Nat.toDigits 10 (n / 10)).length + 1) + n := by
        rw [pow_succ]
        have := Nat.div_add_mod n 10
        nlinarith
      rw [e]
      ext
      · simp; omega
      · simp

/-! ### ASCII text through `TextEncoder` and `TextDecoder` -/

theorem textEncode_ascii (s : JSString) (h : IsAsciiText s) :
    textEncode s = s.map Char.toNat := by
  induction s with
  | nil => rfl
  | cons c cs ih =>
    have hc : c.toNat < 128 := h c (List.mem_cons_self _ _)
    have hcs : IsAsciiText cs := fun d hd => h d (List.mem_cons_of_mem _ hd)
    have ih' := ih hcs
    unfold textEncode at ih' ⊢
    simp [List.flatMap_cons, utf8EncodeChar, hc, ih']

theorem utf8DecodeFrom_ascii (s : JSString) (h : IsAsciiText s) :
    utf8DecodeFrom Utf8State.init (s.map Char.toNat) = s := by
  induction s with
  | nil => simp [utf8DecodeFrom, Utf8State.init]
  | cons c cs ih =>
    have hc : c.toNat ≤ 127 := Nat.lt_succ_iff.mp (h c (List.mem_cons_self _ _))
    have hcs : IsAsciiText cs := fun d hd => h d (List.mem_cons_of_mem _ hd)
    have hstep : utf8Step Utf8State.init c.toNat = ([c], Utf8State.init) := by
      simp [utf8Step, utf8Lead, Utf8State.init, hc, Char.ofNat_toNat]
    simp [utf8DecodeFrom, hstep, ih hcs]

theorem textDecode_ascii (s : JSString) (h : IsAsciiText s) :
    textDecode (s.map Char.toNat) = s := by
  unfold textDecode
  rw [utf8DecodeFrom_ascii s h]
  cases s with
  | nil => rfl
  | cons c cs =>
    have hc : c.toNat < 128 := h c (List.mem_cons_self _ _)
    have : c.toNat ≠ 0xFEFF := by omega
    simp [this]

theorem isAsciiText_append {s t : JSString} (hs : IsAsciiText s) (ht : IsAsciiText t) :
    IsAsciiText (s ++ t) := by
  intro c hc
  rcases List.mem_append.mp hc with h | h
  · exact hs c h
  · exact ht c h

theorem isAsciiText_toDigits (n : Nat) : IsAsciiText (Nat.toDigits 10 n) := by
  intro c hc
  have := toDigits_isDecDigit n c hc
  unfold IsDecDigit at this
  omega

theorem isAsciiText_jsNumToString (n : Int) : IsAsciiText (jsNumToString n) := by
  unfold jsNumToString
  split
  · intro c hc
    rcases List.mem_cons.mp hc with h | h
    · subst h; decide
    · exact isAsciiText_toDigits _ c h
  · exact isAsciiText_toDigits _

theorem isAsciiText_jsJoin (sep : JSString) (hsep : IsAsciiText sep) :
    ∀ parts : List JSString, (∀ p ∈ parts, IsAsciiText p) → IsAsciiText (jsJoin sep parts)
  | [], _ => by intro c hc; simp [jsJoin] at hc
  | [a], h => by simpa [jsJoin] using h a (List.mem_singleton_self a)
  | a :: b :: rest, h => by
    simp only [jsJoin]
    refine isAsciiText_append (isAsciiText_append (h a (List.mem_cons_self _ _)) hsep) ?_
    exact isAsciiText_jsJoin sep hsep (b :: rest) (fun p hp => h p (List.mem_cons_of_mem _ hp))

theorem isAsciiText_shapeStr (shape : List Int) : IsAsciiText (shapeStr shape) := by
  have hjoin : IsAsciiText ("(".toList ++ jsJoin ", ".toList (shape.map jsNumToString)
      ++ ")".toList) := by
    refine isAsciiText_append (isAsciiText_append (by decide) ?_) (by decide)
    refine isAsciiText_jsJoin _ (by decide) _ ?_
    intro p hp
    obtain ⟨n, _, rfl⟩ := List.mem_map.mp hp
    exact isAsciiText_jsNumToString n
  unfold shapeStr
  split
  · exact isAsciiText_append (isAsciiText_append (by decide) (isAsciiText_jsNumToString _))
      (by decide)
  · exact hjoin

theorem isAsciiText_paddedHeader (shape : List Int) : IsAsciiText (paddedHeader shape) := by
  unfold paddedHeader headerWithNewline
  refine isAsciiText_append (isAsciiText_append (isAsciiText_append (isAsciiText_append
    (by decide) (isAsciiText_shapeStr shape)) (by decide)) (by decide)) ?_
  intro c hc
  rw [List.eq_of_mem_replicate hc]
  decide

theorem textEncode_paddedHeader_length (shape : List Int) :
    (textEncode (paddedHeader shape)).length = finalHeaderLen shape := by
  rw [textEncode_ascii _ (isAsciiText_paddedHeader shape)]
  simp [finalHeaderLen]

/-! ### Buffers -/

theorem leBytes_length (k v : Nat) : (leBytes k v).length = k := by
  induction k generalizing v with
  | zero => rfl
  | succ k ih => simp [leBytes, ih]

theorem flatMap_leBytes_length (k : Nat) (elems : List Nat) :
    (elems.flatMap (leBytes k)).length = elems.length * k := by
  induction elems with
  | nil => simp
  | cons e es ih => simp [List.flatMap_cons, leBytes_length, ih]; ring

theorem bytes_length (a : TypedArray) : a.bytes.length = a.byteLength := by
  exact flatMap_leBytes_length _ _

theorem setBytes_fill (pre src : List Nat) (k off : Nat) (hoff : off = pre.length) :
    setBytes (pre ++ List.replicate (src.length + k) 0) src off
      = .ok ((pre ++ src) ++ List.replicate k 0) := by
  subst hoff
  unfold setBytes
  have hlen : ¬ (pre.length + src.length > (pre ++ List.replicate (src.length + k) 0).length) := by
    simp
  rw [if_neg hlen]
  congr 1
  rw [List.take_left, show pre.length + src.length = pre.length + src.length from rfl,
    List.drop_append, List.drop_replicate]
  simp

/-- The five `set` calls of `createNpyFile` tile the buffer exactly: the result is the
concatenation of magic, version, length field, header text and payload. -/
theorem createNpyFile_eq (data : TypedArray) (shape : List Int) :
    createNpyFile data shape
      = .ok (npyMagic ++ [1, 0] ++ setUint16LE (finalHeaderLen shape)
          ++ textEncode (paddedHeader shape) ++ data.bytes) := by
  have hE := textEncode_paddedHeader_length shape
  have hB := bytes_length data
  generalize hL : finalHeaderLen shape = L at *
  generalize hN : data.byteLength = B at *
  have s1 : setBytes (List.replicate (10 + L + B) 0) npyMagic 0
      = .ok (npyMagic ++ List.replicate (4 + L + B) 0) := by
    have := setBytes_fill [] npyMagic (4 + L + B) 0 rfl
    rw [show npyMagic.length + (4 + L + B) = 10 + L + B by simp [npyMagic]; omega] at this
    simpa using this
  have s2 : setBytes (npyMagic ++ List.replicate (4 + L + B) 0) [1, 0] 6
      = .ok (npyMagic ++ [1, 0] ++ List.replicate (2 + L + B) 0) := by
    have := setBytes_fill npyMagic [1, 0] (2 + L + B) 6 rfl
    rw [show [1, 0].length + (2 + L + B) = 4 + L + B by simp; omega] at this
    exact this
  have s3 : setBytes (npyMagic ++ [1, 0] ++ List.replicate (2 + L + B) 0) (setUint16LE L) 8
      = .ok (npyMagic ++ [1, 0] ++ setUint16LE L ++ List.replicate (L + B) 0) := by
    have := setBytes_fill (npyMagic ++ [1, 0]) (setUint16LE L) (L + B) 8 (by decide)
    rw [show (setUint16LE L).length + (L + B) = 2 + L + B by simp [setUint16LE]; omega] at this
    exact this
  have s4 : setBytes (npyMagic ++ [1, 0] ++ setUint16LE L ++ List.replicate (L + B) 0)
      (textEncode (paddedHeader shape)) 10
      = .ok (npyMagic ++ [1, 0] ++ setUint16LE L ++ textEncode (paddedHeader shape)
          ++ List.replicate B 0) := by
    have := setBytes_fill (npyMagic ++ [1, 0] ++ setUint16LE L)
      (textEncode (paddedHeader shape)) B 10 (by simp [npyMagic, setUint16LE])
    rw [hE] at this
    exact this
  have s5 : setBytes (npyMagic ++ [1, 0] ++ setUint16LE L ++ textEncode (paddedHeader shape)
      ++ List.replicate B 0) data.bytes (10 + L)
      = .ok (npyMagic ++ [1, 0] ++ setUint16LE L ++ textEncode (paddedHeader shape)
          ++ data.bytes) := by
    have := setBytes_fill (npyMagic ++ [1, 0] ++ setUint16LE L
      ++ textEncode (paddedHeader shape)) data.bytes 0 (10 + L)
      (by simp [npyMagic, setUint16LE, hE]; omega)
    rw [show data.bytes.length + 0 = B by omega] at this
    simpa using this
  unfold createNpyFile
  simp only [hL, hN, s1, s2, s3, s4, s5, bind, Except.bind, pure, Except.pure]

/-! ### The header regular expressions on the header written by `createNpyFile` -/

theorem isJsWhitespace_space : isJsWhitespace ' ' = true := by decide

theorem isJsWhitespace_of_isDecDigit (c : Char) (h : IsDecDigit c) : isJsWhitespace c = false := by
  unfold IsDecDigit at h
  unfold isJsWhitespace
  simp only [Bool.or_eq_false_iff, Bool.and_eq_false_iff, decide_eq_false_iff_not]
  omega

theorem regexSearch_descr_header (rest : JSString) :
    regexSearch matchDescrAt ("\x7b'descr': '<f4', ".toList ++ rest) = some "<f4".toList := by
  simp [regexSearch, matchDescrAt, dropLiteral, List.dropWhile_cons, List.takeWhile_cons,
    isJsWhitespace]

theorem regexSearch_shape_skip (rest : JSString) :
    regexSearch matchShapeAt ("\x7b'descr': '<f4', 'fortran_order': False, ".toList ++ rest)
      = regexSearch matchShapeAt rest := by
  simp [regexSearch, matchShapeAt, dropLiteral]

theorem matchShapeAt_hit (body rest : JSString) (hb : ∀ c ∈ body, c ≠ ')') (hne : body ≠ []) :
    matchShapeAt ("'shape': (".toList ++ body ++ ')' :: rest) = some body := by
  have hp : ∀ c ∈ body, (fun c : Char => c != ')') c = true := by
    intro c hc; simpa using hb c hc
  have hd : List.dropWhile (fun c : Char => c != ')') (body ++ ')' :: rest) = ')' :: rest := by
    rw [List.dropWhile_append_of_pos hp]; simp [List.dropWhile_cons]
  have ht : List.takeWhile (fun c : Char => c != ')') (body ++ ')' :: rest) = body := by
    rw [List.takeWhile_append_of_pos hp]; simp [List.takeWhile_cons]
  simp [matchShapeAt, dropLiteral, List.dropWhile_cons, isJsWhitespace, hd, ht, hne]

theorem regexSearch_shape_header (body rest : JSString) (hb : ∀ c ∈ body, c ≠ ')')
    (hne : body ≠ []) :
    regexSearch matchShapeAt
      ("\x7b'descr': '<f4', 'fortran_order': False, 'shape': (".toList ++ body ++ ')' :: rest)
      = some body := by
  have h := regexSearch_shape_skip ("'shape': (".toList ++ body ++ ')' :: rest)
  have e : "\x7b'descr': '<f4', 'fortran_order': False, 'shape': (".toList ++ body ++ ')' :: rest
      = "\x7b'descr': '<f4', 'fortran_order': False, ".toList
          ++ ("'shape': (".toList ++ body ++ ')' :: rest) := by simp
  rw [e, h]
  have hm := matchShapeAt_hit body rest hb hne
  have e2 : "'shape': (".toList ++ body ++ ')' :: rest
      = '\'' :: ("shape': (".toList ++ body ++ ')' :: rest) := by simp
  rw [e2] at hm ⊢
  simp only [regexSearch, hm]

/-! ### Splitting and parsing the shape tuple -/

theorem splitComma_of_no_comma (s : JSString) (h : ∀ c ∈ s, c ≠ ',') : splitComma s = [s] := by
  induction s with
  | nil => rfl
  | cons c cs ih =>
    have hc : c ≠ ',' := h c (List.mem_cons_self _ _)
    have := ih (fun d hd => h d (List.mem_cons_of_mem _ hd))
    simp [splitComma, hc, this]

theorem splitComma_append_comma (s t : JSString) (h : ∀ c ∈ s, c ≠ ',') :
    splitComma (s ++ ',' :: t) = s :: splitComma t := by
  induction s with
  | nil => simp [splitComma]
  | cons c cs ih =>
    have hc : c ≠ ',' := h c (List.mem_cons_self _ _)
    have := ih (fun d hd => h d (List.mem_cons_of_mem _ hd))
    simp [splitComma, hc, this]

theorem dropWhile_eq_self_of_all_false {p : Char → Bool} (s : JSString)
    (h : ∀ c ∈ s, p c = false) : s.dropWhile p = s := by
  cases s with
  | nil => rfl
  | cons c cs => simp [List.dropWhile_cons, h c (List.mem_cons_self _ _)]

theorem jsTrim_eq_self (s : JSString) (h : ∀ c ∈ s, isJsWhitespace c = false) : jsTrim s = s := by
  unfold jsTrim
  rw [dropWhile_eq_self_of_all_false s h,
    dropWhile_eq_self_of_all_false s.reverse (fun c hc => h c (List.mem_reverse.mp hc))]
  simp

theorem jsTrim_space_cons (s : JSString) : jsTrim (' ' :: s) = jsTrim s := by
  simp [jsTrim, List.dropWhile_cons, isJsWhitespace_space]

theorem parseInt_toDigits (n : Nat) : parseInt (Nat.toDigits 10 n) = some (n : Int) := by
  have hdig := toDigits_isDecDigit n
  have hne := toDigits_ne_nil n
  have hread := readDigits_toDigits n [] 0
  generalize Nat.toDigits 10 n = ds at *
  have hws : List.dropWhile isJsWhitespace ds = ds :=
    dropWhile_eq_self_of_all_false ds (fun c hc => isJsWhitespace_of_isDecDigit c (hdig c hc))
  have hminus : ds.head? ≠ some '-' := by
    intro h
    have := hdig '-' (List.mem_of_mem_head? h)
    exact absurd this (by decide)
  have hplus : ds.head? ≠ some '+' := by
    intro h
    have := hdig '+' (List.mem_of_mem_head? h)
    exact absurd this (by decide)
  have hx : ds.take 2 ≠ ['0', 'x'] := by
    intro h
    have hmem : 'x' ∈ ds.take 2 := by rw [h]; simp
    have := hdig 'x' (List.mem_of_mem_take hmem)
    exact absurd this (by decide)
  have hX : ds.take 2 ≠ ['0', 'X'] := by
    intro h
    have hmem : 'X' ∈ ds.take 2 := by rw [h]; simp
    have := hdig 'X' (List.mem_of_mem_take hmem)
    exact absurd this (by decide)
  have hlen : ds.length ≠ 0 := by
    intro h; exact hne (List.length_eq_zero.mp h)
  simp only [List.append_nil] at hread
  simp [parseInt, hws, hminus, hplus, hx, hX, hread, readDigits, hlen]

/-! ### Typed-array views of a payload -/

theorem leValue_leBytes (k v : Nat) : leValue (leBytes k v) = v % 256 ^ k := by
  induction k generalizing v with
  | zero => simp [leBytes, leValue, Nat.mod_one]
  | succ k ih =>
    simp only [leBytes, leValue, ih]
    rw [pow_succ, Nat.mul_comm (256 ^ k) 256, Nat.mod_mul]

theorem elems_of_flatMap_leBytes (k : Nat) (elems : List Nat) :
    (List.range elems.length).map (fun i =>
        leValue (((elems.flatMap (leBytes k)).drop (i * k)).take k))
      = elems.map (fun v => v % 256 ^ k) := by
  induction elems with
  | nil => rfl
  | cons e es ih =>
    rw [List.length_cons, List.range_succ_eq_map, List.map_cons, List.map_map, List.map_cons]
    congr 1
    · have h := List.take_left (leBytes k e) (es.flatMap (leBytes k))
      rw [leBytes_length] at h
      simp [List.flatMap_cons, h, leValue_leBytes]
    · rw [← ih]
      apply List.map_congr_left
      intro i _
      have h := @List.drop_append _ (leBytes k e) (es.flatMap (leBytes k)) (i * k)
      rw [leBytes_length] at h
      simp only [Function.comp, List.flatMap_cons]
      rw [show (i + 1) * k = k + i * k by ring, h]

theorem ofBuffer_bytes (a : TypedArray)
    (hbits : ∀ e ∈ a.elems, e < 256 ^ a.kind.bytesPerElement) :
    TypedArray.ofBuffer a.kind a.bytes = .ok a := by
  have hk : 0 < a.kind.bytesPerElement := by cases a.kind <;> decide
  have hlen : a.bytes.length = a.elems.length * a.kind.bytesPerElement := bytes_length a
  unfold TypedArray.ofBuffer
  rw [hlen, Nat.mul_mod_left, Nat.mul_div_cancel _ hk]
  simp only [ne_eq, not_true_eq_false, if_false]
  unfold TypedArray.bytes
  rw [elems_of_flatMap_leBytes]
  have : a.elems.map (fun v => v % 256 ^ a.kind.bytesPerElement) = a.elems := by
    conv_rhs => rw [← List.map_id a.elems]
    apply List.map_congr_left
    intro e he
    exact Nat.mod_eq_of_lt (hbits e he)
  rw [this]

/-! ### Decoding a well-formed preamble -/

/-- On a buffer laid out as magic, version, length field, header and payload, `parseNpyFile`
reduces to the two header searches and the view of the payload. -/
theorem parseNpyFile_layout (ver0 ver1 L : Nat) (hL : L < 65536) (hdr payload : List Nat)
    (hlen : hdr.length = L) :
    parseNpyFile (npyMagic ++ [ver0, ver1] ++ setUint16LE L ++ hdr ++ payload)
      = match regexSearch matchShapeAt (textDecode hdr),
          regexSearch matchDescrAt (textDecode hdr) with
        | some shapeText, some dtype =>
          match TypedArray.ofBuffer (dtypeOf dtype) payload with
          | .ok data =>
            .ok { data := data
                  shape := (splitComma shapeText).filterMap fun s => parseInt (jsTrim s)
                  dtype := dtype }
          | .error e => .error e
        | _, _ => .error (.error "Could not parse .npy header".toList) := by
  have h16 : L % 65536 % 256 + 256 * (L % 65536 / 256) = L := by omega
  generalize hbuf : npyMagic ++ [ver0, ver1] ++ setUint16LE L ++ hdr ++ payload = buf
  have g0 : buf.get? 0 = some 0x93 := by subst hbuf; rfl
  have g1 : buf.get? 1 = some 0x4E := by subst hbuf; rfl
  have g2 : buf.get? 2 = some 0x55 := by subst hbuf; rfl
  have g3 : buf.get? 3 = some 0x4D := by subst hbuf; rfl
  have g4 : buf.get? 4 = some 0x50 := by subst hbuf; rfl
  have g5 : buf.get? 5 = some 0x59 := by subst hbuf; rfl
  have g8 : buf.get? 8 = some (L % 65536 % 256) := by subst hbuf; rfl
  have g9 : buf.get? (8 + 1) = some (L % 65536 / 256) := by subst hbuf; rfl
  have hdrop10 : List.drop 10 buf = hdr ++ payload := by
    subst hbuf; simp [npyMagic, setUint16LE]
  have hdropL : List.drop (10 + L) buf = payload := by
    rw [← List.drop_drop, hdrop10, ← hlen, List.drop_left]
  have htake : List.take L (hdr ++ payload) = hdr := by
    rw [← hlen, List.take_left]
  have hle : ¬ (10 + L > buf.length) := by
    subst hbuf; simp [npyMagic, setUint16LE, hlen]; omega
  unfold parseNpyFile
  simp only [getUint8, getUint16LE, g0, g1, g2, g3, g4, g5, g8, g9, bind, Except.bind, h16,
    npyMagic, ne_eq, not_true_eq_false, if_false, hle, hdrop10, hdropL, htake, pure, Except.pure]
  cases regexSearch matchShapeAt (textDecode hdr) <;>
    cases regexSearch matchDescrAt (textDecode hdr) <;> try rfl
  rename_i shapeText dtype
  dsimp only
  generalize TypedArray.ofBuffer (dtypeOf dtype) payload = r
  cases r <;> rfl

theorem jsNumToString_natCast (n : Nat) : jsNumToString (n : Int) = Nat.toDigits 10 n := by
  simp [jsNumToString]

theorem toDigits_length_le_16 (n : Nat) (h : n < 2 ^ 53) : (Nat.toDigits 10 n).length ≤ 16 :=
  toDigits_length_le 15 n (lt_trans h (by norm_num))

theorem jsTrim_toDigits (n : Nat) : jsTrim (Nat.toDigits 10 n) = Nat.toDigits 10 n :=
  jsTrim_eq_self _ (fun c hc => isJsWhitespace_of_isDecDigit c (toDigits_isDecDigit n c hc))

theorem toDigits_ne_char (n : Nat) (d : Char) (hd : ¬ IsDecDigit d) :
    ∀ c ∈ Nat.toDigits 10 n, c ≠ d := by
  intro c hc h
  exact hd (h ▸ toDigits_isDecDigit n c hc)

/-- The padded header of a rank-2 shape, cut at the places the decoder looks at. -/
theorem paddedHeader_rank2 (H W : Nat) :
    paddedHeader [(H : Int), (W : Int)]
      = "\x7b'descr': '<f4', 'fortran_order': False, 'shape': (".toList
          ++ (Nat.toDigits 10 H ++ ',' :: ' ' :: Nat.toDigits 10 W)
          ++ ')' :: ('}' :: '\n' :: List.replicate (headerPadding [(H : Int), (W : Int)]) ' ') := by
  simp [paddedHeader, headerWithNewline, shapeStr, jsJoin, jsNumToString_natCast]

theorem finalHeaderLen_rank2_lt (H W : Nat) (hH : H < 2 ^ 53) (hW : W < 2 ^ 53) :
    finalHeaderLen [(H : Int), (W : Int)] < 65536 := by
  have h1 := toDigits_length_le_16 H hH
  have h2 := toDigits_length_le_16 W hW
  have hp : headerPadding [(H : Int), (W : Int)] < 16 := Nat.mod_lt _ (by norm_num)
  unfold finalHeaderLen
  rw [paddedHeader_rank2]
  simp
  omega

/-- Round trip of the codec on a rank-2 shape, for safe-integer shape entries. -/
theorem parse_create_rank2 (H W : Nat) (hH : H < 2 ^ 53) (hW : W < 2 ^ 53) (data : TypedArray)
    (hkind : data.kind = .float32) (hbits : ∀ e ∈ data.elems, e < 2 ^ 32) :
    ∃ bytes, createNpyFile data [(H : Int), (W : Int)] = .ok bytes ∧
      parseNpyFile bytes
        = .ok { data := data, shape := [(H : Int), (W : Int)], dtype := "<f4".toList } := by
  refine ⟨_, createNpyFile_eq data _, ?_⟩
  have hascii := isAsciiText_paddedHeader [(H : Int), (W : Int)]
  rw [parseNpyFile_layout 1 0 (finalHeaderLen [(H : Int), (W : Int)])
    (finalHeaderLen_rank2_lt H W hH hW) _ _ (textEncode_paddedHeader_length _),
    textEncode_ascii _ hascii, textDecode_ascii _ hascii]
  have hcomma : ¬ IsDecDigit ',' := by decide
  have hparen : ¬ IsDecDigit ')' := by decide
  have hbody : ∀ c ∈ Nat.toDigits 10 H ++ ',' :: ' ' :: Nat.toDigits 10 W, c ≠ ')' := by
    intro c hc
    simp only [List.mem_append, List.mem_cons] at hc
    rcases hc with h | h | h | h
    · exact toDigits_ne_char H _ hparen c h
    · subst h; decide
    · subst h; decide
    · exact toDigits_ne_char W _ hparen c h
  have hshape : regexSearch matchShapeAt (paddedHeader [(H : Int), (W : Int)])
      = some (Nat.toDigits 10 H ++ ',' :: ' ' :: Nat.toDigits 10 W) := by
    rw [paddedHeader_rank2]
    exact regexSearch_shape_header _ _ hbody (by simp)
  have hdescr : regexSearch matchDescrAt (paddedHeader [(H : Int), (W : Int)])
      = some "<f4".toList := by
    rw [paddedHeader_rank2]
    have := regexSearch_descr_header ("'fortran_order': False, 'shape': (".toList
      ++ (Nat.toDigits 10 H ++ ',' :: ' ' :: Nat.toDigits 10 W)
      ++ ')' :: ('}' :: '\n' :: List.replicate (headerPadding [(H : Int), (W : Int)]) ' '))
    simpa using this
  have hsplit : splitComma (Nat.toDigits 10 H ++ ',' :: ' ' :: Nat.toDigits 10 W)
      = [Nat.toDigits 10 H, ' ' :: Nat.toDigits 10 W] := by
    rw [splitComma_append_comma _ _ (toDigits_ne_char H _ hcomma), splitComma_of_no_comma]
    intro c hc
    rcases List.mem_cons.mp hc with h | h
    · subst h; decide
    · exact toDigits_ne_char W _ hcomma c h
  have hdt : dtypeOf "<f4".toList = data.kind := by rw [hkind]; decide
  have hview : TypedArray.ofBuffer data.kind data.bytes = .ok data :=
    ofBuffer_bytes data (by rw [hkind]; exact hbits)
  rw [hshape, hdescr]
  simp only [hdt, hview, hsplit, List.filterMap_cons, List.filterMap_nil, jsTrim_space_cons,
    jsTrim_toDigits, parseInt_toDigits]

/-! ### Substrings of messages built from literals and printed numbers -/

theorem eq_nil_of_disjoint_parts {e D needle : JSString} (hdisj : ∀ c ∈ D, c ∉ needle)
    (hD : ∀ c ∈ e, c ∈ D) (hn : ∀ c ∈ e, c ∈ needle) : e = [] := by
  cases e with
  | nil => rfl
  | cons c cs =>
    exact absurd (hn c (List.mem_cons_self _ _)) (hdisj c (hD c (List.mem_cons_self _ _)))

/-- A text that shares no character with a non-empty separator `D` cannot straddle it. -/
theorem not_occurs_append_sep (needle A D B : JSString) (hD : D ≠ [])
    (hdisj : ∀ c ∈ D, c ∉ needle) (hA : ¬ Occurs needle A) (hB : ¬ Occurs needle B) :
    ¬ Occurs needle (A ++ D ++ B) := by
  rintro ⟨s, t, hst⟩
  rw [List.append_assoc, List.append_assoc] at hst
  rcases List.append_eq_append_iff.mp hst with ⟨a', hA', h1⟩ | ⟨c', _, h1⟩
  · rcases List.append_eq_append_iff.mp h1 with ⟨x, hx, _⟩ | ⟨x, hn, h2⟩
    · exact hA ⟨s, x, by rw [hA', hx, List.append_assoc]⟩
    · rcases List.append_eq_append_iff.mp h2 with ⟨z, hz, _⟩ | ⟨z, hz, _⟩
      · obtain ⟨d, hd⟩ := List.exists_mem_of_ne_nil D hD
        exact hdisj d hd (by rw [hn, hz]; simp [hd])
      · have hxnil : x = [] := eq_nil_of_disjoint_parts hdisj
          (fun c hc => by rw [hz]; simp [hc]) (fun c hc => by rw [hn]; simp [hc])
        exact hA ⟨s, [], by rw [hA', hn, hxnil]; simp⟩
  · rcases List.append_eq_append_iff.mp h1 with ⟨z, _, hz⟩ | ⟨z, hz, h2⟩
    · exact hB ⟨z, t, by rw [hz, List.append_assoc]⟩
    · rcases List.append_eq_append_iff.mp h2 with ⟨y, hy, _⟩ | ⟨y, hn, hy⟩
      · have hnnil : needle = [] := eq_nil_of_disjoint_parts hdisj
          (fun c hc => by rw [hz, hy]; simp [hc]) (fun c hc => hc)
        exact hA ⟨[], A, by rw [hnnil]; simp⟩
      · have hznil : z = [] := eq_nil_of_disjoint_parts hdisj
          (fun c hc => by rw [hz]; simp [hc]) (fun c hc => by rw [hn]; simp [hc])
        exact hB ⟨[], t, by rw [hy, hn, hznil]; simp⟩

theorem jsNumToString_ne_nil (n : Int) : jsNumToString n ≠ [] := by
  unfold jsNumToString
  split
  · simp
  · exact toDigits_ne_nil _

theorem jsNumToString_isNumChar (n : Int) : ∀ c ∈ jsNumToString n, IsNumChar c := by
  unfold jsNumToString
  split
  · intro c hc
    rcases List.mem_cons.mp hc with h | h
    · exact Or.inl h
    · exact Or.inr (toDigits_isDecDigit _ c h)
  · intro c hc
    exact Or.inr (toDigits_isDecDigit _ c hc)

/-- A text without sign or digit that occurs in `A ++ n ++ B` occurs in `A` or in `B`. -/
theorem not_occurs_around_number (needle A B : JSString) (n : Int)
    (hneedle : ∀ c ∈ needle, ¬ IsNumChar c) (hA : ¬ Occurs needle A) (hB : ¬ Occurs needle B) :
    ¬ Occurs needle (A ++ jsNumToString n ++ B) :=
  not_occurs_append_sep needle A (jsNumToString n) B (jsNumToString_ne_nil n)
    (fun c hc hcn => hneedle c hcn (jsNumToString_isNumChar n c hc)) hA hB

theorem mem_ite_singleton {α : Type} (c : Prop) [Decidable c] (a m : α) :
    m ∈ (if c then [a] else []) ↔ c ∧ m = a := by
  split <;> simp [*]

/-- The entries of `issues`, one disjunct per check. -/
theorem mem_validationIssues (img : ImgElement) (dd : DepthData) (r : Rect) (m : JSString) :
    m ∈ validationIssues img dd r ↔
      (depthDims dd.shape = none ∧ m = "Unsupported depth data format".toList) ∨
      ((some (img.naturalWidth : Int) ≠ (depthDims dd.shape).map Prod.fst ∨
          some (img.naturalHeight : Int) ≠ (depthDims dd.shape).map Prod.snd) ∧
        m = msgDimensionMismatch img.naturalWidth img.naturalHeight
          ((depthDims dd.shape).map Prod.fst) ((depthDims dd.shape).map Prod.snd)) ∨
      ((r.x < 0 ∨ r.y < 0) ∧ m = "Crop coordinates are negative".toList) ∨
      ((r.x + r.width > img.naturalWidth ∨ r.y + r.height > img.naturalHeight) ∧
        m = "Crop extends beyond image boundaries".toList) ∨
      ((r.width ≤ 0 ∨ r.height ≤ 0) ∧
        m = "Crop dimensions are invalid (zero or negative)".toList) ∨
      (|jsRound r.width - (validationWindow r img.naturalWidth img.naturalHeight).croppedWidth| > 1 ∧
        m = msgWidthMismatch (jsRound r.width)
          (validationWindow r img.naturalWidth img.naturalHeight).croppedWidth
          |jsRound r.width - (validationWindow r img.naturalWidth img.naturalHeight).croppedWidth|) ∨
      (|jsRound r.height - (validationWindow r img.naturalWidth img.naturalHeight).croppedHeight| > 1 ∧
        m = msgHeightMismatch (jsRound r.height)
          (validationWindow r img.naturalWidth img.naturalHeight).croppedHeight
          |jsRound r.height - (validationWindow r img.naturalWidth img.naturalHeight).croppedHeight|) ∨
      (((validationWindow r img.naturalWidth img.naturalHeight).croppedWidth ≤ 0 ∨
          (validationWindow r img.naturalWidth img.naturalHeight).croppedHeight ≤ 0) ∧
        m = msgInvalidCropped (validationWindow r img.naturalWidth img.naturalHeight).croppedWidth
          (validationWindow r img.naturalWidth img.naturalHeight).croppedHeight) ∨
      (((validationWindow r img.naturalWidth img.naturalHeight).croppedWidth > img.naturalWidth ∨
          (validationWindow r img.naturalWidth img.naturalHeight).croppedHeight
            > img.naturalHeight) ∧
        m = "CRITICAL: Cropped dimensions exceed original image bounds".toList) ∨
      (((validationWindow r img.naturalWidth img.naturalHeight).startX < 0 ∨
          (validationWindow r img.naturalWidth img.naturalHeight).startY < 0 ∨
          (validationWindow r img.naturalWidth img.naturalHeight).endX > img.naturalWidth ∨
          (validationWindow r img.naturalWidth img.naturalHeight).endY > img.naturalHeight) ∧
        m = "CRITICAL: Crop coordinates extend beyond image boundaries".toList) := by
  unfold validationIssues
  simp only [List.mem_append, mem_ite_singleton, or_assoc]

/-- The entries of `warnings`, one disjunct per check. -/
theorem mem_validationWarnings (img : ImgElement) (dd : DepthData) (r : Rect) (m : JSString) :
    m ∈ validationWarnings img dd r ↔
      (((areaPercentOf r img.naturalWidth img.naturalHeight).ltConst 1 = true ∧
          m = "Crop area is very small (< 1%)".toList) ∨
        ((areaPercentOf r img.naturalWidth img.naturalHeight).ltConst 1 = false ∧
          (areaPercentOf r img.naturalWidth img.naturalHeight).gtConst 95 = true ∧
          m = "Crop area is very large (> 95%)".toList)) ∨
      (|jsRound r.width - (validationWindow r img.naturalWidth img.naturalHeight).croppedWidth| = 1 ∧
        m = msgWidthAdjusted (jsRound r.width)
          (validationWindow r img.naturalWidth img.naturalHeight).croppedWidth) ∨
      (|jsRound r.height - (validationWindow r img.naturalWidth img.naturalHeight).croppedHeight| = 1 ∧
        m = msgHeightAdjusted (jsRound r.height)
          (validationWindow r img.naturalWidth img.naturalHeight).croppedHeight) ∨
      ((∃ p, validPercentageOf dd.data = .fin p ∧ p < 90 ∧ m = msgLowQuality p) ∨
        (validPercentageOf dd.data = .negInf ∧
          m = "Low depth data quality: -Infinity% valid pixels".toList)) := by
  unfold validationWarnings
  rw [List.mem_append, List.mem_append, List.mem_append]
  refine Iff.trans (or_assoc.trans or_assoc) ?_
  refine or_congr ?_ (or_congr ?_ (or_congr ?_ ?_))
  · cases h1 : (areaPercentOf r img.naturalWidth img.naturalHeight).ltConst 1 <;>
      cases h2 : (areaPercentOf r img.naturalWidth img.naturalHeight).gtConst 95 <;> simp
  · split_ifs with h1 h2
    · simp only [List.not_mem_nil, false_iff, not_and]; intro h; omega
    · simp [h2]
    · simp [h2]
  · split_ifs with h1 h2
    · simp only [List.not_mem_nil, false_iff, not_and]; intro h; omega
    · simp [h2]
    · simp [h2]
  · cases validPercentageOf dd.data with
    | fin p => simp [mem_ite_singleton]
    | posInf => simp
    | negInf => simp
    | nan => simp

theorem isWidthMismatchIssue_iff (img : ImgElement) (dd : DepthData) (r : Rect) :
    (∃ m ∈ validationIssues img dd r, IsWidthMismatchIssue m) ↔
      |jsRound r.width - (validationWindow r img.naturalWidth img.naturalHeight).croppedWidth| > 1 := by
  constructor
  · rintro ⟨m, hm, hp⟩
    rw [mem_validationIssues] at hm
    unfold IsWidthMismatchIssue at hp
    rcases hm with h | h | h | h | h | h | h | h | h | h
    all_goals obtain ⟨hc, rfl⟩ := h
    all_goals first
      | exact hc
      | (exfalso; revert hp;
         simp [msgDimensionMismatch, msgHeightMismatch, msgInvalidCropped, List.cons_prefix_cons])
  · intro h
    refine ⟨_, (mem_validationIssues img dd r _).mpr (Or.inr (Or.inr (Or.inr (Or.inr (Or.inr
      (Or.inl ⟨h, rfl⟩)))))), ?_⟩
    unfold IsWidthMismatchIssue msgWidthMismatch
    simp [List.cons_prefix_cons]

theorem isHeightMismatchIssue_iff (img : ImgElement) (dd : DepthData) (r : Rect) :
    (∃ m ∈ validationIssues img dd r, IsHeightMismatchIssue m) ↔
      |jsRound r.height - (validationWindow r img.naturalWidth img.naturalHeight).croppedHeight|
        > 1 := by
  constructor
  · rintro ⟨m, hm, hp⟩
    rw [mem_validationIssues] at hm
    unfold IsHeightMismatchIssue at hp
    rcases hm with h | h | h | h | h | h | h | h | h | h
    all_goals obtain ⟨hc, rfl⟩ := h
    all_goals first
      | exact hc
      | (exfalso; revert hp;
         simp [msgDimensionMismatch, msgWidthMismatch, msgInvalidCropped, List.cons_prefix_cons])
  · intro h
    refine ⟨_, (mem_validationIssues img dd r _).mpr (Or.inr (Or.inr (Or.inr (Or.inr (Or.inr
      (Or.inr (Or.inl ⟨h, rfl⟩))))))), ?_⟩
    unfold IsHeightMismatchIssue msgHeightMismatch
    simp [List.cons_prefix_cons]

theorem isWidthAdjustedWarning_iff (img : ImgElement) (dd : DepthData) (r : Rect) :
    (∃ m ∈ validationWarnings img dd r, IsWidthAdjustedWarning m) ↔
      |jsRound r.width - (validationWindow r img.naturalWidth img.naturalHeight).croppedWidth|
        = 1 := by
  constructor
  · rintro ⟨m, hm, hp⟩
    rw [mem_validationWarnings] at hm
    unfold IsWidthAdjustedWarning at hp
    rcases hm with (h | h) | h | h | (h | h)
    · obtain ⟨_, rfl⟩ := h; exfalso; revert hp; simp [List.cons_prefix_cons]
    · obtain ⟨_, _, rfl⟩ := h; exfalso; revert hp; simp [List.cons_prefix_cons]
    · exact h.1
    · obtain ⟨_, rfl⟩ := h; exfalso; revert hp
      simp [msgHeightAdjusted, List.cons_prefix_cons]
    · obtain ⟨p, _, _, rfl⟩ := h; exfalso; revert hp
      simp [msgLowQuality, List.cons_prefix_cons]
    · obtain ⟨_, rfl⟩ := h; exfalso; revert hp; simp [List.cons_prefix_cons]
  · intro h
    refine ⟨_, (mem_validationWarnings img dd r _).mpr (Or.inr (Or.inl ⟨h, rfl⟩)), ?_⟩
    unfold IsWidthAdjustedWarning msgWidthAdjusted
    simp [List.cons_prefix_cons]

theorem isHeightAdjustedWarning_iff (img : ImgElement) (dd : DepthData) (r : Rect) :
    (∃ m ∈ validationWarnings img dd r, IsHeightAdjustedWarning m) ↔
      |jsRound r.height - (validationWindow r img.naturalWidth img.naturalHeight).croppedHeight|
        = 1 := by
  constructor
  · rintro ⟨m, hm, hp⟩
    rw [mem_validationWarnings] at hm
    unfold IsHeightAdjustedWarning at hp
    rcases hm with (h | h) | h | h | (h | h)
    · obtain ⟨_, rfl⟩ := h; exfalso; revert hp; simp [List.cons_prefix_cons]
    · obtain ⟨_, _, rfl⟩ := h; exfalso; revert hp; simp [List.cons_prefix_cons]
    · obtain ⟨_, rfl⟩ := h; exfalso; revert hp
      simp [msgWidthAdjusted, List.cons_prefix_cons]
    · exact h.1
    · obtain ⟨p, _, _, rfl⟩ := h; exfalso; revert hp
      simp [msgLowQuality, List.cons_prefix_cons]
    · obtain ⟨_, rfl⟩ := h; exfalso; revert hp; simp [List.cons_prefix_cons]
  · intro h
    refine ⟨_, (mem_validationWarnings img dd r _).mpr (Or.inr (Or.inr (Or.inl ⟨h, rfl⟩))), ?_⟩
    unfold IsHeightAdjustedWarning msgHeightAdjusted
    simp [List.cons_prefix_cons]

theorem isValid_eq_false_iff (img : ImgElement) (dd : DepthData) (r : Rect) :
    (runValidation (some img) (some dd) (some r)).isValid = false ↔
      ∃ m, m ∈ validationIssues img dd r := by
  simp only [runValidation, decide_eq_false_iff_not, List.length_eq_zero]
  exact ⟨fun h => List.exists_mem_of_ne_nil _ h, fun ⟨m, hm⟩ h => by rw [h] at hm; simp at hm⟩

theorem isValid_eq_true_iff (img : ImgElement) (dd : DepthData) (r : Rect) :
    (runValidation (some img) (some dd) (some r)).isValid = true ↔
      ∀ m, m ∉ validationIssues img dd r := by
  simp only [runValidation, decide_eq_true_eq, List.length_eq_zero]
  exact List.eq_nil_iff_forall_not_mem

/-- C2 (header padding invariant).  For every shape, of any rank and with any integer entries,
`10 + finalHeaderLen` is a multiple of 16, where `finalHeaderLen` is the length of the header
text ended by a newline plus the padding; the padding is at most 15 spaces; and
`createNpyFile` succeeds with the payload placed right after a preamble of
`10 + finalHeaderLen` bytes, an offset that is a multiple of 16. -/
theorem header_padding_invariant (shape : List Int) (data : TypedArray) :
    (10 + finalHeaderLen shape) % 16 = 0 ∧
      finalHeaderLen shape = (headerWithNewline shape).length + headerPadding shape ∧
      (∃ text, headerWithNewline shape = text ++ ['\n']) ∧
      headerPadding shape ≤ 15 ∧
      ∃ preamble, createNpyFile data shape = .ok (preamble ++ data.bytes) ∧
        preamble.length = 10 + finalHeaderLen shape ∧ preamble.length % 16 = 0 := by
  have hlen : finalHeaderLen shape = (headerWithNewline shape).length + headerPadding shape := by
    simp [finalHeaderLen, paddedHeader]
  have hpad : headerPadding shape ≤ 15 := by
    have : headerPadding shape < 16 := Nat.mod_lt _ (by norm_num)
    omega
  have hmod : (10 + finalHeaderLen shape) % 16 = 0 := by
    rw [hlen]
    unfold headerPadding
    omega
  refine ⟨hmod, hlen, ?_, hpad, ?_⟩
  · exact ⟨_, rfl⟩
  · refine ⟨npyMagic ++ [1, 0] ++ setUint16LE (finalHeaderLen shape)
      ++ textEncode (paddedHeader shape), createNpyFile_eq data shape, ?_⟩
    have : (npyMagic ++ [1, 0] ++ setUint16LE (finalHeaderLen shape)
        ++ textEncode (paddedHeader shape)).length = 10 + finalHeaderLen shape := by
      simp [npyMagic, setUint16LE, textEncode_paddedHeader_length]; omega
    rw [this]
    exact ⟨rfl, hmod⟩

theorem depthDims_rank2 (h w : Int) : depthDims [h, w] = some (w, h) := rfl

theorem depthDims_rank3 (h w : Int) : depthDims [h, w, 1] = some (w, h) := by
  simp [depthDims]

theorem needle_no_numChar :
    ∀ c ∈ "dimensions do not match".toList, ¬ IsNumChar c := by decide

theorem not_occurs_widthMismatch (e a d : Int) :
    ¬ Occurs "dimensions do not match".toList (msgWidthMismatch e a d) := by
  unfold msgWidthMismatch
  refine not_occurs_around_number _ _ _ d needle_no_numChar ?_ (by decide)
  refine not_occurs_around_number _ _ _ a needle_no_numChar ?_ (by decide)
  exact not_occurs_around_number _ _ _ e needle_no_numChar (by decide) (by decide)

theorem not_occurs_heightMismatch (e a d : Int) :
    ¬ Occurs "dimensions do not match".toList (msgHeightMismatch e a d) := by
  unfold msgHeightMismatch
  refine not_occurs_around_number _ _ _ d needle_no_numChar ?_ (by decide)
  refine not_occurs_around_number _ _ _ a needle_no_numChar ?_ (by decide)
  exact not_occurs_around_number _ _ _ e needle_no_numChar (by decide) (by decide)

theorem not_occurs_invalidCropped (cw ch : Int) :
    ¬ Occurs "dimensions do not match".toList (msgInvalidCropped cw ch) := by
  unfold msgInvalidCropped
  rw [← List.append_nil (_ ++ jsNumToString ch)]
  refine not_occurs_around_number _ _ _ ch needle_no_numChar ?_ (by decide)
  exact not_occurs_around_number _ _ _ cw needle_no_numChar (by decide) (by decide)

/-- C6 (mismatch detection).  For a depth array of shape `[depthH, depthW]` or
`[depthH, depthW, 1]`: when `(depthW, depthH)` differs from the raster size the report has
`isValid = false` and its issues contain the entry `msgDimensionMismatch`, which contains
"dimensions do not match" and the two sizes `WxH`; when the sizes are equal no issue contains
"dimensions do not match" and `details.dimensionsMatch` is true. -/
theorem mismatch_detection (img : ImgElement) (depthData : DepthData) (cropArea : Rect)
    (depthH depthW : Int)
    (hshape : depthData.shape = [depthH, depthW] ∨ depthData.shape = [depthH, depthW, 1]) :
    ((depthW, depthH) ≠ ((img.naturalWidth : Int), (img.naturalHeight : Int)) →
      (runValidation (some img) (some depthData) (some cropArea)).isValid = false ∧
      msgDimensionMismatch img.naturalWidth img.naturalHeight (some depthW) (some depthH)
        ∈ (runValidation (some img) (some depthData) (some cropArea)).issues ∧
      Occurs "dimensions do not match".toList
        (msgDimensionMismatch img.naturalWidth img.naturalHeight (some depthW) (some depthH)) ∧
      Occurs (jsNumToString img.naturalWidth ++ "x".toList ++ jsNumToString img.naturalHeight)
        (msgDimensionMismatch img.naturalWidth img.naturalHeight (some depthW) (some depthH)) ∧
      Occurs (jsNumToString depthW ++ "x".toList ++ jsNumToString depthH)
        (msgDimensionMismatch img.naturalWidth img.naturalHeight (some depthW) (some depthH))) ∧
    ((depthW, depthH) = ((img.naturalWidth : Int), (img.naturalHeight : Int)) →
      (∀ m ∈ (runValidation (some img) (some depthData) (some cropArea)).issues,
        ¬ Occurs "dimensions do not match".toList m) ∧
      ∃ d, (runValidation (some img) (some depthData) (some cropArea)).details = some d ∧
        d.dimensionsMatch = true) := by
  have hdims : depthDims depthData.shape = some (depthW, depthH) := by
    rcases hshape with h | h <;> rw [h]
    · exact depthDims_rank2 _ _
    · exact depthDims_rank3 _ _
  constructor
  · intro hne
    have hcond : some (img.naturalWidth : Int) ≠ (depthDims depthData.shape).map Prod.fst ∨
        some (img.naturalHeight : Int) ≠ (depthDims depthData.shape).map Prod.snd := by
      rw [hdims]
      simp only [Option.map_some', ne_eq, Option.some.injEq]
      by_contra hcon
      push_neg at hcon
      exact hne (by rw [hcon.1, hcon.2])
    have hm : msgDimensionMismatch img.naturalWidth img.naturalHeight (some depthW) (some depthH)
        ∈ validationIssues img depthData cropArea := by
      refine (mem_validationIssues _ _ _ _).mpr (Or.inr (Or.inl ⟨hcond, ?_⟩))
      rw [hdims]; rfl
    refine ⟨(isValid_eq_false_iff _ _ _).mpr ⟨_, hm⟩, hm, ?_, ?_, ?_⟩
    · exact ⟨"RGB and Depth ".toList, ": RGB (".toList ++ jsNumToString img.naturalWidth
        ++ "x".toList ++ jsNumToString img.naturalHeight ++ ") vs Depth (".toList
        ++ jsOptToString (some depthW) ++ "x".toList ++ jsOptToString (some depthH)
        ++ ")".toList, by simp [msgDimensionMismatch]⟩
    · exact ⟨"RGB and Depth dimensions do not match: RGB (".toList, ") vs Depth (".toList
        ++ jsOptToString (some depthW) ++ "x".toList ++ jsOptToString (some depthH)
        ++ ")".toList, by simp [msgDimensionMismatch]⟩
    · exact ⟨"RGB and Depth dimensions do not match: RGB (".toList
        ++ jsNumToString img.naturalWidth ++ "x".toList ++ jsNumToString img.naturalHeight
        ++ ") vs Depth (".toList, ")".toList, by simp [msgDimensionMismatch, jsOptToString]⟩
  · intro heq
    have hw : depthW = img.naturalWidth := (Prod.mk.inj heq).1
    have hh : depthH = img.naturalHeight := (Prod.mk.inj heq).2
    have hcond : ¬ (some (img.naturalWidth : Int) ≠ (depthDims depthData.shape).map Prod.fst ∨
        some (img.naturalHeight : Int) ≠ (depthDims depthData.shape).map Prod.snd) := by
      rw [hdims]; simp [hw, hh]
    constructor
    · intro m hm
      have hm' : m ∈ validationIssues img depthData cropArea := hm
      rw [mem_validationIssues] at hm'
      rcases hm' with h | h | h | h | h | h | h | h | h | h
      · rw [hdims] at h; exact absurd h.1 (by simp)
      · exact absurd h.1 hcond
      · rw [h.2]; decide
      · rw [h.2]; decide
      · rw [h.2]; decide
      · rw [h.2]; exact not_occurs_widthMismatch _ _ _
      · rw [h.2]; exact not_occurs_heightMismatch _ _ _
      · rw [h.2]; exact not_occurs_invalidCropped _ _
      · rw [h.2]; decide
      · rw [h.2]; decide
    · refine ⟨_, rfl, ?_⟩
      simp only [validationDetails]
      rw [if_neg hcond]

/-- C6 at the raster 100 by 100, the shape `[50, 50]` and the rectangle `{0, 0, 10, 10}`: the
report is invalid and holds an issue containing "dimensions do not match". -/
theorem mismatch_detection_witness :
    (runValidation (some ⟨100, 100⟩)
        (some ⟨⟨.float32, List.replicate 2500 0⟩, [50, 50], "<f4".toList⟩)
        (some ⟨0, 0, 10, 10⟩)).isValid = false ∧
      ∃ m ∈ (runValidation (some ⟨100, 100⟩)
          (some ⟨⟨.float32, List.replicate 2500 0⟩, [50, 50], "<f4".toList⟩)
          (some ⟨0, 0, 10, 10⟩)).issues,
        Occurs "dimensions do not match".toList m := by
  have h := (mismatch_detection ⟨100, 100⟩
    ⟨⟨.float32, List.replicate 2500 0⟩, [50, 50], "<f4".toList⟩ ⟨0, 0, 10, 10⟩ 50 50
    (Or.inl rfl)).1 (by decide)
  exact ⟨h.1, _, h.2.1, h.2.2.1⟩

/-- C8 (border reconciliation).  With `diffW = |round(width) - croppedWidth|`, the issues hold
a critical width-mismatch entry exactly when `diffW > 1` and the warnings hold a one-pixel
width-adjustment entry exactly when `diffW = 1` (hence neither when `diffW = 0`); the same
for the height.  For the rectangle `{0, 0, 10.5, 20}` on a raster that contains it and whose
size is the shape of the depth array, `diffW = 1`, the entry is the warning
`msgWidthAdjusted 11 10`, and `isValid = true`. -/
theorem border_reconciliation (img : ImgElement) (depthData : DepthData) (cropArea : Rect) :
    ((∃ m ∈ (runValidation (some img) (some depthData) (some cropArea)).issues,
        IsWidthMismatchIssue m) ↔
      |jsRound cropArea.width
        - (validationWindow cropArea img.naturalWidth img.naturalHeight).croppedWidth| > 1) ∧
    ((∃ m ∈ (runValidation (some img) (some depthData) (some cropArea)).warnings,
        IsWidthAdjustedWarning m) ↔
      |jsRound cropArea.width
        - (validationWindow cropArea img.naturalWidth img.naturalHeight).croppedWidth| = 1) ∧
    ((∃ m ∈ (runValidation (some img) (some depthData) (some cropArea)).issues,
        IsHeightMismatchIssue m) ↔
      |jsRound cropArea.height
        - (validationWindow cropArea img.naturalWidth img.naturalHeight).croppedHeight| > 1) ∧
    ((∃ m ∈ (runValidation (some img) (some depthData) (some cropArea)).warnings,
        IsHeightAdjustedWarning m) ↔
      |jsRound cropArea.height
        - (validationWindow cropArea img.naturalWidth img.naturalHeight).croppedHeight| = 1) ∧
    (cropArea = ⟨0, 0, 21 / 2, 20⟩ → depthData.shape = [(img.naturalHeight : Int), (img.naturalWidth : Int)] →
      (21 / 2 : ℚ) ≤ img.naturalWidth → (20 : ℚ) ≤ img.naturalHeight →
      |jsRound cropArea.width
        - (validationWindow cropArea img.naturalWidth img.naturalHeight).croppedWidth| = 1 ∧
      msgWidthAdjusted 11 10
        ∈ (runValidation (some img) (some depthData) (some cropArea)).warnings ∧
      (runValidation (some img) (some depthData) (some cropArea)).isValid = true) := by
  refine ⟨isWidthMismatchIssue_iff _ _ _, isWidthAdjustedWarning_iff _ _ _,
    isHeightMismatchIssue_iff _ _ _, isHeightAdjustedWarning_iff _ _ _, ?_⟩
  rintro rfl hshape hW hH
  have hW11 : (11 : Int) ≤ img.naturalWidth := by
    by_contra hcon
    have : (img.naturalWidth : Int) ≤ 10 := by omega
    have : (img.naturalWidth : ℚ) ≤ 10 := by exact_mod_cast this
    linarith
  have hH20 : (20 : Int) ≤ img.naturalHeight := by exact_mod_cast hH
  have f1 : jsFloor (0 : ℚ) = 0 := by simp [jsFloor]
  have f2 : jsFloor ((0 : ℚ) + 21 / 2) = 10 := by
    simp only [jsFloor]; rw [Int.floor_eq_iff]; norm_num
  have f3 : jsFloor ((0 : ℚ) + 20) = 20 := by
    simp only [jsFloor]; rw [Int.floor_eq_iff]; norm_num
  have r1 : jsRound (21 / 2 : ℚ) = 11 := by
    simp only [jsRound]; rw [Int.floor_eq_iff]; norm_num
  have r2 : jsRound (20 : ℚ) = 20 := by
    simp only [jsRound]; rw [Int.floor_eq_iff]; norm_num
  have hwin : validationWindow ⟨0, 0, 21 / 2, 20⟩ img.naturalWidth img.naturalHeight
      = ⟨0, 0, 10, 20, 10, 20⟩ := by
    simp only [validationWindow, f1, f2, f3]
    rw [min_eq_left (by omega), min_eq_left (by omega)]
    norm_num
  have hdiff : |jsRound (21 / 2 : ℚ) - (10 : Int)| = 1 := by rw [r1]; norm_num
  refine ⟨by rw [hwin]; exact hdiff, ?_, ?_⟩
  · have := (mem_validationWarnings img depthData ⟨0, 0, 21 / 2, 20⟩
      (msgWidthAdjusted 11 10)).mpr
    apply this
    refine Or.inr (Or.inl ⟨by rw [hwin]; exact hdiff, ?_⟩)
    rw [hwin, r1]
  · rw [isValid_eq_true_iff]
    intro m hm
    rw [mem_validationIssues, hwin, hshape, depthDims_rank2] at hm
    simp only [r1, r2] at hm
    rcases hm with h | h | h | h | h | h | h | h | h | h
    · exact absurd h.1 (by simp)
    · exact absurd h.1 (by simp)
    · exact absurd h.1 (by norm_num)
    · rcases h.1 with h1 | h1
      · linarith
      · linarith
    · exact absurd h.1 (by norm_num)
    · exact absurd h.1 (by norm_num)
    · exact absurd h.1 (by norm_num)
    · exact absurd h.1 (by norm_num)
    · rcases h.1 with h1 | h1
      · exact absurd h1 (by push_neg; exact_mod_cast (by omega : (10 : Int) ≤ img.naturalWidth))
      · exact absurd h1 (by push_neg; exact hH20)
    · rcases h.1 with h1 | h1 | h1 | h1
      · exact absurd h1 (by norm_num)
      · exact absurd h1 (by norm_num)
      · omega
      · omega

/-! ### The gather loops -/

theorem fillRow_length (g : Nat → Nat → Nat) (c y n : Nat) (dst : List Nat) :
    (fillRow g c y n dst).length = dst.length := by
  induction n with
  | zero => rfl
  | succ n ih =>
    unfold fillRow at ih ⊢
    rw [List.range_succ, List.foldl_append]
    simp [ih]

theorem fillRow_frame (g : Nat → Nat → Nat) (c y n : Nat) (dst : List Nat) (i : Nat)
    (hi : ∀ x < n, i ≠ y * c + x) : (fillRow g c y n dst)[i]? = dst[i]? := by
  induction n with
  | zero => rfl
  | succ n ih =>
    have ih' := ih (fun x hx => hi x (Nat.lt_succ_of_lt hx))
    unfold fillRow at ih' ⊢
    rw [List.range_succ, List.foldl_append]
    simp only [List.foldl_cons, List.foldl_nil]
    rw [List.getElem?_set_ne (Ne.symm (hi n (Nat.lt_succ_self n))), ih']

theorem fillRow_written (g : Nat → Nat → Nat) (c y n : Nat) (dst : List Nat) (x : Nat)
    (hx : x < n) (hlen : y * c + x < dst.length) :
    (fillRow g c y n dst)[y * c + x]? = some (g y x) := by
  induction n with
  | zero => exact absurd hx (Nat.not_lt_zero _)
  | succ n ih =>
    have hl := fillRow_length g c y n dst
    unfold fillRow at ih hl ⊢
    rw [List.range_succ, List.foldl_append]
    simp only [List.foldl_cons, List.foldl_nil]
    by_cases hxn : x = n
    · subst hxn
      rw [List.getElem?_set_self (by rw [hl]; exact hlen)]
    · rw [List.getElem?_set_ne (by omega), ih (by omega)]

theorem fillRows_length (g : Nat → Nat → Nat) (c m : Nat) (dst : List Nat) :
    (fillRows g c m dst).length = dst.length := by
  induction m with
  | zero => rfl
  | succ m ih =>
    unfold fillRows at ih ⊢
    rw [List.range_succ, List.foldl_append]
    simp [fillRow_length, ih]

theorem fillRows_written (g : Nat → Nat → Nat) (c m : Nat) (dst : List Nat) (y x : Nat)
    (hy : y < m) (hx : x < c) (hlen : y * c + x < dst.length) :
    (fillRows g c m dst)[y * c + x]? = some (g y x) := by
  induction m with
  | zero => exact absurd hy (Nat.not_lt_zero _)
  | succ m ih =>
    have hl := fillRows_length g c m dst
    unfold fillRows at ih hl ⊢
    rw [List.range_succ, List.foldl_append]
    simp only [List.foldl_cons, List.foldl_nil]
    by_cases hym : y = m
    · subst hym
      exact fillRow_written g c y c _ x hx (by rw [hl]; exact hlen)
    · have hlt : y < m := by omega
      rw [fillRow_frame g c m c _ (y * c + x), ih hlt]
      intro x' hx' heq
      have h1 : (y * c + x) / c = y := by
        rw [Nat.add_comm, Nat.mul_comm, Nat.add_mul_div_left _ _ (by omega),
          Nat.div_eq_of_lt hx]; simp
      have h2 : (m * c + x') / c = m := by
        rw [Nat.add_comm, Nat.mul_comm, Nat.add_mul_div_left _ _ (by omega),
          Nat.div_eq_of_lt hx']; simp
      rw [heq, h2] at h1
      exact hym h1.symm

theorem cropDepth_eq_fillRows (toFloat32 : DType → Option Nat → Nat) (depthData : DepthData)
    (w : CropWindow) (hsize : 0 ≤ w.croppedHeight * w.croppedWidth) :
    cropDepth toFloat32 depthData w
      = .ok { kind := .float32
              elems := fillRows (gathered toFloat32 depthData w) w.croppedWidth.toNat
                w.croppedHeight.toNat
                (List.replicate (w.croppedHeight * w.croppedWidth).toNat 0) } := by
  unfold cropDepth
  rw [if_neg (not_lt.mpr hsize)]
  congr 2
  unfold fillRows fillRow
  apply List.foldl_ext
  intro L y _
  apply List.foldl_ext
  intro L' x hx
  have hxlt : x < w.croppedWidth.toNat := List.mem_range.mp hx
  have hcw : (w.croppedWidth.toNat : Int) = w.croppedWidth := by
    apply Int.toNat_of_nonneg; omega
  have hidx : (y : Int) * w.croppedWidth + x = ((y * w.croppedWidth.toNat + x : Nat) : Int) := by
    push_cast; rw [hcw]
  simp only [writeElem, gathered]
  rw [hidx, if_pos (Int.natCast_nonneg _), Int.toNat_natCast]

/-- C4 fails as stated: once the component is mounted and validated, with nothing loaded, the
report has `isValid = false` (its issue is "No crop area defined or data not loaded"), and
`downloadCropped` returns at its first guard without reporting any error. -/
theorem export_gating_counterexample :
    (validated initialState).validationStatus.isValid = false ∧
      (validated initialState).validationStatus.issues
        = ["No crop area defined or data not loaded".toList] ∧
      downloadCropped (fun _ _ => 0) [] (validated initialState) = .ignored ∧
      ¬ ∃ message,
        downloadCropped (fun _ _ => 0) [] (validated initialState) = .blocked message := by
  refine ⟨rfl, rfl, rfl, ?_⟩
  rintro ⟨message, h⟩
  have h' : ExportOutcome.ignored = ExportOutcome.blocked message := h
  cases h'

/-- C4, amended (export gating).  When the report has `isValid = false`, `downloadCropped`
never produces a bundle; with a rectangle, the image and the depth data loaded it stops with
the error "Validation failed: " followed by the issues joined by ", "; with one of them
missing it returns without reporting an error. -/
theorem export_gating (toFloat32 : DType → Option Nat → Nat) (iso : JSString) (s : State)
    (hinvalid : s.validationStatus.isValid = false) :
    (∀ bundle, downloadCropped toFloat32 iso s ≠ .exported bundle) ∧
    ((s.cropArea ≠ none ∧ s.imageLoaded = true ∧ s.depthLoaded = true ∧ s.depthData ≠ none) →
      downloadCropped toFloat32 iso s
        = .blocked ("Validation failed: ".toList
            ++ jsJoin ", ".toList s.validationStatus.issues)) ∧
    ((s.cropArea = none ∨ s.imageLoaded = false ∨ s.depthLoaded = false ∨ s.depthData = none) →
      downloadCropped toFloat32 iso s = .ignored) := by
  refine ⟨?_, ?_, ?_⟩
  · intro bundle
    unfold downloadCropped
    split
    · simp [hinvalid]
    · simp
  · rintro ⟨h1, h2, h3, h4⟩
    obtain ⟨r, hr⟩ := Option.ne_none_iff_exists'.mp h1
    obtain ⟨dd, hd⟩ := Option.ne_none_iff_exists'.mp h4
    simp [downloadCropped, hr, hd, h2, h3, hinvalid]
  · intro h
    unfold downloadCropped
    split
    · rename_i r dd h1 h2 h3 h4
      rcases h with h | h | h | h <;> simp_all
    · rfl

/-- C4, amended, at a loaded state whose report holds one issue: the export is blocked with
the message "Validation failed: Crop coordinates are negative". -/
theorem export_gating_witness :
    downloadCropped (fun _ _ => 0) []
        (loadedState ⟨3, 2⟩ (depth2x3 .float32 [1, 2, 3, 4, 5, 6] "<f4".toList) ⟨-1, 0, 2, 2⟩ failingReport)
      = .blocked "Validation failed: Crop coordinates are negative".toList :=
  (export_gating (fun _ _ => 0) []
    (loadedState ⟨3, 2⟩ (depth2x3 .float32 [1, 2, 3, 4, 5, 6] "<f4".toList) ⟨-1, 0, 2, 2⟩ failingReport)
    rfl).2.1 (by decide)

theorem createNpyFile_eq_npyBytes (data : TypedArray) (shape : List Int) :
    createNpyFile data shape = .ok (npyBytes data shape) :=
  createNpyFile_eq data shape

/-- A gated export with loaded inputs and an allocatable window produces the bundle. -/
theorem downloadCropped_exported (toFloat32 : DType → Option Nat → Nat) (iso : JSString)
    (s : State) (rect : Rect) (img : ImgElement) (dd : DepthData)
    (hrect : s.cropArea = some rect) (himg : s.img = some img) (hdd : s.depthData = some dd)
    (hil : s.imageLoaded = true) (hdl : s.depthLoaded = true)
    (hvalid : s.validationStatus.isValid = true)
    (hsize : 0 ≤ (exportWindow rect img).croppedHeight * (exportWindow rect img).croppedWidth) :
    downloadCropped toFloat32 iso s = .exported
      { folderName := folderNameOf iso
        originalRgb := s.rgbImage
        originalDepth := npyBytes dd.data dd.shape
        cropRgb := { sx := (exportWindow rect img).startX, sy := (exportWindow rect img).startY,
                     width := (exportWindow rect img).croppedWidth,
                     height := (exportWindow rect img).croppedHeight }
        cropDepth := npyBytes
          { kind := .float32
            elems := fillRows (gathered toFloat32 dd (exportWindow rect img))
              (exportWindow rect img).croppedWidth.toNat
              (exportWindow rect img).croppedHeight.toNat
              (List.replicate ((exportWindow rect img).croppedHeight
                * (exportWindow rect img).croppedWidth).toNat 0) }
          [(exportWindow rect img).croppedHeight, (exportWindow rect img).croppedWidth]
        metadata := metadataOf rect img (exportWindow rect img) iso } := by
  unfold downloadCropped
  simp only [hrect, hil, hdl, hdd, hvalid, himg, cropDepth_eq_fillRows _ _ _ hsize,
    createNpyFile_eq_npyBytes]
  rfl

/-- C9 (depth slice).  For a depth array of shape `[H, W]` or `[H, W, 1]`, a passing report
and a window whose size `croppedHeight * croppedWidth` is not negative, the export succeeds;
the cropped array is a float32 array of exactly `croppedHeight * croppedWidth` elements, it
is encoded with the shape `[croppedHeight, croppedWidth]`, and its cell `y * croppedWidth + x`
holds the float32 conversion of the source cell `(startY + y) * W + (startX + x)`, for every
`y < croppedHeight` and `x < croppedWidth`.  The source array is a value the loops only read:
it is the array encoded afterwards for the `original` folder. -/
theorem depth_slice (toFloat32 : DType → Option Nat → Nat) (iso : JSString) (s : State)
    (rect : Rect) (img : ImgElement) (dd : DepthData) (H W : Int)
    (hrect : s.cropArea = some rect) (himg : s.img = some img) (hdd : s.depthData = some dd)
    (hil : s.imageLoaded = true) (hdl : s.depthLoaded = true)
    (hvalid : s.validationStatus.isValid = true)
    (hshape : dd.shape = [H, W] ∨ dd.shape = [H, W, 1])
    (hsize : 0 ≤ (exportWindow rect img).croppedHeight * (exportWindow rect img).croppedWidth) :
    ∃ bundle dst,
      downloadCropped toFloat32 iso s = .exported bundle ∧
      cropDepth toFloat32 dd (exportWindow rect img) = .ok dst ∧
      createNpyFile dst
          [(exportWindow rect img).croppedHeight, (exportWindow rect img).croppedWidth]
        = .ok bundle.cropDepth ∧
      dst.kind = .float32 ∧
      (dst.elems.length : Int)
        = (exportWindow rect img).croppedHeight * (exportWindow rect img).croppedWidth ∧
      (∀ y x : Nat, (y : Int) < (exportWindow rect img).croppedHeight →
        (x : Int) < (exportWindow rect img).croppedWidth →
        dst.elems[y * (exportWindow rect img).croppedWidth.toNat + x]?
          = some (toFloat32 dd.data.kind (readElem dd.data
              (some (((exportWindow rect img).startY + y) * W
                + ((exportWindow rect img).startX + x)))))) ∧
      createNpyFile dd.data dd.shape = .ok bundle.originalDepth := by
  have hexp := downloadCropped_exported toFloat32 iso s rect img dd hrect himg hdd hil hdl
    hvalid hsize
  have hwidth : dd.shape.get? 1 = some W := by
    rcases hshape with h | h <;> rw [h] <;> rfl
  generalize exportWindow rect img = w at *
  refine ⟨_, _, hexp, cropDepth_eq_fillRows toFloat32 dd w hsize, createNpyFile_eq_npyBytes _ _,
    rfl, ?_, ?_, createNpyFile_eq_npyBytes _ _⟩
  · simp only [fillRows_length, List.length_replicate]
    exact Int.toNat_of_nonneg hsize
  · intro y x hy hx
    have hch : (w.croppedHeight.toNat : Int) = w.croppedHeight :=
      Int.toNat_of_nonneg (by omega)
    have hcw : (w.croppedWidth.toNat : Int) = w.croppedWidth :=
      Int.toNat_of_nonneg (by omega)
    have hyN : y < w.croppedHeight.toNat := by omega
    have hxN : x < w.croppedWidth.toNat := by omega
    have hlen : y * w.croppedWidth.toNat + x
        < (List.replicate (w.croppedHeight * w.croppedWidth).toNat 0).length := by
      rw [List.length_replicate, ← hch, ← hcw, ← Nat.cast_mul, Int.toNat_natCast]
      calc y * w.croppedWidth.toNat + x < y * w.croppedWidth.toNat + w.croppedWidth.toNat := by
            omega
        _ = (y + 1) * w.croppedWidth.toNat := by ring
        _ ≤ w.croppedHeight.toNat * w.croppedWidth.toNat := Nat.mul_le_mul_right _ (by omega)
    show (fillRows _ _ _ _)[_]? = _
    rw [fillRows_written _ _ _ _ y x hyN hxN hlen]
    simp only [gathered, hwidth, Option.map_some']

theorem exportWindow_example :
    exportWindow ⟨1, 0, 2, 2⟩ ⟨3, 2⟩ = ⟨1, 0, 3, 2, 2, 2⟩ := by
  have f1 : jsFloor (1 : ℚ) = 1 := by simp [jsFloor]
  have f0 : jsFloor (0 : ℚ) = 0 := by simp [jsFloor]
  have f3 : jsFloor ((1 : ℚ) + 2) = 3 := by
    simp only [jsFloor]; rw [Int.floor_eq_iff]; norm_num
  have f2 : jsFloor ((0 : ℚ) + 2) = 2 := by
    simp only [jsFloor]; rw [Int.floor_eq_iff]; norm_num
  simp only [exportWindow, f0, f1, f2, f3]
  norm_num

/-- C9 on a 3 by 2 image, the depth cells `10 .. 15` and the rectangle `{1, 0, 2, 2}`: the
cropped array has the shape `[2, 2]` and its cell `(1, 0)` is the source cell `(1, 1)`. -/
theorem depth_slice_witness :
    ∃ bundle dst,
      downloadCropped (fun _ v => v.getD 0x7FC00000) "2024-05-06T07:08:09.123Z".toList
          (loadedState ⟨3, 2⟩ (depth2x3 .float32 [10, 11, 12, 13, 14, 15] "<f4".toList)
            ⟨1, 0, 2, 2⟩ passingReport) = .exported bundle ∧
      createNpyFile dst [2, 2] = .ok bundle.cropDepth ∧
      (dst.elems.length : Int) = 2 * 2 ∧
      dst.elems[1 * 2 + 0]? = some 14 := by
  obtain ⟨bundle, dst, h1, _, h3, _, h5, h6, _⟩ :=
    depth_slice (fun _ v => v.getD 0x7FC00000) "2024-05-06T07:08:09.123Z".toList
      (loadedState ⟨3, 2⟩ (depth2x3 .float32 [10, 11, 12, 13, 14, 15] "<f4".toList)
        ⟨1, 0, 2, 2⟩ passingReport)
      ⟨1, 0, 2, 2⟩ ⟨3, 2⟩ (depth2x3 .float32 [10, 11, 12, 13, 14, 15] "<f4".toList) 2 3
      rfl rfl rfl rfl rfl rfl (Or.inl rfl) (by rw [exportWindow_example]; decide)
  rw [exportWindow_example] at h3 h5 h6
  refine ⟨bundle, dst, h1, h3, h5, ?_⟩
  have := h6 1 0 (by decide) (by decide)
  simpa [readElem, depth2x3] using this

set_option maxRecDepth 100000 in
/-- C10 on a float64 depth array of shape `[2, 3]`: the file written to the `original` folder
has a payload of `8 * 6` bytes, not `4 * 6`, under a header that says `<f4`; decoding it gives
twelve float32 elements for the shape `[2, 3]`, the halves of the float64 bit patterns. -/
theorem original_asset_float64 :
    ∃ bundle,
      downloadCropped (fun _ v => v.getD 0x7FC00000) "2024-05-06T07:08:09.123Z".toList
          (loadedState ⟨3, 2⟩
            (depth2x3 .float64 [0x3FF0000000000000, 0, 0, 0, 0, 0] "<f8".toList)
            ⟨1, 0, 2, 2⟩ passingReport) = .exported bundle ∧
      bundle.originalDepth.length = 10 + finalHeaderLen [2, 3] + 8 * 6 ∧
      parseNpyFile bundle.originalDepth
        = .ok { data := { kind := .float32
                          elems := [0, 0x3FF00000, 0, 0, 0, 0, 0, 0, 0, 0, 0, 0] }
                shape := [2, 3]
                dtype := "<f4".toList } := by
  refine ⟨_, downloadCropped_exported _ _ _ ⟨1, 0, 2, 2⟩ ⟨3, 2⟩ _ rfl rfl rfl rfl rfl rfl
    (by rw [exportWindow_example]; decide), ?_, ?_⟩
  · rfl
  · rfl

/-- C1 (round trip of the codec).  For positive `H` and `W` and a float32 array of `H * W`
elements (a typed array holds fewer than `2^53` elements), `parseNpyFile` on the bytes
written by `createNpyFile data [H, W]` succeeds and returns the same data, element for
element, the shape `[H, W]`, and the token `<f4`, which selects float32. -/
theorem npy_round_trip (H W : Nat) (data : TypedArray) (hH : 0 < H) (hW : 0 < W)
    (hkind : data.kind = .float32) (hbits : ∀ e ∈ data.elems, e < 2 ^ 32)
    (hlen : data.length = H * W) (hmax : data.length < 2 ^ 53) :
    ∃ bytes, createNpyFile data [(H : Int), (W : Int)] = .ok bytes ∧
      parseNpyFile bytes
        = .ok { data := data, shape := [(H : Int), (W : Int)], dtype := "<f4".toList } ∧
      dtypeOf "<f4".toList = .float32 := by
  have hHW : H * W < 2 ^ 53 := hlen ▸ hmax
  have hH' : H < 2 ^ 53 := lt_of_le_of_lt (Nat.le_mul_of_pos_right H hW) hHW
  have hW' : W < 2 ^ 53 := lt_of_le_of_lt (Nat.le_mul_of_pos_left W hH) hHW
  obtain ⟨bytes, hc, hp⟩ := parse_create_rank2 H W hH' hW' data hkind hbits
  exact ⟨bytes, hc, hp, by decide⟩

/-- C1 on a float32 array of six elements with the shape `[2, 3]`. -/
theorem npy_round_trip_witness :
    ∃ bytes, createNpyFile ⟨.float32, [1, 2, 3, 4, 5, 0x3F800000]⟩ [2, 3] = .ok bytes ∧
      parseNpyFile bytes
        = .ok { data := ⟨.float32, [1, 2, 3, 4, 5, 0x3F800000]⟩, shape := [2, 3],
                dtype := "<f4".toList } ∧
      dtypeOf "<f4".toList = .float32 :=
  npy_round_trip 2 3 ⟨.float32, [1, 2, 3, 4, 5, 0x3F800000]⟩ (by decide) (by decide) rfl
    (by decide) rfl (by decide)

/-- C8 on an 11 by 20 raster with the rectangle `{0, 0, 10.5, 20}`: the report is valid and
holds the one-pixel width warning. -/
theorem border_reconciliation_witness :
    (runValidation (some ⟨11, 20⟩)
        (some ⟨⟨.float32, List.replicate 220 0⟩, [20, 11], "<f4".toList⟩)
        (some ⟨0, 0, 21 / 2, 20⟩)).isValid = true ∧
      msgWidthAdjusted 11 10 ∈ (runValidation (some ⟨11, 20⟩)
        (some ⟨⟨.float32, List.replicate 220 0⟩, [20, 11], "<f4".toList⟩)
        (some ⟨0, 0, 21 / 2, 20⟩)).warnings := by
  have h := (border_reconciliation ⟨11, 20⟩
    ⟨⟨.float32, List.replicate 220 0⟩, [20, 11], "<f4".toList⟩ ⟨0, 0, 21 / 2, 20⟩).2.2.2.2
    rfl rfl (by norm_num) (by norm_num)
  exact ⟨h.2.2, h.2.1⟩

/-! ### The decoder on an arbitrary buffer -/

/-- The cases of `parseNpyFile`, in the order they are tested. -/
theorem parseNpyFile_cases (buffer : List Nat) :
    parseNpyFile buffer =
      if buffer.length < 6 then .error .rangeError
      else if buffer.take 6 ≠ npyMagic then .error (.error "Not a valid .npy file".toList)
      else if buffer.length < 10 then .error .rangeError
      else if 10 + headerLenOf buffer > buffer.length then .error .rangeError
      else
        match regexSearch matchShapeAt (headerTextOf buffer),
            regexSearch matchDescrAt (headerTextOf buffer) with
        | some shapeText, some dtype =>
          match TypedArray.ofBuffer (dtypeOf dtype) (payloadOf buffer) with
          | .ok data =>
            .ok { data := data
                  shape := (splitComma shapeText).filterMap fun s => parseInt (jsTrim s)
                  dtype := dtype }
          | .error e => .error e
        | _, _ => .error (.error "Could not parse .npy header".toList) := by
  rcases buffer with _ | ⟨b0, _ | ⟨b1, _ | ⟨b2, _ | ⟨b3, _ | ⟨b4, _ | ⟨b5, rest⟩⟩⟩⟩⟩⟩
  all_goals try (simp [parseNpyFile, getUint8, bind, Except.bind]; done)
  by_cases hm : [b0, b1, b2, b3, b4, b5] = npyMagic
  · rcases rest with _ | ⟨b6, _ | ⟨b7, _ | ⟨b8, _ | ⟨b9, rest⟩⟩⟩⟩
    · have hb : b0 = 0x93 ∧ b1 = 0x4E ∧ b2 = 0x55 ∧ b3 = 0x4D ∧ b4 = 0x50 ∧ b5 = 0x59 := by
        simpa [npyMagic] using hm
      obtain ⟨rfl, rfl, rfl, rfl, rfl, rfl⟩ := hb
      rfl
    all_goals
      (try (simp [parseNpyFile, getUint8, getUint16LE, bind, Except.bind, hm, pure, Except.pure]; done))
    have hlen : headerLenOf (b0 :: b1 :: b2 :: b3 :: b4 :: b5 :: b6 :: b7 :: b8 :: b9 :: rest)
        = b8 + 256 * b9 := rfl
    have htext : headerTextOf (b0 :: b1 :: b2 :: b3 :: b4 :: b5 :: b6 :: b7 :: b8 :: b9 :: rest)
        = textDecode (rest.take (b8 + 256 * b9)) := rfl
    have hpay : payloadOf (b0 :: b1 :: b2 :: b3 :: b4 :: b5 :: b6 :: b7 :: b8 :: b9 :: rest)
        = (b0 :: b1 :: b2 :: b3 :: b4 :: b5 :: b6 :: b7 :: b8 :: b9 :: rest).drop
            (10 + (b8 + 256 * b9)) := rfl
    rw [hlen, htext, hpay]
    simp only [parseNpyFile, getUint8, getUint16LE, List.get?_cons_succ, List.get?_cons_zero,
      bind, Except.bind, hm, ne_eq, not_true_eq_false, if_false, pure, Except.pure,
      List.length_cons, List.take_succ_cons, List.take_zero, List.drop_succ_cons, List.drop_zero]
    have h6 : ¬ (rest.length + 1 + 1 + 1 + 1 + 1 + 1 + 1 + 1 + 1 + 1 < 6) := by omega
    have h10 : ¬ (rest.length + 1 + 1 + 1 + 1 + 1 + 1 + 1 + 1 + 1 + 1 < 10) := by omega
    simp only [h6, h10, if_false]
    split
    · rfl
    · cases regexSearch matchShapeAt (textDecode (rest.take (b8 + 256 * b9))) <;>
        cases regexSearch matchDescrAt (textDecode (rest.take (b8 + 256 * b9))) <;> try rfl
      dsimp only
      generalize TypedArray.ofBuffer _ _ = r
      cases r <;> rfl
  · have h6 : ¬ ((b0 :: b1 :: b2 :: b3 :: b4 :: b5 :: rest).length < 6) := by
      simp
    have ht : List.take 6 (b0 :: b1 :: b2 :: b3 :: b4 :: b5 :: rest) = [b0, b1, b2, b3, b4, b5] := by
      simp
    rw [if_neg h6, ht, if_pos hm]
    simp [parseNpyFile, getUint8, bind, Except.bind, hm]

/-! ### The header searches against the texts they accept -/

theorem dropLiteral_eq_some (lit s r : JSString) : dropLiteral lit s = some r ↔ s = lit ++ r := by
  induction lit generalizing s with
  | nil => simp [dropLiteral, eq_comm]
  | cons p ps ih =>
    cases s with
    | nil => simp [dropLiteral]
    | cons c cs =>
      by_cases h : p = c
      · subst h; simp [dropLiteral, ih]
      · simp [dropLiteral, h]
        intro hc; exact absurd hc.symm h

theorem regexSearch_some {α : Type} (m : JSString → Option α) (s : JSString) (a : α)
    (h : regexSearch m s = some a) : ∃ before rest, s = before ++ rest ∧ m rest = some a := by
  induction s with
  | nil => exact ⟨[], [], rfl, h⟩
  | cons c cs ih =>
    unfold regexSearch at h
    cases hm : m (c :: cs) with
    | some b =>
      rw [hm] at h
      exact ⟨[], c :: cs, rfl, by rw [hm]; exact h⟩
    | none =>
      rw [hm] at h
      obtain ⟨before, rest, hs, hr⟩ := ih h
      exact ⟨c :: before, rest, by rw [hs]; rfl, hr⟩

theorem regexSearch_isSome {α : Type} (m : JSString → Option α) (before rest : JSString) (a : α)
    (h : m rest = some a) : ∃ b, regexSearch m (before ++ rest) = some b := by
  induction before with
  | nil =>
    cases rest with
    | nil => exact ⟨a, h⟩
    | cons c cs => exact ⟨a, by simp [regexSearch, h]⟩
  | cons c cs ih =>
    obtain ⟨b, hb⟩ := ih
    cases hm : m (c :: (cs ++ rest)) with
    | some b' => exact ⟨b', by simp [regexSearch, hm]⟩
    | none => exact ⟨b, by simp [regexSearch, hm, hb]⟩

theorem dropWhile_eq_cons {p : Char → Bool} (s : JSString) (c : Char) (rest : JSString)
    (h : s.dropWhile p = c :: rest) :
    s = s.takeWhile p ++ c :: rest ∧ (∀ d ∈ s.takeWhile p, p d = true) ∧ p c = false := by
  refine ⟨by rw [← h, List.takeWhile_append_dropWhile], fun d hd => List.mem_takeWhile_imp hd, ?_⟩
  have := List.head_dropWhile_not p s (by rw [h]; simp)
  simpa [h] using this

theorem matchShapeAt_eq_some (s body : JSString) :
    matchShapeAt s = some body ↔
      ∃ ws after, s = "'shape':".toList ++ (ws ++ '(' :: (body ++ ')' :: after)) ∧
        (∀ c ∈ ws, isJsWhitespace c = true) ∧ body ≠ [] ∧ ∀ c ∈ body, c ≠ ')' := by
  constructor
  · intro h
    unfold matchShapeAt at h
    split at h
    · exact absurd h (by simp)
    · rename_i r1 hlit
      split at h
      · rename_i r2 hws
        split at h
        · rename_i after hbody
          split at h
          · exact absurd h (by simp)
          · rename_i hne
            have hb : r2.takeWhile (fun c => c != ')') = body := by simpa using h
            obtain ⟨e1, hw, _⟩ := dropWhile_eq_cons r1 '(' r2 hws
            obtain ⟨e2, hbd, _⟩ := dropWhile_eq_cons r2 ')' after hbody
            rw [hb] at e2 hbd hne
            generalize r1.takeWhile isJsWhitespace = ws at e1 hw
            refine ⟨ws, after, ?_, hw, ?_, ?_⟩
            · rw [(dropLiteral_eq_some _ _ _).mp hlit, e1, e2]
            · intro hnil; exact hne (by rw [hnil]; rfl)
            · intro c hc; simpa using hbd c hc
        · exact absurd h (by simp)
      · exact absurd h (by simp)
  · rintro ⟨ws, after, rfl, hws, hne, hbody⟩
    have hp : ∀ c ∈ body, (fun c : Char => c != ')') c = true := by
      intro c hc; simpa using hbody c hc
    have h1 : dropLiteral "'shape':".toList
        ("'shape':".toList ++ (ws ++ '(' :: (body ++ ')' :: after)))
        = some (ws ++ '(' :: (body ++ ')' :: after)) := (dropLiteral_eq_some _ _ _).mpr rfl
    have h2 : (ws ++ '(' :: (body ++ ')' :: after)).dropWhile isJsWhitespace
        = '(' :: (body ++ ')' :: after) := by
      rw [List.dropWhile_append_of_pos hws]
      simp [List.dropWhile_cons, isJsWhitespace]
    have h3 : (body ++ ')' :: after).dropWhile (fun c => c != ')') = ')' :: after := by
      rw [List.dropWhile_append_of_pos hp]; simp [List.dropWhile_cons]
    have h4 : (body ++ ')' :: after).takeWhile (fun c => c != ')') = body := by
      rw [List.takeWhile_append_of_pos hp]; simp [List.takeWhile_cons]
    unfold matchShapeAt
    rw [h1]
    simp only [h2, h3, h4]
    simp [hne]

theorem matchDescrAt_eq_some (s body : JSString) :
    matchDescrAt s = some body ↔
      ∃ ws after, s = "'descr':".toList ++ (ws ++ '\'' :: (body ++ '\'' :: after)) ∧
        (∀ c ∈ ws, isJsWhitespace c = true) ∧ body ≠ [] ∧ ∀ c ∈ body, c ≠ '\'' := by
  constructor
  · intro h
    unfold matchDescrAt at h
    split at h
    · exact absurd h (by simp)
    · rename_i r1 hlit
      split at h
      · rename_i r2 hws
        split at h
        · rename_i after hbody
          split at h
          · exact absurd h (by simp)
          · rename_i hne
            have hb : r2.takeWhile (fun c => c != '\'') = body := by simpa using h
            obtain ⟨e1, hw, _⟩ := dropWhile_eq_cons r1 '\'' r2 hws
            obtain ⟨e2, hbd, _⟩ := dropWhile_eq_cons r2 '\'' after hbody
            rw [hb] at e2 hbd hne
            generalize r1.takeWhile isJsWhitespace = ws at e1 hw
            refine ⟨ws, after, ?_, hw, ?_, ?_⟩
            · rw [(dropLiteral_eq_some _ _ _).mp hlit, e1, e2]
            · intro hnil; exact hne (by rw [hnil]; rfl)
            · intro c hc; simpa using hbd c hc
        · exact absurd h (by simp)
      · exact absurd h (by simp)
  · rintro ⟨ws, after, rfl, hws, hne, hbody⟩
    have hp : ∀ c ∈ body, (fun c : Char => c != '\'') c = true := by
      intro c hc; simpa using hbody c hc
    have h1 : dropLiteral "'descr':".toList
        ("'descr':".toList ++ (ws ++ '\'' :: (body ++ '\'' :: after)))
        = some (ws ++ '\'' :: (body ++ '\'' :: after)) := (dropLiteral_eq_some _ _ _).mpr rfl
    have h2 : (ws ++ '\'' :: (body ++ '\'' :: after)).dropWhile isJsWhitespace
        = '\'' :: (body ++ '\'' :: after) := by
      rw [List.dropWhile_append_of_pos hws]
      simp [List.dropWhile_cons, isJsWhitespace]
    have h3 : (body ++ '\'' :: after).dropWhile (fun c => c != '\'') = '\'' :: after := by
      rw [List.dropWhile_append_of_pos hp]; simp [List.dropWhile_cons]
    have h4 : (body ++ '\'' :: after).takeWhile (fun c => c != '\'') = body := by
      rw [List.takeWhile_append_of_pos hp]; simp [List.takeWhile_cons]
    unfold matchDescrAt
    rw [h1]
    simp only [h2, h3, h4]
    simp [hne]

/-- The shape search succeeds exactly on the texts that contain a shape tuple. -/
theorem hasShapeTuple_iff (header : JSString) :
    HasShapeTuple header ↔ ∃ body, regexSearch matchShapeAt header = some body := by
  constructor
  · rintro ⟨before, ws, body, after, rfl, hws, hne, hbody⟩
    exact regexSearch_isSome matchShapeAt before _ body
      ((matchShapeAt_eq_some _ _).mpr ⟨ws, after, rfl, hws, hne, hbody⟩)
  · rintro ⟨body, h⟩
    obtain ⟨before, rest, rfl, hm⟩ := regexSearch_some _ _ _ h
    obtain ⟨ws, after, rfl, hws, hne, hbody⟩ := (matchShapeAt_eq_some _ _).mp hm
    exact ⟨before, ws, body, after, rfl, hws, hne, hbody⟩

/-- The descr search succeeds exactly on the texts that contain a descr string. -/
theorem hasDescrString_iff (header : JSString) :
    HasDescrString header ↔ ∃ body, regexSearch matchDescrAt header = some body := by
  constructor
  · rintro ⟨before, ws, body, after, rfl, hws, hne, hbody⟩
    exact regexSearch_isSome matchDescrAt before _ body
      ((matchDescrAt_eq_some _ _).mpr ⟨ws, after, rfl, hws, hne, hbody⟩)
  · rintro ⟨body, h⟩
    obtain ⟨before, rest, rfl, hm⟩ := regexSearch_some _ _ _ h
    obtain ⟨ws, after, rfl, hws, hne, hbody⟩ := (matchDescrAt_eq_some _ _).mp hm
    exact ⟨before, ws, body, after, rfl, hws, hne, hbody⟩

/-- C11 (decode failure).  A buffer whose first six bytes are not the magic bytes makes
`parseNpyFile` fail (with "Not a valid .npy file" when it has six bytes, with a `RangeError`
when it is shorter); a buffer with the magic bytes whose header text does not contain both a
parenthesised non-empty `'shape'` tuple and a quoted `'descr'` string makes it fail too
(with "Could not parse .npy header" when the buffer holds the whole header, with a
`RangeError` when it is shorter).  A failure returns no array. -/
theorem decode_failure (buffer : List Nat) :
    (buffer.take 6 ≠ npyMagic → ∃ e, parseNpyFile buffer = .error e) ∧
    (6 ≤ buffer.length → buffer.take 6 ≠ npyMagic →
      parseNpyFile buffer = .error (.error "Not a valid .npy file".toList)) ∧
    (buffer.take 6 = npyMagic →
      ¬ (HasShapeTuple (headerTextOf buffer) ∧ HasDescrString (headerTextOf buffer)) →
      ∃ e, parseNpyFile buffer = .error e) ∧
    (buffer.take 6 = npyMagic → 10 + headerLenOf buffer ≤ buffer.length →
      ¬ (HasShapeTuple (headerTextOf buffer) ∧ HasDescrString (headerTextOf buffer)) →
      parseNpyFile buffer = .error (.error "Could not parse .npy header".toList)) := by
  have hcases := parseNpyFile_cases buffer
  have hfail : ¬ (HasShapeTuple (headerTextOf buffer) ∧ HasDescrString (headerTextOf buffer)) →
      (match regexSearch matchShapeAt (headerTextOf buffer),
          regexSearch matchDescrAt (headerTextOf buffer) with
        | some shapeText, some dtype =>
          match TypedArray.ofBuffer (dtypeOf dtype) (payloadOf buffer) with
          | .ok data =>
            Except.ok ({ data := data
                         shape := (splitComma shapeText).filterMap fun s => parseInt (jsTrim s)
                         dtype := dtype } : DepthData)
          | .error e => .error e
        | _, _ => .error (.error "Could not parse .npy header".toList))
        = .error (.error "Could not parse .npy header".toList) := by
    intro hno
    rw [hasShapeTuple_iff, hasDescrString_iff] at hno
    cases h1 : regexSearch matchShapeAt (headerTextOf buffer) with
    | none => rfl
    | some a =>
      cases h2 : regexSearch matchDescrAt (headerTextOf buffer) with
      | none => rfl
      | some b => exact absurd ⟨⟨a, h1⟩, ⟨b, h2⟩⟩ hno
  refine ⟨?_, ?_, ?_, ?_⟩
  · intro hm
    rw [hcases]
    by_cases h6 : buffer.length < 6
    · rw [if_pos h6]; exact ⟨_, rfl⟩
    · rw [if_neg h6, if_pos hm]; exact ⟨_, rfl⟩
  · intro h6 hm
    rw [hcases, if_neg (by omega), if_pos hm]
  · intro hm hno
    have hm' : ¬ (buffer.take 6 ≠ npyMagic) := by simpa using hm
    rw [hcases]
    by_cases h6 : buffer.length < 6
    · rw [if_pos h6]; exact ⟨_, rfl⟩
    · rw [if_neg h6, if_neg hm']
      by_cases h10 : buffer.length < 10
      · rw [if_pos h10]; exact ⟨_, rfl⟩
      · rw [if_neg h10]
        by_cases hl : 10 + headerLenOf buffer > buffer.length
        · rw [if_pos hl]; exact ⟨_, rfl⟩
        · rw [if_neg hl]; exact ⟨_, hfail hno⟩
  · intro hm hlen hno
    have hm' : ¬ (buffer.take 6 ≠ npyMagic) := by simpa using hm
    have h6 : 6 ≤ buffer.length := by
      by_contra hc
      have : (buffer.take 6).length = 6 := by rw [hm]; rfl
      rw [List.length_take] at this
      omega
    rw [hcases, if_neg (by omega), if_neg hm', if_neg (by omega), if_neg (by omega)]
    exact hfail hno

/-! ### The checks behind a valid report -/

/-- A report is valid exactly when every check passes. -/
theorem isValid_iff_checks (img : ImgElement) (dd : DepthData) (r : Rect) :
    (runValidation (some img) (some dd) (some r)).isValid = true ↔
      (depthDims dd.shape = some ((img.naturalWidth : Int), (img.naturalHeight : Int)) ∧
        0 ≤ r.x ∧ 0 ≤ r.y ∧
        r.x + r.width ≤ img.naturalWidth ∧ r.y + r.height ≤ img.naturalHeight ∧
        0 < r.width ∧ 0 < r.height ∧
        |jsRound r.width
          - (validationWindow r img.naturalWidth img.naturalHeight).croppedWidth| ≤ 1 ∧
        |jsRound r.height
          - (validationWindow r img.naturalWidth img.naturalHeight).croppedHeight| ≤ 1 ∧
        0 < (validationWindow r img.naturalWidth img.naturalHeight).croppedWidth ∧
        0 < (validationWindow r img.naturalWidth img.naturalHeight).croppedHeight ∧
        (validationWindow r img.naturalWidth img.naturalHeight).croppedWidth
          ≤ img.naturalWidth ∧
        (validationWindow r img.naturalWidth img.naturalHeight).croppedHeight
          ≤ img.naturalHeight ∧
        0 ≤ (validationWindow r img.naturalWidth img.naturalHeight).startX ∧
        0 ≤ (validationWindow r img.naturalWidth img.naturalHeight).startY ∧
        (validationWindow r img.naturalWidth img.naturalHeight).endX ≤ img.naturalWidth ∧
        (validationWindow r img.naturalWidth img.naturalHeight).endY ≤ img.naturalHeight) := by
  rw [isValid_eq_true_iff]
  constructor
  · intro h
    have hm := fun m => (not_congr (mem_validationIssues img dd r m)).mp (h m)
    have key : ∀ (P : Prop) (msg : JSString),
        (∀ m, ¬ (P ∧ m = msg)) → ¬ P := fun P msg hP hp => hP msg ⟨hp, rfl⟩
    have c1 : ¬ depthDims dd.shape = none :=
      key _ _ (fun m hc => hm m (Or.inl hc))
    have c2 := key _ _ (fun m hc => hm m (Or.inr (Or.inl hc)))
    have c3 := key _ _ (fun m hc => hm m (Or.inr (Or.inr (Or.inl hc))))
    have c4 := key _ _ (fun m hc => hm m (Or.inr (Or.inr (Or.inr (Or.inl hc)))))
    have c5 := key _ _ (fun m hc => hm m (Or.inr (Or.inr (Or.inr (Or.inr (Or.inl hc))))))
    have c6 := key _ _ (fun m hc => hm m (Or.inr (Or.inr (Or.inr (Or.inr (Or.inr
      (Or.inl hc)))))))
    have c7 := key _ _ (fun m hc => hm m (Or.inr (Or.inr (Or.inr (Or.inr (Or.inr
      (Or.inr (Or.inl hc))))))))
    have c8 := key _ _ (fun m hc => hm m (Or.inr (Or.inr (Or.inr (Or.inr (Or.inr
      (Or.inr (Or.inr (Or.inl hc)))))))))
    have c9 := key _ _ (fun m hc => hm m (Or.inr (Or.inr (Or.inr (Or.inr (Or.inr
      (Or.inr (Or.inr (Or.inr (Or.inl hc))))))))))
    have c10 := key _ _ (fun m hc => hm m (Or.inr (Or.inr (Or.inr (Or.inr (Or.inr
      (Or.inr (Or.inr (Or.inr (Or.inr hc))))))))))
    push_neg at c2 c3 c4 c5 c6 c7 c8 c9 c10
    obtain ⟨⟨dw, dh⟩, hd⟩ := Option.ne_none_iff_exists'.mp c1
    rw [hd] at c2
    simp only [Option.map_some', Option.some.injEq] at c2
    refine ⟨by rw [hd, ← c2.1, ← c2.2], c3.1, c3.2, c4.1, c4.2, c5.1, c5.2, c6, c7, c8.1, c8.2,
      c9.1, c9.2, c10.1, c10.2.1, c10.2.2.1, c10.2.2.2⟩
  · rintro ⟨h1, h2, h3, h4, h5, h6, h7, h8, h9, h10, h11, h12, h13, h14, h15, h16, h17⟩ m hm
    rw [mem_validationIssues, h1] at hm
    rcases hm with h | h | h | h | h | h | h | h | h | h
    · exact absurd h.1 (by simp)
    · exact absurd h.1 (by simp)
    · rcases h.1 with h' | h' <;> linarith
    · rcases h.1 with h' | h' <;> linarith
    · rcases h.1 with h' | h' <;> linarith
    · exact absurd h.1 (not_lt.mpr h8)
    · exact absurd h.1 (not_lt.mpr h9)
    · rcases h.1 with h' | h' <;> omega
    · rcases h.1 with h' | h' <;> omega
    · rcases h.1 with h' | h' | h' | h' <;> omega

/-! ### Floors and the integer window -/

theorem jsFloor_eq (q : ℚ) (z : Int) (h1 : (z : ℚ) ≤ q) (h2 : q < z + 1) : jsFloor q = z :=
  Int.floor_eq_iff.mpr ⟨h1, h2⟩

theorem jsRound_eq (q : ℚ) (z : Int) (h1 : (z : ℚ) ≤ q + 1 / 2) (h2 : q + 1 / 2 < z + 1) :
    jsRound q = z :=
  Int.floor_eq_iff.mpr ⟨h1, h2⟩

theorem int_le_of_cast_lt_add_one (a b : Int) (h : (a : ℚ) < b + 1) : a ≤ b := by
  have : (a : ℚ) < ((b + 1 : Int) : ℚ) := by push_cast; exact h
  have := Int.cast_lt.mp this
  omega

/-- The end of the window is not clamped when the rectangle ends inside the raster. -/
theorem floor_le_raster (q : ℚ) (n : Nat) (h : q ≤ n) : jsFloor q ≤ (n : Int) := by
  have h1 : ((jsFloor q : Int) : ℚ) ≤ q := Int.floor_le q
  have h2 : ((jsFloor q : Int) : ℚ) ≤ ((n : Int) : ℚ) := by push_cast; linarith
  exact Int.cast_le.mp h2

/-- The difference of the floors of `a` and `a + d` is within one of `round d`. -/
theorem round_sub_floor_diff (a d : ℚ) :
    |jsRound d - (jsFloor (a + d) - jsFloor a)| ≤ 1 := by
  have f1 : ((jsFloor (a + d) : Int) : ℚ) ≤ a + d := Int.floor_le _
  have f2 : a + d < ((jsFloor (a + d) : Int) : ℚ) + 1 := Int.lt_floor_add_one _
  have f3 : ((jsFloor a : Int) : ℚ) ≤ a := Int.floor_le _
  have f4 : a < ((jsFloor a : Int) : ℚ) + 1 := Int.lt_floor_add_one _
  have r1 : ((jsRound d : Int) : ℚ) ≤ d + 1 / 2 := Int.floor_le _
  have r2 : d + 1 / 2 < ((jsRound d : Int) : ℚ) + 1 := Int.lt_floor_add_one _
  rw [abs_le]
  constructor
  · have : ((jsFloor (a + d) - jsFloor a - 1 : Int) : ℚ) < ((jsRound d : Int) : ℚ) + 1 := by
      push_cast; linarith
    have := int_le_of_cast_lt_add_one _ _ this
    omega
  · have : ((jsRound d - 1 : Int) : ℚ) < ((jsFloor (a + d) - jsFloor a : Int) : ℚ) + 1 := by
      push_cast; linarith
    have := int_le_of_cast_lt_add_one _ _ this
    omega

theorem validationWindow_croppedWidth (r : Rect) (W H : Nat) (hxw : r.x + r.width ≤ W) :
    (validationWindow r W H).croppedWidth = jsFloor (r.x + r.width) - jsFloor r.x := by
  simp only [validationWindow]
  rw [min_eq_left (floor_le_raster _ _ hxw)]

theorem validationWindow_croppedHeight (r : Rect) (W H : Nat) (hyh : r.y + r.height ≤ H) :
    (validationWindow r W H).croppedHeight = jsFloor (r.y + r.height) - jsFloor r.y := by
  simp only [validationWindow]
  rw [min_eq_left (floor_le_raster _ _ hyh)]

/-- C20 (one-pixel bound).  For a rectangle with `x ≥ 0`, `y ≥ 0`, `width > 0`, `height > 0`,
`x + width ≤ rasterWidth` and `y + height ≤ rasterHeight`, the integer crop window differs
from the rounded size by at most one pixel per axis, and the report holds neither the
critical width-mismatch nor the critical height-mismatch issue. -/
theorem one_pixel_bound (img : ImgElement) (depthData : DepthData) (cropArea : Rect)
    (_hx : 0 ≤ cropArea.x) (_hy : 0 ≤ cropArea.y)
    (_hw : 0 < cropArea.width) (_hh : 0 < cropArea.height)
    (hxw : cropArea.x + cropArea.width ≤ img.naturalWidth)
    (hyh : cropArea.y + cropArea.height ≤ img.naturalHeight) :
    |jsRound cropArea.width
      - (validationWindow cropArea img.naturalWidth img.naturalHeight).croppedWidth| ≤ 1 ∧
    |jsRound cropArea.height
      - (validationWindow cropArea img.naturalWidth img.naturalHeight).croppedHeight| ≤ 1 ∧
    (¬ ∃ m ∈ (runValidation (some img) (some depthData) (some cropArea)).issues,
      IsWidthMismatchIssue m) ∧
    (¬ ∃ m ∈ (runValidation (some img) (some depthData) (some cropArea)).issues,
      IsHeightMismatchIssue m) := by
  have h1 : |jsRound cropArea.width
      - (validationWindow cropArea img.naturalWidth img.naturalHeight).croppedWidth| ≤ 1 := by
    rw [validationWindow_croppedWidth _ _ _ hxw]
    exact round_sub_floor_diff _ _
  have h2 : |jsRound cropArea.height
      - (validationWindow cropArea img.naturalWidth img.naturalHeight).croppedHeight| ≤ 1 := by
    rw [validationWindow_croppedHeight _ _ _ hyh]
    exact round_sub_floor_diff _ _
  refine ⟨h1, h2, ?_, ?_⟩
  · intro h
    have := (isWidthMismatchIssue_iff img depthData cropArea).mp h
    omega
  · intro h
    have := (isHeightMismatchIssue_iff img depthData cropArea).mp h
    omega

/-- C20 on a 10 by 10 raster with the rectangle `{0.5, 0, 2.5, 10}`. -/
theorem one_pixel_bound_witness :
    |jsRound (5 / 2 : ℚ) - (validationWindow ⟨1 / 2, 0, 5 / 2, 10⟩ 10 10).croppedWidth| ≤ 1 ∧
      ¬ ∃ m ∈ (runValidation (some ⟨10, 10⟩)
          (some ⟨⟨.float32, List.replicate 100 0⟩, [10, 10], "<f4".toList⟩)
          (some ⟨1 / 2, 0, 5 / 2, 10⟩)).issues, IsWidthMismatchIssue m := by
  have h := one_pixel_bound ⟨10, 10⟩
    ⟨⟨.float32, List.replicate 100 0⟩, [10, 10], "<f4".toList⟩ ⟨1 / 2, 0, 5 / 2, 10⟩
    (by norm_num) (by norm_num) (by norm_num) (by norm_num) (by norm_num) (by norm_num)
  exact ⟨h.1, h.2.2.1⟩

theorem jsFloor_nonneg {a : ℚ} (h : 0 ≤ a) : 0 ≤ jsFloor a := by
  unfold jsFloor; exact Int.floor_nonneg.mpr h

/-- C18 (export reads stay in bounds).  For a depth array of shape `[H', W']` or
`[H', W', 1]` whose buffer holds `H' * W'` elements and a rectangle with a valid report, the
window used by the export satisfies `0 ≤ startX < endX ≤ W` and `0 ≤ startY < endY ≤ H`, the
row stride read by the gather is `W'`, and every source index
`(startY + y) * W' + (startX + x)` with `y < croppedHeight` and `x < croppedWidth` lies in
`[0, buffer length)`, so the read returns an element. -/
theorem export_reads_in_bounds (img : ImgElement) (depthData : DepthData) (cropArea : Rect)
    (depthH depthW : Int)
    (hshape : depthData.shape = [depthH, depthW] ∨ depthData.shape = [depthH, depthW, 1])
    (hlen : (depthData.data.elems.length : Int) = depthH * depthW)
    (hvalid : (runValidation (some img) (some depthData) (some cropArea)).isValid = true) :
    (0 ≤ (exportWindow cropArea img).startX ∧
      (exportWindow cropArea img).startX < (exportWindow cropArea img).endX ∧
      (exportWindow cropArea img).endX ≤ img.naturalWidth) ∧
    (0 ≤ (exportWindow cropArea img).startY ∧
      (exportWindow cropArea img).startY < (exportWindow cropArea img).endY ∧
      (exportWindow cropArea img).endY ≤ img.naturalHeight) ∧
    depthData.shape.get? 1 = some depthW ∧
    ∀ y x : Nat, (y : Int) < (exportWindow cropArea img).croppedHeight →
      (x : Int) < (exportWindow cropArea img).croppedWidth →
      0 ≤ ((exportWindow cropArea img).startY + y) * depthW
          + ((exportWindow cropArea img).startX + x) ∧
        ((exportWindow cropArea img).startY + y) * depthW
          + ((exportWindow cropArea img).startX + x) < depthData.data.elems.length ∧
        ∃ v, readElem depthData.data
          ((depthData.shape.get? 1).map fun width =>
            ((exportWindow cropArea img).startY + (y : Int)) * width
              + ((exportWindow cropArea img).startX + (x : Int))) = some v := by
  have hc := (isValid_iff_checks img depthData cropArea).mp hvalid
  obtain ⟨hd, -, -, -, -, -, -, -, -, hcw, hch, -, -, hsx, hsy, hex, hey⟩ := hc
  have hwin : validationWindow cropArea img.naturalWidth img.naturalHeight
      = exportWindow cropArea img := rfl
  rw [hwin] at hcw hch hsx hsy hex hey
  have hcw2 : (exportWindow cropArea img).croppedWidth
      = (exportWindow cropArea img).endX - (exportWindow cropArea img).startX := rfl
  have hch2 : (exportWindow cropArea img).croppedHeight
      = (exportWindow cropArea img).endY - (exportWindow cropArea img).startY := rfl
  have hdim : depthW = (img.naturalWidth : Int) ∧ depthH = (img.naturalHeight : Int) := by
    rcases hshape with h | h
    · rw [h, depthDims_rank2] at hd
      simpa using hd
    · rw [h, depthDims_rank3] at hd
      simpa using hd
  have hstride : depthData.shape.get? 1 = some depthW := by
    rcases hshape with h | h <;> rw [h] <;> rfl
  refine ⟨⟨hsx, by omega, hex⟩, ⟨hsy, by omega, hey⟩, hstride, ?_⟩
  intro y x hy hx
  generalize (exportWindow cropArea img).startX = sx at *
  generalize (exportWindow cropArea img).startY = sy at *
  generalize (exportWindow cropArea img).endX = ex at *
  generalize (exportWindow cropArea img).endY = ey at *
  generalize (exportWindow cropArea img).croppedWidth = cw at *
  generalize (exportWindow cropArea img).croppedHeight = ch at *
  obtain ⟨rfl, rfl⟩ := hdim
  have hrow0 : 0 ≤ sy + (y : Int) := by omega
  have hrow1 : sy + (y : Int) + 1 ≤ (img.naturalHeight : Int) := by omega
  have hcol0 : 0 ≤ sx + (x : Int) := by omega
  have hcol1 : sx + (x : Int) < (img.naturalWidth : Int) := by omega
  have hW0 : (0 : Int) ≤ (img.naturalWidth : Int) := Int.natCast_nonneg _
  have hlo : 0 ≤ (sy + (y : Int)) * (img.naturalWidth : Int) + (sx + (x : Int)) :=
    add_nonneg (mul_nonneg hrow0 hW0) hcol0
  have hhi : (sy + (y : Int)) * (img.naturalWidth : Int) + (sx + (x : Int))
      < (depthData.data.elems.length : Int) := by
    rw [hlen]
    have : (sy + (y : Int) + 1) * (img.naturalWidth : Int)
        ≤ (img.naturalHeight : Int) * (img.naturalWidth : Int) :=
      mul_le_mul_of_nonneg_right hrow1 hW0
    linarith
  refine ⟨hlo, hhi, ?_⟩
  rw [hstride]
  simp only [Option.map_some', readElem, if_pos hlo]
  have hlt : ((sy + (y : Int)) * (img.naturalWidth : Int) + (sx + (x : Int))).toNat
      < depthData.data.elems.length := by
    omega
  exact ⟨_, List.get?_eq_get hlt⟩

theorem validationWindow_example :
    validationWindow ⟨1, 0, 2, 2⟩ 3 2 = ⟨1, 0, 3, 2, 2, 2⟩ := exportWindow_example

theorem isValid_example (elems : List Nat) :
    (runValidation (some ⟨3, 2⟩) (some (depth2x3 .float32 elems "<f4".toList))
      (some ⟨1, 0, 2, 2⟩)).isValid = true := by
  rw [isValid_iff_checks]
  have r2 : jsRound (2 : ℚ) = 2 := jsRound_eq _ _ (by norm_num) (by norm_num)
  simp only [validationWindow_example, r2, depth2x3, depthDims]
  norm_num

/-- C18 on a 3 by 2 raster, a depth array of shape `[2, 3]` and the rectangle `{1, 0, 2, 2}`:
the last cell of the window reads the source index 5 of 6. -/
theorem export_reads_in_bounds_witness :
    (exportWindow ⟨1, 0, 2, 2⟩ ⟨3, 2⟩).startX < (exportWindow ⟨1, 0, 2, 2⟩ ⟨3, 2⟩).endX ∧
      ((exportWindow ⟨1, 0, 2, 2⟩ ⟨3, 2⟩).startY + (1 : Nat)) * 3
          + ((exportWindow ⟨1, 0, 2, 2⟩ ⟨3, 2⟩).startX + (1 : Nat))
        < ((depth2x3 .float32 [10, 11, 12, 13, 14, 15] "<f4".toList).data.elems.length : Int) := by
  have h := export_reads_in_bounds ⟨3, 2⟩
    (depth2x3 .float32 [10, 11, 12, 13, 14, 15] "<f4".toList) ⟨1, 0, 2, 2⟩ 2 3
    (Or.inl rfl) (by decide) (isValid_example _)
  refine ⟨h.1.2.1, (h.2.2.2 1 1 ?_ ?_).2.1⟩
  · rw [exportWindow_example]; decide
  · rw [exportWindow_example]; decide

theorem depthDims_eq_none_iff (shape : List Int) :
    depthDims shape = none ↔ ¬ IsSupportedShape shape := by
  unfold IsSupportedShape
  match shape with
  | [] => simp [depthDims]
  | [_] => simp [depthDims]
  | [_, _] => simp [depthDims]
  | [_, _, c] =>
    by_cases hc : c = 1 <;> simp [depthDims, hc]
  | _ :: _ :: _ :: _ :: _ => simp [depthDims]

theorem unsupported_mem_iff (img : ImgElement) (dd : DepthData) (r : Rect) :
    "Unsupported depth data format".toList ∈ validationIssues img dd r ↔
      depthDims dd.shape = none := by
  constructor
  · intro hm
    rw [mem_validationIssues] at hm
    rcases hm with h | h | h | h | h | h | h | h | h | h
    all_goals obtain ⟨hc, hp⟩ := h
    all_goals first
      | exact hc
      | (exfalso; revert hp;
         simp [msgDimensionMismatch, msgWidthMismatch, msgHeightMismatch, msgInvalidCropped])
  · intro h
    exact (mem_validationIssues img dd r _).mpr (Or.inl ⟨h, rfl⟩)

theorem isDimensionMismatchIssue_msg (W H : Nat) (dw dh : Option Int) :
    IsDimensionMismatchIssue (msgDimensionMismatch W H dw dh) := by
  unfold IsDimensionMismatchIssue msgDimensionMismatch
  simp [List.cons_prefix_cons]

/-- C13 fails as stated: on a 3 by 2 raster, a depth array of the rank-1 shape `[6]` gives a
report whose issues are the unsupported-format issue followed by a dimension-mismatch issue
that prints the missing depth size as `undefinedxundefined`; the check that needs the depth
dimensions is not skipped. -/
theorem shape_extraction_counterexample :
    ¬ IsSupportedShape [6] ∧
      (runValidation (some ⟨3, 2⟩)
          (some ⟨⟨.float32, [0, 0, 0, 0, 0, 0]⟩, [6], "<f4".toList⟩)
          (some ⟨1, 0, 2, 2⟩)).issues =
        ["Unsupported depth data format".toList,
          "RGB and Depth dimensions do not match: RGB (3x2) vs Depth (undefinedxundefined)".toList]
      ∧ IsDimensionMismatchIssue
          "RGB and Depth dimensions do not match: RGB (3x2) vs Depth (undefinedxundefined)".toList := by
  have r2 : jsRound (2 : ℚ) = 2 := jsRound_eq _ _ (by norm_num) (by norm_num)
  refine ⟨by decide, ?_, by decide⟩
  have hmsg : msgDimensionMismatch 3 2 none none =
      "RGB and Depth dimensions do not match: RGB (3x2) vs Depth (undefinedxundefined)".toList := by
    decide
  simp only [runValidation, validationIssues, validationWindow_example, r2, depthDims]
  rw [← hmsg]
  norm_num
  simp

/-- C13 (shape extraction), amended.  For a shape that is neither rank 2 nor rank 3 with
`shape[2] = 1`, the report has `isValid = false` and holds the "Unsupported depth data format"
issue; the depth width and height stay undefined, and the dimension check still runs against
them, so the report also holds the dimension-mismatch issue printed with `undefined` sizes.
For a shape `[H, W]` or `[H, W, 1]` the extracted depth size is width `W` and height `H`, and
the unsupported-format issue is absent. -/
theorem shape_extraction (img : ImgElement) (depthData : DepthData) (cropArea : Rect) :
    (¬ IsSupportedShape depthData.shape →
      (runValidation (some img) (some depthData) (some cropArea)).isValid = false ∧
      "Unsupported depth data format".toList
        ∈ (runValidation (some img) (some depthData) (some cropArea)).issues ∧
      msgDimensionMismatch img.naturalWidth img.naturalHeight none none
        ∈ (runValidation (some img) (some depthData) (some cropArea)).issues ∧
      IsDimensionMismatchIssue (msgDimensionMismatch img.naturalWidth img.naturalHeight none none) ∧
      ∃ d, (runValidation (some img) (some depthData) (some cropArea)).details = some d ∧
        d.depthWidth = none ∧ d.depthHeight = none) ∧
    (∀ depthH depthW : Int,
      depthData.shape = [depthH, depthW] ∨ depthData.shape = [depthH, depthW, 1] →
      IsSupportedShape depthData.shape ∧
      (∃ d, (runValidation (some img) (some depthData) (some cropArea)).details = some d ∧
        d.depthWidth = some depthW ∧ d.depthHeight = some depthH) ∧
      "Unsupported depth data format".toList
        ∉ (runValidation (some img) (some depthData) (some cropArea)).issues) := by
  constructor
  · intro h
    have hd : depthDims depthData.shape = none := (depthDims_eq_none_iff _).mpr h
    have h1 : "Unsupported depth data format".toList ∈ validationIssues img depthData cropArea :=
      (unsupported_mem_iff img depthData cropArea).mpr hd
    have h2 : msgDimensionMismatch img.naturalWidth img.naturalHeight none none
        ∈ validationIssues img depthData cropArea := by
      rw [mem_validationIssues]
      refine Or.inr (Or.inl ⟨?_, ?_⟩)
      · rw [hd]; left; simp
      · rw [hd]; rfl
    refine ⟨(isValid_eq_false_iff _ _ _).mpr ⟨_, h1⟩, h1, h2, isDimensionMismatchIssue_msg _ _ _ _,
      _, rfl, ?_, ?_⟩
    · simp [validationDetails, hd]
    · simp [validationDetails, hd]
  · intro depthH depthW hshape
    have hd : depthDims depthData.shape = some (depthW, depthH) := by
      rcases hshape with h | h <;> rw [h]
      · exact depthDims_rank2 _ _
      · exact depthDims_rank3 _ _
    refine ⟨?_, ⟨_, rfl, ?_, ?_⟩, ?_⟩
    · rcases hshape with h | h <;> rw [h] <;> simp [IsSupportedShape]
    · simp [validationDetails, hd]
    · simp [validationDetails, hd]
    · intro hm
      have := (unsupported_mem_iff img depthData cropArea).mp hm
      rw [hd] at this
      exact absurd this (by simp)

theorem jsFloor_intCast (z : Int) : jsFloor (z : ℚ) = z := by
  simp [jsFloor]

theorem jsRound_intCast (z : Int) : jsRound (z : ℚ) = z :=
  jsRound_eq _ _ (by linarith) (by linarith)

theorem jsRound_nonneg {q : ℚ} (h : 0 ≤ q) : 0 ≤ jsRound q := by
  unfold jsRound; exact Int.floor_nonneg.mpr (by linarith)

theorem window_offset_example :
    exportWindow ⟨31 / 4, 0, 9 / 4, 10⟩ ⟨10, 10⟩ = ⟨7, 0, 10, 10, 3, 10⟩ := by
  have f1 : jsFloor (31 / 4 : ℚ) = 7 := jsFloor_eq _ _ (by norm_num) (by norm_num)
  have f2 : jsFloor ((31 / 4 : ℚ) + 9 / 4) = 10 := jsFloor_eq _ _ (by norm_num) (by norm_num)
  have f3 : jsFloor (0 : ℚ) = 0 := jsFloor_eq _ _ (by norm_num) (by norm_num)
  have f4 : jsFloor ((0 : ℚ) + 10) = 10 := jsFloor_eq _ _ (by norm_num) (by norm_num)
  simp only [exportWindow, f1, f2, f3, f4]
  norm_num

theorem isValid_offset_example (elems : List Nat) :
    (runValidation (some ⟨10, 10⟩) (some ⟨⟨.float32, elems⟩, [10, 10], "<f4".toList⟩)
      (some ⟨31 / 4, 0, 9 / 4, 10⟩)).isValid = true := by
  rw [isValid_iff_checks]
  have hw : validationWindow ⟨31 / 4, 0, 9 / 4, 10⟩ 10 10 = ⟨7, 0, 10, 10, 3, 10⟩ :=
    window_offset_example
  have r1 : jsRound (9 / 4 : ℚ) = 2 := jsRound_eq _ _ (by norm_num) (by norm_num)
  have r2 : jsRound (10 : ℚ) = 10 := jsRound_eq _ _ (by norm_num) (by norm_num)
  simp only [hw, r1, r2, depthDims]
  norm_num

/-- C15 fails as stated: on a 10 by 10 raster with a depth array of the same size, the
rectangle `{x: 7.75, y: 0, width: 2.25, height: 10}` has a valid report and the export
succeeds with the window `startX = 7`, `endX = 10`; the metadata holds
`croppedFrom.left = round(7.75) = 8`, not `startX`, `croppedFrom.right = round(-0.75) = -1`,
not `originalWidth - endX = 0` and negative, and `cropBox.right = 8 + 3 = 11`, more than the
raster width 10. -/
theorem metadata_margins_counterexample :
    ∃ b, downloadCropped (fun _ v => v.getD 0x7FC00000) "2024-05-06T07:08:09.123Z".toList
        (loadedState ⟨10, 10⟩ ⟨⟨.float32, List.replicate 100 0⟩, [10, 10], "<f4".toList⟩
          ⟨31 / 4, 0, 9 / 4, 10⟩
          (runValidation (some ⟨10, 10⟩)
            (some ⟨⟨.float32, List.replicate 100 0⟩, [10, 10], "<f4".toList⟩)
            (some ⟨31 / 4, 0, 9 / 4, 10⟩))) = .exported b ∧
      (runValidation (some ⟨10, 10⟩)
        (some ⟨⟨.float32, List.replicate 100 0⟩, [10, 10], "<f4".toList⟩)
        (some ⟨31 / 4, 0, 9 / 4, 10⟩)).isValid = true ∧
      (exportWindow ⟨31 / 4, 0, 9 / 4, 10⟩ ⟨10, 10⟩).startX = 7 ∧
      (exportWindow ⟨31 / 4, 0, 9 / 4, 10⟩ ⟨10, 10⟩).endX = 10 ∧
      b.metadata.originalWidth = 10 ∧
      b.metadata.croppedFrom.left = 8 ∧
      b.metadata.croppedFrom.right = -1 ∧
      b.metadata.cropBox.right = 11 := by
  have hv := isValid_offset_example (List.replicate 100 0)
  have hw := window_offset_example
  have r1 : jsRound (31 / 4 : ℚ) = 8 := jsRound_eq _ _ (by norm_num) (by norm_num)
  have r2 : jsRound (-(3 / 4) : ℚ) = -1 := jsRound_eq _ _ (by norm_num) (by norm_num)
  refine ⟨_, downloadCropped_exported _ _ _ ⟨31 / 4, 0, 9 / 4, 10⟩ ⟨10, 10⟩
    ⟨⟨.float32, List.replicate 100 0⟩, [10, 10], "<f4".toList⟩ rfl rfl rfl rfl rfl hv
    (by rw [hw]; decide), hv, by rw [hw], by rw [hw], rfl, ?_, ?_, ?_⟩
  · simp only [metadataOf, r1]
  · simp only [metadataOf, hw]
    norm_num
    exact r2
  · simp only [metadataOf, hw, r1]
    norm_num

/-- C15 (metadata margins), amended.  For every export under a valid report of the current
inputs, the export succeeds and the metadata holds the raster size, the size of the integer
window as `cropBox.width` and `cropBox.height`, and the margins
`left = round(x)`, `top = round(y)`, `right = round(originalWidth - (x + croppedWidth))`,
`bottom = round(originalHeight - (y + croppedHeight))`, with `left ≥ 0` and `top ≥ 0`.
When `x` is an integer, `left = startX`, `right = originalWidth - endX ≥ 0`,
`left + cropBox.width + right = originalWidth` and `cropBox.right ≤ originalWidth`; when `y`
is an integer, the same holds for `top` and `bottom`. -/
theorem metadata_margins (toFloat32 : DType → Option Nat → Nat) (iso : JSString) (s : State)
    (rect : Rect) (img : ImgElement) (dd : DepthData)
    (hrect : s.cropArea = some rect) (himg : s.img = some img) (hdd : s.depthData = some dd)
    (hil : s.imageLoaded = true) (hdl : s.depthLoaded = true)
    (hreport : s.validationStatus = runValidation (some img) (some dd) (some rect))
    (hvalid : s.validationStatus.isValid = true) :
    ∃ b, downloadCropped toFloat32 iso s = .exported b ∧
      b.metadata.originalWidth = img.naturalWidth ∧
      b.metadata.originalHeight = img.naturalHeight ∧
      b.metadata.cropBox.width = (exportWindow rect img).croppedWidth ∧
      b.metadata.cropBox.height = (exportWindow rect img).croppedHeight ∧
      b.metadata.cropBox.right = jsRound rect.x + (exportWindow rect img).croppedWidth ∧
      b.metadata.cropBox.bottom = jsRound rect.y + (exportWindow rect img).croppedHeight ∧
      b.metadata.croppedFrom.left = jsRound rect.x ∧
      b.metadata.croppedFrom.top = jsRound rect.y ∧
      b.metadata.croppedFrom.right
        = jsRound ((img.naturalWidth : ℚ)
            - (rect.x + ((exportWindow rect img).croppedWidth : ℚ))) ∧
      b.metadata.croppedFrom.bottom
        = jsRound ((img.naturalHeight : ℚ)
            - (rect.y + ((exportWindow rect img).croppedHeight : ℚ))) ∧
      0 ≤ b.metadata.croppedFrom.left ∧ 0 ≤ b.metadata.croppedFrom.top ∧
      (∀ n : Int, rect.x = n →
        b.metadata.croppedFrom.left = (exportWindow rect img).startX ∧
        b.metadata.croppedFrom.right
          = (img.naturalWidth : Int) - (exportWindow rect img).endX ∧
        0 ≤ b.metadata.croppedFrom.right ∧
        b.metadata.croppedFrom.left + b.metadata.cropBox.width + b.metadata.croppedFrom.right
          = b.metadata.originalWidth ∧
        b.metadata.cropBox.right ≤ b.metadata.originalWidth) ∧
      (∀ m : Int, rect.y = m →
        b.metadata.croppedFrom.top = (exportWindow rect img).startY ∧
        b.metadata.croppedFrom.bottom
          = (img.naturalHeight : Int) - (exportWindow rect img).endY ∧
        0 ≤ b.metadata.croppedFrom.bottom ∧
        b.metadata.croppedFrom.top + b.metadata.cropBox.height + b.metadata.croppedFrom.bottom
          = b.metadata.originalHeight ∧
        b.metadata.cropBox.bottom ≤ b.metadata.originalHeight) := by
  rw [hreport] at hvalid
  have hc := (isValid_iff_checks img dd rect).mp hvalid
  obtain ⟨-, hx, hy, -, -, -, -, -, -, hcw, hch, -, -, -, -, hex, hey⟩ := hc
  have hwin : validationWindow rect img.naturalWidth img.naturalHeight
      = exportWindow rect img := rfl
  rw [hwin] at hcw hch hex hey
  have hsize : 0 ≤ (exportWindow rect img).croppedHeight * (exportWindow rect img).croppedWidth :=
    mul_nonneg (le_of_lt hch) (le_of_lt hcw)
  have hvalid2 : s.validationStatus.isValid = true := by rw [hreport]; exact hvalid
  have hcw2 : (exportWindow rect img).croppedWidth
      = (exportWindow rect img).endX - (exportWindow rect img).startX := rfl
  have hch2 : (exportWindow rect img).croppedHeight
      = (exportWindow rect img).endY - (exportWindow rect img).startY := rfl
  have hsx : (exportWindow rect img).startX = jsFloor rect.x := rfl
  have hsy : (exportWindow rect img).startY = jsFloor rect.y := rfl
  refine ⟨_, downloadCropped_exported toFloat32 iso s rect img dd hrect himg hdd hil hdl hvalid2
    hsize, rfl, rfl, rfl, rfl, rfl, rfl, rfl, rfl, rfl, rfl, jsRound_nonneg hx, jsRound_nonneg hy,
    ?_, ?_⟩
  · intro n hn
    have h1 : jsRound rect.x = n := by rw [hn]; exact jsRound_intCast n
    have h2 : (exportWindow rect img).startX = n := by rw [hsx, hn]; exact jsFloor_intCast n
    have h3 : jsRound ((img.naturalWidth : ℚ)
        - (rect.x + ((exportWindow rect img).croppedWidth : ℚ)))
        = (img.naturalWidth : Int) - (n + (exportWindow rect img).croppedWidth) := by
      rw [hn]
      have := jsRound_intCast ((img.naturalWidth : Int) - (n + (exportWindow rect img).croppedWidth))
      push_cast at this
      exact this
    simp only [metadataOf, h1, h3]
    refine ⟨h2.symm, ?_, ?_, ?_, ?_⟩ <;> omega
  · intro m hm
    have h1 : jsRound rect.y = m := by rw [hm]; exact jsRound_intCast m
    have h2 : (exportWindow rect img).startY = m := by rw [hsy, hm]; exact jsFloor_intCast m
    have h3 : jsRound ((img.naturalHeight : ℚ)
        - (rect.y + ((exportWindow rect img).croppedHeight : ℚ)))
        = (img.naturalHeight : Int) - (m + (exportWindow rect img).croppedHeight) := by
      rw [hm]
      have := jsRound_intCast ((img.naturalHeight : Int) - (m + (exportWindow rect img).croppedHeight))
      push_cast at this
      exact this
    simp only [metadataOf, h1, h3]
    refine ⟨h2.symm, ?_, ?_, ?_, ?_⟩ <;> omega

/-- C15 on a 3 by 2 raster with the rectangle `{1, 0, 2, 2}`: the left margin is 1. -/
theorem metadata_margins_witness :
    ∃ b, downloadCropped (fun _ v => v.getD 0x7FC00000) "2024-05-06T07:08:09.123Z".toList
        (loadedState ⟨3, 2⟩ (depth2x3 .float32 [10, 11, 12, 13, 14, 15] "<f4".toList)
          ⟨1, 0, 2, 2⟩
          (runValidation (some ⟨3, 2⟩)
            (some (depth2x3 .float32 [10, 11, 12, 13, 14, 15] "<f4".toList))
            (some ⟨1, 0, 2, 2⟩))) = .exported b ∧
      b.metadata.croppedFrom.left = (exportWindow ⟨1, 0, 2, 2⟩ ⟨3, 2⟩).startX ∧
      b.metadata.croppedFrom.left + b.metadata.cropBox.width + b.metadata.croppedFrom.right
        = b.metadata.originalWidth := by
  obtain ⟨b, h1, -, -, -, -, -, -, -, -, -, -, -, -, h2, -⟩ :=
    metadata_margins (fun _ v => v.getD 0x7FC00000) "2024-05-06T07:08:09.123Z".toList
      (loadedState ⟨3, 2⟩ (depth2x3 .float32 [10, 11, 12, 13, 14, 15] "<f4".toList)
        ⟨1, 0, 2, 2⟩
        (runValidation (some ⟨3, 2⟩)
          (some (depth2x3 .float32 [10, 11, 12, 13, 14, 15] "<f4".toList))
          (some ⟨1, 0, 2, 2⟩)))
      ⟨1, 0, 2, 2⟩ ⟨3, 2⟩ (depth2x3 .float32 [10, 11, 12, 13, 14, 15] "<f4".toList)
      rfl rfl rfl rfl rfl rfl (isValid_example _)
  have h3 := h2 1 (by norm_num)
  exact ⟨b, h1, h3.1, h3.2.2.2.1⟩

theorem isInsideCropArea_iff (r : Rect) (p : Point) :
    isInsideCropArea (some r) p = true ↔
      (r.x ≤ p.x ∧ p.x ≤ r.x + r.width ∧ r.y ≤ p.y ∧ p.y ≤ r.y + r.height) := by
  simp [isInsideCropArea, and_assoc]

/-- C16 fails as stated: in the state of the mounted component no rectangle exists and no
image is loaded; `handleMouseDown` at `(5, 5)` returns at its guard `if (!imageLoaded) return`
and leaves the state as it is: no drag starts and no rectangle is created. -/
theorem pointer_down_dispatch_counterexample :
    initialState.cropArea = none ∧
      handleMouseDown initialState ⟨5, 5⟩ = initialState ∧
      (handleMouseDown initialState ⟨5, 5⟩).isDragging = false ∧
      (handleMouseDown initialState ⟨5, 5⟩).cropArea = none := by
  refine ⟨rfl, ?_, ?_, ?_⟩ <;> simp [handleMouseDown, initialState]

/-- C16 (PointerDown dispatch), amended.  When no image is loaded, `handleMouseDown` leaves
the state unchanged.  When an image is loaded: if a rectangle exists and
`rect.x ≤ p.x ≤ rect.x + rect.width` and `rect.y ≤ p.y ≤ rect.y + rect.height`, the handler
enters the move mode with the anchor `(p.x - rect.x, p.y - rect.y)` and changes nothing else,
so the rectangle is unchanged; if no rectangle exists or `p` is outside it, the handler enters
the create mode with the anchor `p` and the rectangle `{x: p.x, y: p.y, width: 0, height: 0}`
and changes nothing else. -/
theorem pointer_down_dispatch (s : State) (p : Point) :
    (s.imageLoaded = false → handleMouseDown s p = s) ∧
    (s.imageLoaded = true →
      (∀ r, s.cropArea = some r →
        (r.x ≤ p.x ∧ p.x ≤ r.x + r.width ∧ r.y ≤ p.y ∧ p.y ≤ r.y + r.height) →
        handleMouseDown s p =
            { s with dragMode := .move, isDragging := true,
                     dragStart := { x := p.x - r.x, y := p.y - r.y } } ∧
          (handleMouseDown s p).cropArea = some r) ∧
      ((s.cropArea = none ∨ ∃ r, s.cropArea = some r ∧
          ¬ (r.x ≤ p.x ∧ p.x ≤ r.x + r.width ∧ r.y ≤ p.y ∧ p.y ≤ r.y + r.height)) →
        handleMouseDown s p =
          { s with dragMode := .create, isDragging := true, dragStart := p,
                   cropArea := some { x := p.x, y := p.y, width := 0, height := 0 } })) := by
  refine ⟨fun h => by simp [handleMouseDown, h], fun h => ⟨?_, ?_⟩⟩
  · intro r hr hin
    have hi := (isInsideCropArea_iff r p).mpr hin
    have : handleMouseDown s p =
        { s with dragMode := .move, isDragging := true,
                 dragStart := { x := p.x - r.x, y := p.y - r.y } } := by
      simp [handleMouseDown, h, hr, hi]
    refine ⟨this, ?_⟩
    rw [this]
    exact hr
  · rintro (hn | ⟨r, hr, hout⟩)
    · simp [handleMouseDown, h, hn]
    · have hi : isInsideCropArea (some r) p = false := by
        rw [← Bool.not_eq_true, isInsideCropArea_iff]
        exact hout
      simp [handleMouseDown, h, hr, hi]

theorem ofBuffer_ok (kind : DType) (buffer : List Nat) (data : TypedArray)
    (h : TypedArray.ofBuffer kind buffer = .ok data) :
    data.kind = kind ∧ data.elems.length * kind.bytesPerElement = buffer.length := by
  unfold TypedArray.ofBuffer at h
  split at h
  · cases h
  · rename_i hmod
    injection h with h
    subst h
    simp only [List.length_map, List.length_range, true_and]
    have hmod : buffer.length % kind.bytesPerElement = 0 := by
      by_contra hne; exact hmod hne
    exact Nat.div_mul_cancel (Nat.dvd_of_mod_eq_zero hmod)

theorem ofBuffer_error (kind : DType) (buffer : List Nat) (e : JsError)
    (h : TypedArray.ofBuffer kind buffer = .error e) :
    e = .rangeError ∧ buffer.length % kind.bytesPerElement ≠ 0 := by
  unfold TypedArray.ofBuffer at h
  split at h
  · rename_i hmod
    injection h with h
    exact ⟨h.symm, hmod⟩
  · cases h

theorem ofBuffer_isOk (kind : DType) (buffer : List Nat)
    (h : buffer.length % kind.bytesPerElement = 0) :
    ∃ data, TypedArray.ofBuffer kind buffer = .ok data := by
  unfold TypedArray.ofBuffer
  rw [if_neg (by simpa using h)]
  exact ⟨_, rfl⟩

/-- The result of `parseNpyFile` on a buffer that passes the preamble checks and whose
header holds a shape tuple and a descr string. -/
theorem parseNpyFile_parsable (buffer : List Nat) (shapeText dtype : JSString)
    (hmagic : buffer.take 6 = npyMagic) (hlen : 10 + headerLenOf buffer ≤ buffer.length)
    (hshape : regexSearch matchShapeAt (headerTextOf buffer) = some shapeText)
    (hdescr : regexSearch matchDescrAt (headerTextOf buffer) = some dtype) :
    parseNpyFile buffer =
      match TypedArray.ofBuffer (dtypeOf dtype) (payloadOf buffer) with
      | .ok data =>
        .ok { data := data
              shape := (splitComma shapeText).filterMap fun s => parseInt (jsTrim s)
              dtype := dtype }
      | .error e => .error e := by
  rw [parseNpyFile_cases]
  have h6 : ¬ buffer.length < 6 := by omega
  have h10 : ¬ buffer.length < 10 := by omega
  have hl : ¬ 10 + headerLenOf buffer > buffer.length := by omega
  rw [if_neg h6, if_neg (by simpa using hmagic), if_neg h10, if_neg hl]
  cases hv : TypedArray.ofBuffer (dtypeOf dtype) (payloadOf buffer) <;>
    simp only [hshape, hdescr, hv]

/-- What a successful `parseNpyFile` returns. -/
theorem parseNpyFile_ok (buffer : List Nat) (r : DepthData) (h : parseNpyFile buffer = .ok r) :
    buffer.take 6 = npyMagic ∧ 10 + headerLenOf buffer ≤ buffer.length ∧
      regexSearch matchDescrAt (headerTextOf buffer) = some r.dtype ∧
      (∃ shapeText, regexSearch matchShapeAt (headerTextOf buffer) = some shapeText ∧
        r.shape = (splitComma shapeText).filterMap fun s => parseInt (jsTrim s)) ∧
      TypedArray.ofBuffer (dtypeOf r.dtype) (payloadOf buffer) = .ok r.data := by
  rw [parseNpyFile_cases] at h
  by_cases h6 : buffer.length < 6
  · rw [if_pos h6] at h; cases h
  rw [if_neg h6] at h
  by_cases hm : buffer.take 6 ≠ npyMagic
  · rw [if_pos hm] at h; cases h
  rw [if_neg hm] at h
  by_cases h10 : buffer.length < 10
  · rw [if_pos h10] at h; cases h
  rw [if_neg h10] at h
  by_cases hl : 10 + headerLenOf buffer > buffer.length
  · rw [if_pos hl] at h; cases h
  rw [if_neg hl] at h
  have hm2 : buffer.take 6 = npyMagic := by
    by_contra hne; exact hm hne
  cases hs : regexSearch matchShapeAt (headerTextOf buffer) with
  | none => rw [hs] at h; cases h
  | some shapeText =>
    cases hd : regexSearch matchDescrAt (headerTextOf buffer) with
    | none => rw [hs, hd] at h; cases h
    | some dtype =>
      rw [hs, hd] at h
      dsimp only at h
      cases hv : TypedArray.ofBuffer (dtypeOf dtype) (payloadOf buffer) with
      | error e => rw [hv] at h; cases h
      | ok data =>
        rw [hv] at h
        injection h with h
        subst h
        exact ⟨hm2, by omega, rfl, ⟨shapeText, rfl, rfl⟩, hv⟩

set_option maxRecDepth 100000 in
theorem parse_mismatched_example :
    parseNpyFile (npyBytes ⟨.float32, [0x3F800000]⟩ [2, 3])
      = .ok ⟨⟨.float32, [0x3F800000]⟩, [2, 3], "<f4".toList⟩ := by
  rfl

set_option maxRecDepth 100000 in
theorem parse_nonpositive_example :
    parseNpyFile (npyBytes ⟨.float32, []⟩ [0, -3])
      = .ok ⟨⟨.float32, []⟩, [0, -3], "<f4".toList⟩ := by
  rfl

/-- C12 fails as stated: `createNpyFile` writes a one-element float32 array under the shape
`[2, 3]`, and `parseNpyFile` succeeds on those bytes with the shape `[2, 3]` and a data
array of length 1, not 6; on the bytes written for an empty array under the shape `[0, -3]`
it succeeds with the shape `[0, -3]`, whose entries are not positive. -/
theorem decoded_array_invariant_counterexample :
    createNpyFile ⟨.float32, [0x3F800000]⟩ [2, 3]
        = .ok (npyBytes ⟨.float32, [0x3F800000]⟩ [2, 3]) ∧
      (∃ r, parseNpyFile (npyBytes ⟨.float32, [0x3F800000]⟩ [2, 3]) = .ok r ∧
        r.shape = [2, 3] ∧ r.data.elems.length = 1 ∧
        (r.data.elems.length : Int) ≠ r.shape.prod) ∧
      (∃ r, parseNpyFile (npyBytes ⟨.float32, []⟩ [0, -3]) = .ok r ∧
        r.shape = [0, -3] ∧ ¬ ∀ n ∈ r.shape, 0 < n) :=
  ⟨createNpyFile_eq_npyBytes _ _, ⟨_, parse_mismatched_example, rfl, rfl, by decide⟩,
    ⟨_, parse_nonpositive_example, rfl, by decide⟩⟩

/-- C12 (decoded-array invariant), amended.  For every byte sequence on which
`parseNpyFile` succeeds, the returned data is the view of the whole payload in the element
kind selected by the returned descr token, so its length times the element size is the
number of payload bytes, and the returned shape is the sequence of the integers that
`parseInt` reads from the comma-separated pieces of the header tuple, pieces without a number
dropped; the entries may have any sign, and the shape is not compared with the data
length. -/
theorem decoded_array_invariant (buffer : List Nat) (r : DepthData)
    (h : parseNpyFile buffer = .ok r) :
    r.data.kind = dtypeOf r.dtype ∧
      r.data.elems.length * (dtypeOf r.dtype).bytesPerElement = (payloadOf buffer).length ∧
      TypedArray.ofBuffer (dtypeOf r.dtype) (payloadOf buffer) = .ok r.data ∧
      ∃ shapeText, regexSearch matchShapeAt (headerTextOf buffer) = some shapeText ∧
        r.shape = (splitComma shapeText).filterMap fun s => parseInt (jsTrim s) := by
  obtain ⟨-, -, -, hs, hv⟩ := parseNpyFile_ok buffer r h
  obtain ⟨hk, hl⟩ := ofBuffer_ok _ _ _ hv
  exact ⟨hk, hl, hv, hs⟩

set_option maxRecDepth 100000 in
/-- C12 on the bytes of a one-element float32 array written under the shape `[2, 3]`: the
decoded array has one element for the four payload bytes. -/
theorem decoded_array_invariant_witness :
    (1 : Nat) * (dtypeOf "<f4".toList).bytesPerElement
      = (payloadOf (npyBytes ⟨.float32, [0x3F800000]⟩ [2, 3])).length :=
  (decoded_array_invariant (npyBytes ⟨.float32, [0x3F800000]⟩ [2, 3])
    ⟨⟨.float32, [0x3F800000]⟩, [2, 3], "<f4".toList⟩ parse_mismatched_example).2.1

theorem includes_iff (needle s : JSString) : includes needle s = true ↔ Occurs needle s := by
  unfold Occurs
  induction s with
  | nil =>
    simp [includes, List.isEmpty_iff]
  | cons c cs ih =>
    rw [includes, Bool.or_eq_true, ih, List.infix_cons_iff, List.isPrefixOf_iff_prefix]

theorem dtypeOf_eq (dtype : JSString) :
    dtypeOf dtype =
      if Occurs "f4".toList dtype ∨ Occurs "float32".toList dtype then .float32
      else if Occurs "f8".toList dtype ∨ Occurs "float64".toList dtype then .float64
      else if Occurs "i4".toList dtype ∨ Occurs "int32".toList dtype then .int32
      else if Occurs "u1".toList dtype ∨ Occurs "uint8".toList dtype then .uint8
      else .float32 := by
  unfold dtypeOf
  simp only [Bool.or_eq_true, includes_iff]

set_option maxRecDepth 100000 in
/-- C17 fails as stated: a file with the valid magic whose header holds the tuple `(3,)` and
the descr token `<i2`, which contains none of the eight substrings, over a payload of three
16-bit integers (6 bytes): the fallback `new Float32Array(dataBuffer)` throws a `RangeError`
because 6 is not a multiple of 4, so `parseNpyFile` fails. -/
theorem dtype_dispatch_counterexample :
    (int16File [1, 0, 2, 0, 3, 0]).take 6 = npyMagic ∧
      regexSearch matchShapeAt (headerTextOf (int16File [1, 0, 2, 0, 3, 0]))
        = some "3,".toList ∧
      regexSearch matchDescrAt (headerTextOf (int16File [1, 0, 2, 0, 3, 0]))
        = some "<i2".toList ∧
      (¬ Occurs "f4".toList "<i2".toList ∧ ¬ Occurs "float32".toList "<i2".toList ∧
        ¬ Occurs "f8".toList "<i2".toList ∧ ¬ Occurs "float64".toList "<i2".toList ∧
        ¬ Occurs "i4".toList "<i2".toList ∧ ¬ Occurs "int32".toList "<i2".toList ∧
        ¬ Occurs "u1".toList "<i2".toList ∧ ¬ Occurs "uint8".toList "<i2".toList) ∧
      payloadOf (int16File [1, 0, 2, 0, 3, 0]) = [1, 0, 2, 0, 3, 0] ∧
      parseNpyFile (int16File [1, 0, 2, 0, 3, 0]) = .error .rangeError := by
  refine ⟨rfl, rfl, rfl, by decide, rfl, rfl⟩

/-- C17 (dtype dispatch), amended.  For every byte sequence with the valid magic and a
header inside the buffer that holds a shape tuple and a descr token, the element kind is
selected by the substrings of the token, tested in the order f4/float32, f8/float64,
i4/int32, u1/uint8, and is float32 when none occurs.  `parseNpyFile` returns the payload
viewed in that kind when the number of payload bytes is a multiple of the element size, and
fails with a `RangeError` otherwise; so with a token that contains none of the substrings it
succeeds, with a float32 view, exactly when the payload length is a multiple of 4. -/
theorem dtype_dispatch (buffer : List Nat) (shapeText dtype : JSString)
    (hmagic : buffer.take 6 = npyMagic) (hlen : 10 + headerLenOf buffer ≤ buffer.length)
    (hshape : regexSearch matchShapeAt (headerTextOf buffer) = some shapeText)
    (hdescr : regexSearch matchDescrAt (headerTextOf buffer) = some dtype) :
    (dtypeOf dtype =
      if Occurs "f4".toList dtype ∨ Occurs "float32".toList dtype then .float32
      else if Occurs "f8".toList dtype ∨ Occurs "float64".toList dtype then .float64
      else if Occurs "i4".toList dtype ∨ Occurs "int32".toList dtype then .int32
      else if Occurs "u1".toList dtype ∨ Occurs "uint8".toList dtype then .uint8
      else .float32) ∧
    ((payloadOf buffer).length % (dtypeOf dtype).bytesPerElement = 0 →
      ∃ data, TypedArray.ofBuffer (dtypeOf dtype) (payloadOf buffer) = .ok data ∧
        data.kind = dtypeOf dtype ∧
        parseNpyFile buffer
          = .ok { data := data
                  shape := (splitComma shapeText).filterMap fun s => parseInt (jsTrim s)
                  dtype := dtype }) ∧
    ((payloadOf buffer).length % (dtypeOf dtype).bytesPerElement ≠ 0 →
      parseNpyFile buffer = .error .rangeError) ∧
    (¬ (Occurs "f4".toList dtype ∨ Occurs "float32".toList dtype) →
      ¬ (Occurs "f8".toList dtype ∨ Occurs "float64".toList dtype) →
      ¬ (Occurs "i4".toList dtype ∨ Occurs "int32".toList dtype) →
      ¬ (Occurs "u1".toList dtype ∨ Occurs "uint8".toList dtype) →
      dtypeOf dtype = .float32 ∧
      ((∃ r, parseNpyFile buffer = .ok r) ↔ (payloadOf buffer).length % 4 = 0)) := by
  have hparse := parseNpyFile_parsable buffer shapeText dtype hmagic hlen hshape hdescr
  have hok : (payloadOf buffer).length % (dtypeOf dtype).bytesPerElement = 0 →
      ∃ data, TypedArray.ofBuffer (dtypeOf dtype) (payloadOf buffer) = .ok data ∧
        data.kind = dtypeOf dtype ∧
        parseNpyFile buffer
          = .ok { data := data
                  shape := (splitComma shapeText).filterMap fun s => parseInt (jsTrim s)
                  dtype := dtype } := by
    intro h
    obtain ⟨data, hd⟩ := ofBuffer_isOk _ _ h
    refine ⟨data, hd, (ofBuffer_ok _ _ _ hd).1, ?_⟩
    rw [hparse, hd]
  have herr : (payloadOf buffer).length % (dtypeOf dtype).bytesPerElement ≠ 0 →
      parseNpyFile buffer = .error .rangeError := by
    intro h
    have : TypedArray.ofBuffer (dtypeOf dtype) (payloadOf buffer) = .error .rangeError := by
      unfold TypedArray.ofBuffer
      rw [if_pos h]
    rw [hparse, this]
  refine ⟨dtypeOf_eq dtype, hok, herr, ?_⟩
  intro h1 h2 h3 h4
  have hk : dtypeOf dtype = .float32 := by
    rw [dtypeOf_eq, if_neg h1, if_neg h2, if_neg h3, if_neg h4]
  refine ⟨hk, ?_⟩
  have hb : (dtypeOf dtype).bytesPerElement = 4 := by rw [hk]; rfl
  constructor
  · rintro ⟨r, hr⟩
    by_contra hne
    rw [herr (by rw [hb]; exact hne)] at hr
    cases hr
  · intro h
    obtain ⟨data, -, -, hp⟩ := hok (by rw [hb]; exact h)
    exact ⟨_, hp⟩

set_option maxRecDepth 100000 in
/-- C17 on the same header over a payload of 8 bytes: the token `<i2` selects float32 and
the decoder succeeds. -/
theorem dtype_dispatch_witness :
    dtypeOf "<i2".toList = .float32 ∧
      ((∃ r, parseNpyFile (int16File [1, 0, 2, 0, 3, 0, 4, 0]) = .ok r) ↔
        (payloadOf (int16File [1, 0, 2, 0, 3, 0, 4, 0])).length % 4 = 0) :=
  (dtype_dispatch (int16File [1, 0, 2, 0, 3, 0, 4, 0]) "3,".toList "<i2".toList
    rfl (by decide) rfl rfl).2.2.2 (by decide) (by decide) (by decide) (by decide)

/-! ### Rounding to the nearest double -/

theorem floor_le_roundHalfEven (q : ℚ) : ⌊q⌋ ≤ roundHalfEven q := by
  unfold roundHalfEven
  split_ifs <;> omega

theorem roundHalfEven_le_floor_add_one (q : ℚ) : roundHalfEven q ≤ ⌊q⌋ + 1 := by
  unfold roundHalfEven
  split_ifs <;> omega

theorem roundHalfEven_intCast (m : Int) : roundHalfEven (m : ℚ) = m := by
  unfold roundHalfEven
  simp

theorem int_le_roundHalfEven (q : ℚ) (m : Int) (h : (m : ℚ) ≤ q) : m ≤ roundHalfEven q :=
  le_trans (Int.le_floor.mpr h) (floor_le_roundHalfEven q)

theorem roundHalfEven_le_int (q : ℚ) (m : Int) (h : q ≤ (m : ℚ)) : roundHalfEven q ≤ m := by
  rcases eq_or_lt_of_le h with h | h
  · rw [h, roundHalfEven_intCast]
  · have : ⌊q⌋ < m := Int.floor_lt.mpr h
    have := roundHalfEven_le_floor_add_one q
    omega

theorem roundHalfEven_sub_le (q : ℚ) : |(roundHalfEven q : ℚ) - q| ≤ 1 / 2 := by
  have h1 : (⌊q⌋ : ℚ) ≤ q := Int.floor_le q
  have h2 : q < (⌊q⌋ : ℚ) + 1 := Int.lt_floor_add_one q
  unfold roundHalfEven
  rw [abs_le]
  split_ifs with a b c
  · constructor <;> linarith
  · push_cast; constructor <;> linarith
  · constructor <;> linarith
  · push_cast; constructor <;> linarith

theorem roundHalfEven_eq (q : ℚ) (m : Int) (h1 : (m : ℚ) - 1 / 2 < q) (h2 : q < (m : ℚ) + 1 / 2) :
    roundHalfEven q = m := by
  have h := roundHalfEven_sub_le q
  rw [abs_le] at h
  have a : ((roundHalfEven q : Int) : ℚ) < ((m + 1 : Int) : ℚ) := by push_cast; linarith
  have b : ((m - 1 : Int) : ℚ) < ((roundHalfEven q : Int) : ℚ) := by push_cast; linarith
  have a := Int.cast_lt.mp a
  have b := Int.cast_lt.mp b
  omega

theorem two_zpow_pos (e : Int) : (0 : ℚ) < 2 ^ e := zpow_pos (by norm_num) e

theorem ulpExponent_eq (q : ℚ) (k : Int) (hk : -1022 ≤ k) (h1 : (2 : ℚ) ^ k ≤ |q|)
    (h2 : |q| < (2 : ℚ) ^ (k + 1)) : ulpExponent q = k - 52 := by
  have hpos : 0 < |q| := lt_of_lt_of_le (two_zpow_pos k) h1
  have a : k ≤ Int.log 2 |q| :=
    (Int.zpow_le_iff_le_log (by norm_num) hpos).mp (by simpa using h1)
  have b : Int.log 2 |q| < k + 1 :=
    (Int.lt_zpow_iff_log_lt (by norm_num) hpos).mp (by simpa using h2)
  unfold ulpExponent
  have : Int.log 2 |q| = k := by omega
  rw [this]
  exact max_eq_left (by omega)

/-- The double nearest to `q`, given the binade of `q` and the rounded mantissa. -/
theorem toDouble_eq (q : ℚ) (k m : Int) (hk : -1022 ≤ k) (h1 : (2 : ℚ) ^ k ≤ |q|)
    (h2 : |q| < (2 : ℚ) ^ (k + 1)) (hm : roundHalfEven (q / 2 ^ (k - 52)) = m) :
    toDouble q = (m : ℚ) * 2 ^ (k - 52) := by
  unfold toDouble
  rw [ulpExponent_eq q k hk h1 h2, hm]

theorem toDouble_zero : toDouble 0 = 0 := by
  simp [toDouble, roundHalfEven]

theorem toDouble_nonneg {q : ℚ} (h : 0 ≤ q) : 0 ≤ toDouble q := by
  unfold toDouble
  have hz : (0 : ℚ) ≤ q / 2 ^ ulpExponent q := div_nonneg h (le_of_lt (two_zpow_pos _))
  have : (0 : Int) ≤ roundHalfEven (q / 2 ^ ulpExponent q) :=
    int_le_roundHalfEven _ 0 (by simpa using hz)
  exact mul_nonneg (by exact_mod_cast this) (le_of_lt (two_zpow_pos _))

theorem toDouble_nonpos {q : ℚ} (h : q ≤ 0) : toDouble q ≤ 0 := by
  unfold toDouble
  have hz : q / 2 ^ ulpExponent q ≤ 0 := div_nonpos_of_nonpos_of_nonneg h (le_of_lt (two_zpow_pos _))
  have : roundHalfEven (q / 2 ^ ulpExponent q) ≤ (0 : Int) :=
    roundHalfEven_le_int _ 0 (by simpa using hz)
  exact mul_nonpos_of_nonpos_of_nonneg (by exact_mod_cast this) (le_of_lt (two_zpow_pos _))

/-- The rounding error is at most half a unit in the last place. -/
theorem toDouble_sub_le (q : ℚ) : |toDouble q - q| ≤ 2 ^ ulpExponent q / 2 := by
  unfold toDouble
  have hp := two_zpow_pos (ulpExponent q)
  have h := roundHalfEven_sub_le (q / 2 ^ ulpExponent q)
  have e : (roundHalfEven (q / 2 ^ ulpExponent q) : ℚ) * 2 ^ ulpExponent q - q
      = ((roundHalfEven (q / 2 ^ ulpExponent q) : ℚ) - q / 2 ^ ulpExponent q)
          * 2 ^ ulpExponent q := by
    field_simp
  rw [e, abs_mul, abs_of_pos hp]
  calc |(roundHalfEven (q / 2 ^ ulpExponent q) : ℚ) - q / 2 ^ ulpExponent q| * 2 ^ ulpExponent q
      ≤ 1 / 2 * 2 ^ ulpExponent q := mul_le_mul_of_nonneg_right h (le_of_lt hp)
    _ = 2 ^ ulpExponent q / 2 := by ring

theorem log_two_nonneg {q : ℚ} (h : 1 ≤ q) : 0 ≤ Int.log 2 q :=
  (Int.zpow_le_iff_le_log (by norm_num) (lt_of_lt_of_le one_pos h)).mp (by simpa using h)

theorem two_zpow_log_le {q : ℚ} (h : 0 < q) : (2 : ℚ) ^ Int.log 2 q ≤ q := by
  simpa using Int.zpow_log_le_self (b := 2) (by norm_num) h

theorem two_zpow_split (L : Int) : (2 : ℚ) ^ L = 2 ^ (52 : Int) * 2 ^ (L - 52) := by
  rw [← zpow_add₀ (by norm_num : (2 : ℚ) ≠ 0)]
  congr 1
  ring

/-- Dividing an integer by a power of two with a non-positive exponent gives an integer. -/
theorem int_div_two_zpow (n e : Int) (he : e ≤ 0) :
    (n : ℚ) / 2 ^ e = ((n * 2 ^ (-e).toNat : Int) : ℚ) := by
  obtain ⟨j, rfl⟩ : ∃ j : Nat, e = -(j : Int) := ⟨(-e).toNat, by omega⟩
  simp only [neg_neg, Int.toNat_ofNat, zpow_neg, zpow_natCast]
  push_cast
  field_simp

/-- Rounding never crosses an integer below `2^53` downwards. -/
theorem le_toDouble_of_int_le (n : Int) (q : ℚ) (h0 : 0 ≤ n) (hn : n ≤ 2 ^ 53)
    (h : (n : ℚ) ≤ q) : (n : ℚ) ≤ toDouble q := by
  rcases eq_or_lt_of_le h0 with h0 | h0
  · subst h0
    simpa using toDouble_nonneg (by simpa using h)
  have hn1 : (1 : ℚ) ≤ n := by exact_mod_cast h0
  have hq1 : (1 : ℚ) ≤ q := le_trans hn1 h
  have hq0 : (0 : ℚ) < q := lt_of_lt_of_le one_pos hq1
  have habs : |q| = q := abs_of_pos hq0
  have hL := log_two_nonneg hq1
  have he : ulpExponent q = Int.log 2 q - 52 := by
    unfold ulpExponent; rw [habs]; exact max_eq_left (by omega)
  have hp := two_zpow_pos (Int.log 2 q - 52)
  unfold toDouble
  rw [he]
  by_cases hc : Int.log 2 q ≤ 52
  · have hint := int_div_two_zpow n (Int.log 2 q - 52) (by omega)
    have hz : ((n * 2 ^ (-(Int.log 2 q - 52)).toNat : Int) : ℚ) ≤ q / 2 ^ (Int.log 2 q - 52) := by
      rw [← hint]
      exact div_le_div_of_nonneg_right h (le_of_lt hp)
    have hr := int_le_roundHalfEven _ _ hz
    have hr2 : ((n * 2 ^ (-(Int.log 2 q - 52)).toNat : Int) : ℚ)
        ≤ (roundHalfEven (q / 2 ^ (Int.log 2 q - 52)) : ℚ) := by exact_mod_cast hr
    calc (n : ℚ) = (n : ℚ) / 2 ^ (Int.log 2 q - 52) * 2 ^ (Int.log 2 q - 52) := by
          field_simp
      _ = ((n * 2 ^ (-(Int.log 2 q - 52)).toNat : Int) : ℚ) * 2 ^ (Int.log 2 q - 52) := by
          rw [hint]
      _ ≤ _ := mul_le_mul_of_nonneg_right hr2 (le_of_lt hp)
  · have hL53 : 53 ≤ Int.log 2 q := by omega
    have hsplit := two_zpow_split (Int.log 2 q)
    have hz : (((2 : Int) ^ 52 : Int) : ℚ) ≤ q / 2 ^ (Int.log 2 q - 52) := by
      rw [le_div_iff₀ hp]
      have : (((2 : Int) ^ 52 : Int) : ℚ) * 2 ^ (Int.log 2 q - 52) = 2 ^ Int.log 2 q := by
        rw [hsplit]; norm_num
      rw [this]
      exact two_zpow_log_le hq0
    have hr := int_le_roundHalfEven _ _ hz
    have hr2 : (((2 : Int) ^ 52 : Int) : ℚ)
        ≤ (roundHalfEven (q / 2 ^ (Int.log 2 q - 52)) : ℚ) := by exact_mod_cast hr
    have hpow : (2 : ℚ) ^ (53 : Int) ≤ 2 ^ Int.log 2 q :=
      zpow_le_zpow_right₀ (by norm_num) hL53
    have hn' : (n : ℚ) ≤ 2 ^ (53 : Int) := by
      have h1 : (n : ℚ) ≤ ((2 ^ 53 : Int) : ℚ) := by exact_mod_cast hn
      have h2 : ((2 ^ 53 : Int) : ℚ) = 2 ^ (53 : Int) := by norm_num
      rw [← h2]; exact h1
    calc (n : ℚ) ≤ 2 ^ Int.log 2 q := le_trans hn' hpow
      _ = (((2 : Int) ^ 52 : Int) : ℚ) * 2 ^ (Int.log 2 q - 52) := by
          rw [hsplit]; norm_num
      _ ≤ _ := mul_le_mul_of_nonneg_right hr2 (le_of_lt hp)

/-- Rounding never crosses an integer below `2^53` upwards. -/
theorem toDouble_le_of_le_int (n : Int) (q : ℚ) (h0 : 0 ≤ n) (hn : n ≤ 2 ^ 53)
    (h : q ≤ (n : ℚ)) : toDouble q ≤ (n : ℚ) := by
  rcases le_or_lt q 0 with hq | hq0
  · exact le_trans (toDouble_nonpos hq) (by exact_mod_cast h0)
  have habs : |q| = q := abs_of_pos hq0
  have hn' : (n : ℚ) ≤ 2 ^ (53 : Int) := by
    have h1 : (n : ℚ) ≤ ((2 ^ 53 : Int) : ℚ) := by exact_mod_cast hn
    have h2 : ((2 ^ 53 : Int) : ℚ) = 2 ^ (53 : Int) := by norm_num
    rw [← h2]; exact h1
  rcases eq_or_lt_of_le (le_trans h hn') with hq53 | hq53
  · have hnq : (n : ℚ) = 2 ^ (53 : Int) := le_antisymm hn' (by rw [← hq53]; exact h)
    have hr : roundHalfEven (q / 2 ^ ((53 : Int) - 52)) = 2 ^ 52 := by
      rw [hq53]
      have : (2 : ℚ) ^ (53 : Int) / 2 ^ ((53 : Int) - 52) = ((2 ^ 52 : Int) : ℚ) := by norm_num
      rw [this, roundHalfEven_intCast]
    rw [toDouble_eq q 53 (2 ^ 52) (by norm_num) (by rw [habs, hq53])
      (by rw [habs, hq53]; norm_num) hr, hnq]
    norm_num
  · have hL : Int.log 2 q < 53 :=
      (Int.lt_zpow_iff_log_lt (by norm_num) hq0).mp (by simpa using hq53)
    have he : ulpExponent q ≤ 0 := by
      unfold ulpExponent; rw [habs]; exact max_le (by omega) (by norm_num)
    have hp := two_zpow_pos (ulpExponent q)
    have hint := int_div_two_zpow n (ulpExponent q) he
    have hz : q / 2 ^ ulpExponent q ≤ ((n * 2 ^ (-ulpExponent q).toNat : Int) : ℚ) := by
      rw [← hint]
      exact div_le_div_of_nonneg_right h (le_of_lt hp)
    have hr := roundHalfEven_le_int _ _ hz
    have hr2 : (roundHalfEven (q / 2 ^ ulpExponent q) : ℚ)
        ≤ ((n * 2 ^ (-ulpExponent q).toNat : Int) : ℚ) := by exact_mod_cast hr
    unfold toDouble
    calc (roundHalfEven (q / 2 ^ ulpExponent q) : ℚ) * 2 ^ ulpExponent q
        ≤ ((n * 2 ^ (-ulpExponent q).toNat : Int) : ℚ) * 2 ^ ulpExponent q :=
          mul_le_mul_of_nonneg_right hr2 (le_of_lt hp)
      _ = (n : ℚ) / 2 ^ ulpExponent q * 2 ^ ulpExponent q := by rw [hint]
      _ = (n : ℚ) := by field_simp

/-- An integer between 0 and `2^53` is a double. -/
theorem toDouble_intCast (n : Int) (h0 : 0 ≤ n) (hn : n ≤ 2 ^ 53) : toDouble (n : ℚ) = n :=
  le_antisymm (toDouble_le_of_le_int n _ h0 hn le_rfl) (le_toDouble_of_int_le n _ h0 hn le_rfl)

/-- The rounding error of a difference `0 < d ≤ c`, for a natural number `c`: at most
`c * 2^-53`. -/
theorem toDouble_sub_le_of_le_nat (d : ℚ) (c : Nat) (hd : 0 ≤ d) (hdc : d ≤ c) :
    |toDouble d - d| ≤ (c : ℚ) / 2 ^ 53 := by
  rcases eq_or_lt_of_le hd with hd0 | hd0
  · rw [← hd0, toDouble_zero]
    simp only [sub_zero, abs_zero]
    positivity
  have hc1 : (1 : ℚ) ≤ c := by
    have : (0 : ℚ) < c := lt_of_lt_of_le hd0 hdc
    have : 0 < c := by exact_mod_cast this
    exact_mod_cast this
  have hc0 : (0 : ℚ) < c := lt_of_lt_of_le one_pos hc1
  have habs : |d| = d := abs_of_pos hd0
  have hmono : Int.log 2 d ≤ Int.log 2 (c : ℚ) := Int.log_mono_right hd0 hdc
  have hLc := log_two_nonneg hc1
  have he : ulpExponent d ≤ Int.log 2 (c : ℚ) - 52 := by
    unfold ulpExponent; rw [habs]; exact max_le (by omega) (by omega)
  have h1 : (2 : ℚ) ^ ulpExponent d ≤ 2 ^ (Int.log 2 (c : ℚ) - 52) :=
    zpow_le_zpow_right₀ (by norm_num) he
  have h2 : (2 : ℚ) ^ (Int.log 2 (c : ℚ) - 52) = 2 ^ Int.log 2 (c : ℚ) / 2 ^ 52 := by
    rw [two_zpow_split (Int.log 2 (c : ℚ))]
    norm_num
  have h3 : (2 : ℚ) ^ Int.log 2 (c : ℚ) ≤ c := two_zpow_log_le hc0
  calc |toDouble d - d| ≤ 2 ^ ulpExponent d / 2 := toDouble_sub_le d
    _ ≤ 2 ^ (Int.log 2 (c : ℚ) - 52) / 2 := by linarith
    _ = 2 ^ Int.log 2 (c : ℚ) / 2 ^ 52 / 2 := by rw [h2]
    _ ≤ (c : ℚ) / 2 ^ 52 / 2 := by
        have : (2 : ℚ) ^ Int.log 2 (c : ℚ) / 2 ^ 52 ≤ (c : ℚ) / 2 ^ 52 :=
          div_le_div_of_nonneg_right h3 (by positivity)
        linarith
    _ = (c : ℚ) / 2 ^ 53 := by ring

/-! ### The report in double arithmetic -/

/-- The entries of `issues` in double arithmetic, one disjunct per check. -/
theorem mem_validationIssues64 (img : ImgElement) (dd : DepthData) (r : Rect) (m : JSString) :
    m ∈ validationIssues64 img dd r ↔
      (depthDims dd.shape = none ∧ m = "Unsupported depth data format".toList) ∨
      ((some (img.naturalWidth : Int) ≠ (depthDims dd.shape).map Prod.fst ∨
          some (img.naturalHeight : Int) ≠ (depthDims dd.shape).map Prod.snd) ∧
        m = msgDimensionMismatch img.naturalWidth img.naturalHeight
          ((depthDims dd.shape).map Prod.fst) ((depthDims dd.shape).map Prod.snd)) ∨
      ((r.x < 0 ∨ r.y < 0) ∧ m = "Crop coordinates are negative".toList) ∨
      ((add64 r.x r.width > img.naturalWidth ∨ add64 r.y r.height > img.naturalHeight) ∧
        m = "Crop extends beyond image boundaries".toList) ∨
      ((r.width ≤ 0 ∨ r.height ≤ 0) ∧
        m = "Crop dimensions are invalid (zero or negative)".toList) ∨
      (|jsRound r.width
          - (validationWindow64 r img.naturalWidth img.naturalHeight).croppedWidth| > 1 ∧
        m = msgWidthMismatch (jsRound r.width)
          (validationWindow64 r img.naturalWidth img.naturalHeight).croppedWidth
          |jsRound r.width
            - (validationWindow64 r img.naturalWidth img.naturalHeight).croppedWidth|) ∨
      (|jsRound r.height
          - (validationWindow64 r img.naturalWidth img.naturalHeight).croppedHeight| > 1 ∧
        m = msgHeightMismatch (jsRound r.height)
          (validationWindow64 r img.naturalWidth img.naturalHeight).croppedHeight
          |jsRound r.height
            - (validationWindow64 r img.naturalWidth img.naturalHeight).croppedHeight|) ∨
      (((validationWindow64 r img.naturalWidth img.naturalHeight).croppedWidth ≤ 0 ∨
          (validationWindow64 r img.naturalWidth img.naturalHeight).croppedHeight ≤ 0) ∧
        m = msgInvalidCropped
          (validationWindow64 r img.naturalWidth img.naturalHeight).croppedWidth
          (validationWindow64 r img.naturalWidth img.naturalHeight).croppedHeight) ∨
      (((validationWindow64 r img.naturalWidth img.naturalHeight).croppedWidth
            > img.naturalWidth ∨
          (validationWindow64 r img.naturalWidth img.naturalHeight).croppedHeight
            > img.naturalHeight) ∧
        m = "CRITICAL: Cropped dimensions exceed original image bounds".toList) ∨
      (((validationWindow64 r img.naturalWidth img.naturalHeight).startX < 0 ∨
          (validationWindow64 r img.naturalWidth img.naturalHeight).startY < 0 ∨
          (validationWindow64 r img.naturalWidth img.naturalHeight).endX > img.naturalWidth ∨
          (validationWindow64 r img.naturalWidth img.naturalHeight).endY > img.naturalHeight) ∧
        m = "CRITICAL: Crop coordinates extend beyond image boundaries".toList) := by
  unfold validationIssues64
  simp only [List.mem_append, mem_ite_singleton, or_assoc]

theorem isValid64_eq_false_iff (img : ImgElement) (dd : DepthData) (r : Rect) :
    (runValidation64 (some img) (some dd) (some r)).isValid = false ↔
      ∃ m, m ∈ validationIssues64 img dd r := by
  simp only [runValidation64, decide_eq_false_iff_not, List.length_eq_zero]
  exact ⟨fun h => List.exists_mem_of_ne_nil _ h, fun ⟨m, hm⟩ h => by rw [h] at hm; simp at hm⟩

theorem isValid64_eq_true_iff (img : ImgElement) (dd : DepthData) (r : Rect) :
    (runValidation64 (some img) (some dd) (some r)).isValid = true ↔
      validationIssues64 img dd r = [] := by
  simp only [runValidation64, decide_eq_true_eq, List.length_eq_zero]

/-- The entries of `warnings` in double arithmetic that come from the area check. -/
theorem small_area_mem_iff64 (img : ImgElement) (dd : DepthData) (r : Rect) :
    "Crop area is very small (< 1%)".toList ∈ validationWarnings64 img dd r ↔
      (areaPercentOf64 r img.naturalWidth img.naturalHeight).ltConst 1 = true := by
  unfold validationWarnings64
  simp only [List.mem_append]
  constructor
  · rintro (((h | h) | h) | h)
    · by_contra hc
      rw [if_neg hc] at h
      split_ifs at h <;> simp at h
    · exfalso; revert h; split_ifs <;> simp [msgWidthAdjusted]
    · exfalso; revert h; split_ifs <;> simp [msgHeightAdjusted]
    · exfalso; revert h
      cases validPercentageOf64 dd.data with
      | fin p => dsimp only; split_ifs <;> simp [msgLowQuality]
      | posInf => simp
      | negInf => simp
      | nan => simp
  · intro h
    left; left; left
    rw [if_pos h]
    simp

theorem large_area_mem_iff64 (img : ImgElement) (dd : DepthData) (r : Rect) :
    "Crop area is very large (> 95%)".toList ∈ validationWarnings64 img dd r ↔
      (areaPercentOf64 r img.naturalWidth img.naturalHeight).gtConst 95 = true := by
  unfold validationWarnings64
  simp only [List.mem_append]
  constructor
  · rintro (((h | h) | h) | h)
    · split_ifs at h with h1 h2
      · simp at h
      · exact h2
      · simp at h
    · exfalso; revert h; split_ifs <;> simp [msgWidthAdjusted]
    · exfalso; revert h; split_ifs <;> simp [msgHeightAdjusted]
    · exfalso; revert h
      cases validPercentageOf64 dd.data with
      | fin p => dsimp only; split_ifs <;> simp [msgLowQuality]
      | posInf => simp
      | negInf => simp
      | nan => simp
  · intro h
    left; left; left
    have hlt : ¬ (areaPercentOf64 r img.naturalWidth img.naturalHeight).ltConst 1 = true := by
      revert h
      cases areaPercentOf64 r img.naturalWidth img.naturalHeight with
      | fin q =>
        simp only [JSNum.gtConst, JSNum.ltConst, decide_eq_true_eq, not_lt]
        intro h; linarith
      | posInf => simp [JSNum.gtConst, JSNum.ltConst]
      | negInf => simp [JSNum.gtConst, JSNum.ltConst]
      | nan => simp [JSNum.gtConst, JSNum.ltConst]
    rw [if_neg hlt, if_pos h]
    simp

theorem area_warning_not_issue64 (img : ImgElement) (dd : DepthData) (r : Rect) :
    "Crop area is very small (< 1%)".toList ∉ validationIssues64 img dd r ∧
      "Crop area is very large (> 95%)".toList ∉ validationIssues64 img dd r := by
  constructor
  all_goals
    intro hm
    rw [mem_validationIssues64] at hm
    rcases hm with h | h | h | h | h | h | h | h | h | h
    all_goals obtain ⟨-, hp⟩ := h
    all_goals
      (revert hp;
       simp [msgDimensionMismatch, msgWidthMismatch, msgHeightMismatch, msgInvalidCropped])

/-- Evaluation of `toDouble` on a positive number: the binade `k` and the mantissa `m`. -/
theorem toDouble_eval_pos (q : ℚ) (k m : Int) (v : ℚ) (hk : -1022 ≤ k) (h1 : (2 : ℚ) ^ k ≤ q)
    (h2 : q < (2 : ℚ) ^ (k + 1)) (hm1 : (m : ℚ) - 1 / 2 < q / 2 ^ (k - 52))
    (hm2 : q / 2 ^ (k - 52) < (m : ℚ) + 1 / 2) (hv : v = (m : ℚ) * 2 ^ (k - 52)) :
    toDouble q = v := by
  have hq : 0 < q := lt_of_lt_of_le (two_zpow_pos k) h1
  rw [hv]
  exact toDouble_eq q k m hk (by rw [abs_of_pos hq]; exact h1) (by rw [abs_of_pos hq]; exact h2)
    (roundHalfEven_eq _ _ hm1 hm2)

/-- Evaluation of `toDouble` on a negative number. -/
theorem toDouble_eval_neg (q : ℚ) (k m : Int) (v : ℚ) (hk : -1022 ≤ k) (h1 : (2 : ℚ) ^ k ≤ -q)
    (h2 : -q < (2 : ℚ) ^ (k + 1)) (hm1 : (m : ℚ) - 1 / 2 < q / 2 ^ (k - 52))
    (hm2 : q / 2 ^ (k - 52) < (m : ℚ) + 1 / 2) (hv : v = (m : ℚ) * 2 ^ (k - 52)) :
    toDouble q = v := by
  have hq : q < 0 := by linarith [two_zpow_pos k]
  rw [hv]
  exact toDouble_eq q k m hk (by rw [abs_of_neg hq]; exact h1) (by rw [abs_of_neg hq]; exact h2)
    (roundHalfEven_eq _ _ hm1 hm2)

theorem toDouble_natCast (n : Nat) (hn : n ≤ 2 ^ 53) : toDouble (n : ℚ) = n := by
  have := toDouble_intCast (n : Int) (Int.natCast_nonneg n) (by exact_mod_cast hn)
  simpa using this

theorem add64_edge_example :
    add64 (199 / 2) (4503599627370497 / 9007199254740992) = 100 := by
  unfold add64
  exact toDouble_eval_pos _ 6 7036874417766400 _ (by norm_num) (by norm_num) (by norm_num)
    (by norm_num) (by norm_num) (by norm_num)

theorem add64_zero_hundred : add64 0 100 = 100 := by
  unfold add64
  have := toDouble_natCast 100 (by norm_num)
  simpa using this

theorem window64_edge_example :
    validationWindow64 ⟨199 / 2, 0, 4503599627370497 / 9007199254740992, 100⟩ 100 100
      = ⟨99, 0, 100, 100, 1, 100⟩ := by
  have f1 : jsFloor (199 / 2 : ℚ) = 99 := jsFloor_eq _ _ (by norm_num) (by norm_num)
  have f2 : jsFloor (100 : ℚ) = 100 := jsFloor_eq _ _ (by norm_num) (by norm_num)
  have f3 : jsFloor (0 : ℚ) = 0 := jsFloor_eq _ _ (by norm_num) (by norm_num)
  simp only [validationWindow64, add64_edge_example, add64_zero_hundred, f1, f2, f3]
  norm_num

/-- C7 fails as stated: on a 100 by 100 raster with a depth array of the same size, the
rectangle `{x: 99.5, y: 0, width: 0.5 + 2^-53, height: 100}` has doubles for coordinates and
the exact sum `x + width = 100 + 2^-53 > 100`, but the sum the program computes is the
double `100`, so the check `cropRight > rgbWidth` is silent: the report has no issue and
`isValid` is true. -/
theorem bounds_rejection_counterexample :
    toDouble (199 / 2) = 199 / 2 ∧
      toDouble (4503599627370497 / 9007199254740992) = 4503599627370497 / 9007199254740992 ∧
      (199 / 2 : ℚ) + 4503599627370497 / 9007199254740992 > ((100 : Nat) : ℚ) ∧
      add64 (199 / 2) (4503599627370497 / 9007199254740992) = 100 ∧
      (runValidation64 (some ⟨100, 100⟩) (some ⟨⟨.float32, [0]⟩, [100, 100], "<f4".toList⟩)
        (some ⟨199 / 2, 0, 4503599627370497 / 9007199254740992, 100⟩)).issues = [] ∧
      (runValidation64 (some ⟨100, 100⟩) (some ⟨⟨.float32, [0]⟩, [100, 100], "<f4".toList⟩)
        (some ⟨199 / 2, 0, 4503599627370497 / 9007199254740992, 100⟩)).isValid = true := by
  have hissues : validationIssues64 ⟨100, 100⟩ ⟨⟨.float32, [0]⟩, [100, 100], "<f4".toList⟩
      ⟨199 / 2, 0, 4503599627370497 / 9007199254740992, 100⟩ = [] := by
    have r1 : jsRound (4503599627370497 / 9007199254740992 : ℚ) = 1 :=
      jsRound_eq _ _ (by norm_num) (by norm_num)
    have r2 : jsRound (100 : ℚ) = 100 := jsRound_eq _ _ (by norm_num) (by norm_num)
    simp only [validationIssues64, window64_edge_example, add64_edge_example,
      add64_zero_hundred, r1, r2, depthDims]
    norm_num
    simp
  refine ⟨?_, ?_, by norm_num, add64_edge_example, hissues, ?_⟩
  · exact toDouble_eval_pos _ 6 7001690045677568 _ (by norm_num) (by norm_num) (by norm_num)
      (by norm_num) (by norm_num) (by norm_num)
  · exact toDouble_eval_pos _ (-1) 4503599627370497 _ (by norm_num) (by norm_num) (by norm_num)
      (by norm_num) (by norm_num) (by norm_num)
  · rw [isValid64_eq_true_iff]; exact hissues

/-- A sum that exceeds a raster size below `2^53` by a pixel or more also exceeds it after
rounding. -/
theorem add64_gt_of_succ_le (a b : ℚ) (n : Nat) (hn : n < 2 ^ 53) (h : (n : ℚ) + 1 ≤ a + b) :
    add64 a b > (n : ℚ) := by
  have h1 : (((n : Int) + 1 : Int) : ℚ) ≤ a + b := by push_cast; exact h
  have h2 := le_toDouble_of_int_le ((n : Int) + 1) (a + b) (by omega)
    (by have : (n : Int) < 2 ^ 53 := by exact_mod_cast hn
        omega) h1
  unfold add64
  push_cast at h2
  linarith

/-- C7 (bounds rejection), amended.  On loaded inputs, a rectangle with `x < 0` or `y < 0`
gives a report with `isValid = false` and an issue containing "negative".  A rectangle whose
sum `x + width`, rounded to a double as the program computes it, is above `rasterWidth`, or
whose rounded sum `y + height` is above `rasterHeight`, or with `width ≤ 0` or `height ≤ 0`,
gives a report with `isValid = false`.  On a raster side below `2^53` the rounded sum is above
the side whenever the exact sum exceeds it by a pixel or more. -/
theorem bounds_rejection (img : ImgElement) (depthData : DepthData) (cropArea : Rect) :
    (cropArea.x < 0 ∨ cropArea.y < 0 →
      (runValidation64 (some img) (some depthData) (some cropArea)).isValid = false ∧
      ∃ m ∈ (runValidation64 (some img) (some depthData) (some cropArea)).issues,
        Occurs "negative".toList m) ∧
    (add64 cropArea.x cropArea.width > img.naturalWidth ∨
        add64 cropArea.y cropArea.height > img.naturalHeight ∨
        cropArea.width ≤ 0 ∨ cropArea.height ≤ 0 →
      (runValidation64 (some img) (some depthData) (some cropArea)).isValid = false) ∧
    (img.naturalWidth < 2 ^ 53 →
      (img.naturalWidth : ℚ) + 1 ≤ cropArea.x + cropArea.width →
      (runValidation64 (some img) (some depthData) (some cropArea)).isValid = false) ∧
    (img.naturalHeight < 2 ^ 53 →
      (img.naturalHeight : ℚ) + 1 ≤ cropArea.y + cropArea.height →
      (runValidation64 (some img) (some depthData) (some cropArea)).isValid = false) := by
  have hbeyond : add64 cropArea.x cropArea.width > img.naturalWidth ∨
      add64 cropArea.y cropArea.height > img.naturalHeight →
      (runValidation64 (some img) (some depthData) (some cropArea)).isValid = false := by
    intro h
    rw [isValid64_eq_false_iff]
    exact ⟨_, (mem_validationIssues64 _ _ _ _).mpr (Or.inr (Or.inr (Or.inr (Or.inl ⟨h, rfl⟩))))⟩
  refine ⟨?_, ?_, ?_, ?_⟩
  · intro h
    have hm : "Crop coordinates are negative".toList
        ∈ validationIssues64 img depthData cropArea :=
      (mem_validationIssues64 _ _ _ _).mpr (Or.inr (Or.inr (Or.inl ⟨h, rfl⟩)))
    exact ⟨(isValid64_eq_false_iff _ _ _).mpr ⟨_, hm⟩, _, hm, by decide⟩
  · intro h
    rcases h with h | h | h | h
    · exact hbeyond (Or.inl h)
    · exact hbeyond (Or.inr h)
    · rw [isValid64_eq_false_iff]
      exact ⟨_, (mem_validationIssues64 _ _ _ _).mpr
        (Or.inr (Or.inr (Or.inr (Or.inr (Or.inl ⟨Or.inl h, rfl⟩)))))⟩
    · rw [isValid64_eq_false_iff]
      exact ⟨_, (mem_validationIssues64 _ _ _ _).mpr
        (Or.inr (Or.inr (Or.inr (Or.inr (Or.inl ⟨Or.inr h, rfl⟩)))))⟩
  · intro hn h
    exact hbeyond (Or.inl (add64_gt_of_succ_le _ _ _ hn h))
  · intro hn h
    exact hbeyond (Or.inr (add64_gt_of_succ_le _ _ _ hn h))

/-- C7 at the rectangle `{x: -5, y: 0, width: 10, height: 10}` on a raster 100 by 100: the
report is invalid and holds an issue containing "negative". -/
theorem bounds_rejection_witness :
    (runValidation64 (some ⟨100, 100⟩)
        (some ⟨⟨.float32, List.replicate 10000 0⟩, [100, 100], "<f4".toList⟩)
        (some ⟨-5, 0, 10, 10⟩)).isValid = false ∧
      ∃ m ∈ (runValidation64 (some ⟨100, 100⟩)
          (some ⟨⟨.float32, List.replicate 10000 0⟩, [100, 100], "<f4".toList⟩)
          (some ⟨-5, 0, 10, 10⟩)).issues, Occurs "negative".toList m :=
  (bounds_rejection ⟨100, 100⟩ ⟨⟨.float32, List.replicate 10000 0⟩, [100, 100], "<f4".toList⟩
    ⟨-5, 0, 10, 10⟩).1 (Or.inl (by norm_num))

theorem isInvalidCroppedIssue_iff64 (img : ImgElement) (dd : DepthData) (r : Rect) :
    (∃ m ∈ validationIssues64 img dd r, IsInvalidCroppedIssue m) ↔
      ((validationWindow64 r img.naturalWidth img.naturalHeight).croppedWidth ≤ 0 ∨
        (validationWindow64 r img.naturalWidth img.naturalHeight).croppedHeight ≤ 0) := by
  constructor
  · rintro ⟨m, hm, hp⟩
    rw [mem_validationIssues64] at hm
    unfold IsInvalidCroppedIssue at hp
    rcases hm with h | h | h | h | h | h | h | h | h | h
    all_goals obtain ⟨hc, rfl⟩ := h
    all_goals first
      | exact hc
      | (exfalso; revert hp;
         simp [msgDimensionMismatch, msgWidthMismatch, msgHeightMismatch,
           List.cons_prefix_cons])
  · intro h
    refine ⟨_, (mem_validationIssues64 img dd r _).mpr (Or.inr (Or.inr (Or.inr (Or.inr (Or.inr
      (Or.inr (Or.inr (Or.inl ⟨h, rfl⟩)))))))), ?_⟩
    unfold IsInvalidCroppedIssue msgInvalidCropped
    simp [List.cons_prefix_cons]

theorem exceeds_mem_iff64 (img : ImgElement) (dd : DepthData) (r : Rect) :
    "CRITICAL: Cropped dimensions exceed original image bounds".toList
        ∈ validationIssues64 img dd r ↔
      ((validationWindow64 r img.naturalWidth img.naturalHeight).croppedWidth
          > img.naturalWidth ∨
        (validationWindow64 r img.naturalWidth img.naturalHeight).croppedHeight
          > img.naturalHeight) := by
  constructor
  · intro hm
    rw [mem_validationIssues64] at hm
    rcases hm with h | h | h | h | h | h | h | h | h | h
    all_goals obtain ⟨hc, hp⟩ := h
    all_goals first
      | exact hc
      | (exfalso; revert hp;
         simp [msgDimensionMismatch, msgWidthMismatch, msgHeightMismatch, msgInvalidCropped])
  · intro h
    exact (mem_validationIssues64 img dd r _).mpr (Or.inr (Or.inr (Or.inr (Or.inr (Or.inr
      (Or.inr (Or.inr (Or.inr (Or.inl ⟨h, rfl⟩)))))))))

theorem outside_mem_iff64 (img : ImgElement) (dd : DepthData) (r : Rect) :
    "CRITICAL: Crop coordinates extend beyond image boundaries".toList
        ∈ validationIssues64 img dd r ↔
      ((validationWindow64 r img.naturalWidth img.naturalHeight).startX < 0 ∨
        (validationWindow64 r img.naturalWidth img.naturalHeight).startY < 0 ∨
        (validationWindow64 r img.naturalWidth img.naturalHeight).endX > img.naturalWidth ∨
        (validationWindow64 r img.naturalWidth img.naturalHeight).endY > img.naturalHeight) := by
  constructor
  · intro hm
    rw [mem_validationIssues64] at hm
    rcases hm with h | h | h | h | h | h | h | h | h | h
    all_goals obtain ⟨hc, hp⟩ := h
    all_goals first
      | exact hc
      | (exfalso; revert hp;
         simp [msgDimensionMismatch, msgWidthMismatch, msgHeightMismatch, msgInvalidCropped])
  · intro h
    exact (mem_validationIssues64 img dd r _).mpr (Or.inr (Or.inr (Or.inr (Or.inr (Or.inr
      (Or.inr (Or.inr (Or.inr (Or.inr ⟨h, rfl⟩)))))))))

theorem add64_narrow_example : add64 (1 / 8) (3 / 8) = 1 / 2 := by
  unfold add64
  exact toDouble_eval_pos _ (-1) 4503599627370496 _ (by norm_num) (by norm_num) (by norm_num)
    (by norm_num) (by norm_num) (by norm_num)

theorem add64_zero_one : add64 0 1 = 1 := by
  unfold add64
  have := toDouble_natCast 1 (by norm_num)
  simpa using this

theorem window64_narrow_example :
    validationWindow64 ⟨1 / 8, 0, 3 / 8, 1⟩ 10 10 = ⟨0, 0, 0, 1, 0, 1⟩ := by
  have f1 : jsFloor (1 / 8 : ℚ) = 0 := jsFloor_eq _ _ (by norm_num) (by norm_num)
  have f2 : jsFloor (1 / 2 : ℚ) = 0 := jsFloor_eq _ _ (by norm_num) (by norm_num)
  have f3 : jsFloor (0 : ℚ) = 0 := jsFloor_eq _ _ (by norm_num) (by norm_num)
  have f4 : jsFloor (1 : ℚ) = 1 := jsFloor_eq _ _ (by norm_num) (by norm_num)
  simp only [validationWindow64, add64_narrow_example, add64_zero_one, f1, f2, f3, f4]
  norm_num

/-- C19 fails as stated: on a 10 by 10 raster whose depth array has the same size, the
rectangle `{x: 0.125, y: 0, width: 0.375, height: 1}`, whose coordinates and sums are exact
in doubles, passes the three floating-rectangle checks and both border checks
(`round(0.375) = 0 = croppedWidth`), and the only issue of the report is the one of the
integer re-check, "CRITICAL: Invalid cropped dimensions". -/
theorem recheck_redundancy_counterexample :
    (0 ≤ (1 / 8 : ℚ) ∧ 0 ≤ (0 : ℚ)) ∧
      (¬ add64 (1 / 8) (3 / 8) > ((10 : Nat) : ℚ) ∧ ¬ add64 0 1 > ((10 : Nat) : ℚ)) ∧
      (0 < (3 / 8 : ℚ) ∧ 0 < (1 : ℚ)) ∧
      |jsRound (3 / 8 : ℚ) - (validationWindow64 ⟨1 / 8, 0, 3 / 8, 1⟩ 10 10).croppedWidth| = 0 ∧
      |jsRound (1 : ℚ) - (validationWindow64 ⟨1 / 8, 0, 3 / 8, 1⟩ 10 10).croppedHeight| = 0 ∧
      (runValidation64 (some ⟨10, 10⟩)
          (some ⟨⟨.float32, List.replicate 100 0⟩, [10, 10], "<f4".toList⟩)
          (some ⟨1 / 8, 0, 3 / 8, 1⟩)).issues = [msgInvalidCropped 0 1] := by
  have r1 : jsRound (3 / 8 : ℚ) = 0 := jsRound_eq _ _ (by norm_num) (by norm_num)
  have r2 : jsRound (1 : ℚ) = 1 := jsRound_eq _ _ (by norm_num) (by norm_num)
  refine ⟨by norm_num, ?_, by norm_num, ?_, ?_, ?_⟩
  · rw [add64_narrow_example, add64_zero_one]; norm_num
  · rw [window64_narrow_example, r1]; rfl
  · rw [window64_narrow_example, r2]; rfl
  · simp only [runValidation64, validationIssues64, window64_narrow_example,
      add64_narrow_example, add64_zero_one, r1, r2, depthDims]
    norm_num
    simp

/-- C19 (re-check redundancy), amended.  The sums are the doubles the program computes.  When
the three floating-rectangle checks pass (`x ≥ 0`, `y ≥ 0`, `x + width` not above
`rasterWidth`, `y + height` not above `rasterHeight`, `width > 0`, `height > 0`), the re-check
"cropped size exceeds the raster" and the re-check "window coordinates outside the raster"
add no issue.  The re-check "croppedWidth ≤ 0 or croppedHeight ≤ 0" adds its issue exactly
when `floor(x + width) ≤ floor(x)` or `floor(y + height) ≤ floor(y)`; on a raster with sides
below `2^53` it adds none when `width ≥ 1` and `height ≥ 1`. -/
theorem recheck_redundancy (img : ImgElement) (depthData : DepthData) (cropArea : Rect)
    (hx : 0 ≤ cropArea.x) (hy : 0 ≤ cropArea.y)
    (hxw : ¬ add64 cropArea.x cropArea.width > img.naturalWidth)
    (hyh : ¬ add64 cropArea.y cropArea.height > img.naturalHeight)
    (_hw : 0 < cropArea.width) (_hh : 0 < cropArea.height) :
    "CRITICAL: Cropped dimensions exceed original image bounds".toList
        ∉ (runValidation64 (some img) (some depthData) (some cropArea)).issues ∧
      "CRITICAL: Crop coordinates extend beyond image boundaries".toList
        ∉ (runValidation64 (some img) (some depthData) (some cropArea)).issues ∧
      ((∃ m ∈ (runValidation64 (some img) (some depthData) (some cropArea)).issues,
          IsInvalidCroppedIssue m) ↔
        (jsFloor (add64 cropArea.x cropArea.width) ≤ jsFloor cropArea.x ∨
          jsFloor (add64 cropArea.y cropArea.height) ≤ jsFloor cropArea.y)) ∧
      (img.naturalWidth < 2 ^ 53 → img.naturalHeight < 2 ^ 53 →
        1 ≤ cropArea.width → 1 ≤ cropArea.height →
        ¬ ∃ m ∈ (runValidation64 (some img) (some depthData) (some cropArea)).issues,
          IsInvalidCroppedIssue m) := by
  have gx : jsFloor (add64 cropArea.x cropArea.width) ≤ (img.naturalWidth : Int) :=
    floor_le_raster _ _ (not_lt.mp hxw)
  have gy : jsFloor (add64 cropArea.y cropArea.height) ≤ (img.naturalHeight : Int) :=
    floor_le_raster _ _ (not_lt.mp hyh)
  have hsx : (validationWindow64 cropArea img.naturalWidth img.naturalHeight).startX
      = jsFloor cropArea.x := rfl
  have hsy : (validationWindow64 cropArea img.naturalWidth img.naturalHeight).startY
      = jsFloor cropArea.y := rfl
  have hex : (validationWindow64 cropArea img.naturalWidth img.naturalHeight).endX
      = jsFloor (add64 cropArea.x cropArea.width) := by
    simp only [validationWindow64]; exact min_eq_left gx
  have hey : (validationWindow64 cropArea img.naturalWidth img.naturalHeight).endY
      = jsFloor (add64 cropArea.y cropArea.height) := by
    simp only [validationWindow64]; exact min_eq_left gy
  have hcw : (validationWindow64 cropArea img.naturalWidth img.naturalHeight).croppedWidth
      = jsFloor (add64 cropArea.x cropArea.width) - jsFloor cropArea.x := by
    simp only [validationWindow64]; rw [min_eq_left gx]
  have hch : (validationWindow64 cropArea img.naturalWidth img.naturalHeight).croppedHeight
      = jsFloor (add64 cropArea.y cropArea.height) - jsFloor cropArea.y := by
    simp only [validationWindow64]; rw [min_eq_left gy]
  have fx := jsFloor_nonneg hx
  have fy := jsFloor_nonneg hy
  have hiff : (∃ m ∈ (runValidation64 (some img) (some depthData) (some cropArea)).issues,
        IsInvalidCroppedIssue m) ↔
      (jsFloor (add64 cropArea.x cropArea.width) ≤ jsFloor cropArea.x ∨
        jsFloor (add64 cropArea.y cropArea.height) ≤ jsFloor cropArea.y) := by
    refine (isInvalidCroppedIssue_iff64 img depthData cropArea).trans ?_
    rw [hcw, hch]
    constructor
    · rintro (h | h)
      · left; omega
      · right; omega
    · rintro (h | h)
      · left; omega
      · right; omega
  have key : ∀ (a d : ℚ) (n : Nat), 0 ≤ a → 1 ≤ d → n < 2 ^ 53 → ¬ add64 a d > (n : ℚ) →
      jsFloor a + 1 ≤ jsFloor (add64 a d) := by
    intro a d n ha hd hn hnot
    have hfa : (jsFloor a : ℚ) ≤ a := Int.floor_le a
    have hfa0 : 0 ≤ jsFloor a := jsFloor_nonneg ha
    have hle : ((jsFloor a + 1 : Int) : ℚ) ≤ a + d := by push_cast; linarith
    have hbound : jsFloor a + 1 ≤ 2 ^ 53 := by
      by_contra hc
      have hbig : (((2 : Int) ^ 53 : Int) : ℚ) ≤ a + d := by
        have : (((2 : Int) ^ 53 : Int) : ℚ) ≤ ((jsFloor a + 1 : Int) : ℚ) := by
          exact_mod_cast (by omega : (2 : Int) ^ 53 ≤ jsFloor a + 1)
        linarith
      have h2 := le_toDouble_of_int_le (2 ^ 53) (a + d) (by norm_num) le_rfl hbig
      have hn' : (n : ℚ) < (((2 : Int) ^ 53 : Int) : ℚ) := by exact_mod_cast hn
      exact hnot (by unfold add64; linarith)
    have h3 := le_toDouble_of_int_le (jsFloor a + 1) (a + d) (by omega) hbound hle
    exact Int.le_floor.mpr h3
  refine ⟨?_, ?_, hiff, ?_⟩
  · intro h
    have := (exceeds_mem_iff64 img depthData cropArea).mp h
    rw [hcw, hch] at this
    omega
  · intro h
    have := (outside_mem_iff64 img depthData cropArea).mp h
    rw [hsx, hsy, hex, hey] at this
    omega
  · intro hW hH h1 h2 h
    have a := key cropArea.x cropArea.width img.naturalWidth hx h1 hW hxw
    have b := key cropArea.y cropArea.height img.naturalHeight hy h2 hH hyh
    rcases hiff.mp h with e | e <;> omega

/-- C19 on a 10 by 10 raster with the rectangle `{1, 2, 3, 4}`. -/
theorem recheck_redundancy_witness :
    "CRITICAL: Cropped dimensions exceed original image bounds".toList
        ∉ (runValidation64 (some ⟨10, 10⟩)
          (some ⟨⟨.float32, List.replicate 100 0⟩, [10, 10], "<f4".toList⟩)
          (some ⟨1, 2, 3, 4⟩)).issues ∧
      ¬ ∃ m ∈ (runValidation64 (some ⟨10, 10⟩)
          (some ⟨⟨.float32, List.replicate 100 0⟩, [10, 10], "<f4".toList⟩)
          (some ⟨1, 2, 3, 4⟩)).issues, IsInvalidCroppedIssue m := by
  have s1 : add64 1 3 = 4 := by
    unfold add64
    have := toDouble_natCast 4 (by norm_num)
    norm_num at this ⊢
    exact this
  have s2 : add64 2 4 = 6 := by
    unfold add64
    have := toDouble_natCast 6 (by norm_num)
    norm_num at this ⊢
    exact this
  have h := recheck_redundancy ⟨10, 10⟩
    ⟨⟨.float32, List.replicate 100 0⟩, [10, 10], "<f4".toList⟩ ⟨1, 2, 3, 4⟩
    (by norm_num) (by norm_num) (by rw [s1]; norm_num) (by rw [s2]; norm_num)
    (by norm_num) (by norm_num)
  exact ⟨h.1, h.2.2.2 (by norm_num) (by norm_num) (by norm_num) (by norm_num)⟩

theorem sub64_natCast_zero (n : Nat) (hn : n ≤ 2 ^ 53) : sub64 (n : ℚ) 0 = n := by
  unfold sub64
  rw [sub_zero]
  exact toDouble_natCast n hn

theorem sub64_wide_example : sub64 ((100 : Nat) : ℚ) 200 = -100 := by
  unfold sub64
  exact toDouble_eval_neg _ 6 (-7036874417766400) _ (by norm_num) (by norm_num) (by norm_num)
    (by norm_num) (by norm_num) (by norm_num)

theorem sub64_hundred_fifty : sub64 ((100 : Nat) : ℚ) 50 = 50 := by
  unfold sub64
  have := toDouble_natCast 50 (by norm_num)
  norm_num at this ⊢
  exact this

theorem sub64_tenth_example :
    sub64 ((100 : Nat) : ℚ) (3602879701896397 / 36028797018963968)
      = 3514918771674317 / 35184372088832 := by
  unfold sub64
  exact toDouble_eval_pos _ 6 7029837543348634 _ (by norm_num) (by norm_num) (by norm_num)
    (by norm_num) (by norm_num) (by norm_num)

/-- C5 fails as stated, in two ways.  On a canvas 100 wide, moving a rectangle 200 wide
leaves it at `x = 0` with `x + width = 200 > 100`.  And a rectangle narrower than the canvas
can pass the edge as well: with the width `0.1` (the double nearest to one tenth) and the
pointer far to the right, `x` is the double `100 - 0.1` the program computes and
`x + width` exceeds 100 by `205 / 2^55`. -/
theorem geometry_clamp_counterexample :
    ((handleMouseMove
        (movingState ⟨100, 100⟩ (depth2x3 .float32 [] "<f4".toList) ⟨0, 0, 200, 50⟩
          passingReport ⟨0, 0⟩)
        ⟨10, 10⟩).cropArea = some ⟨0, 10, 200, 50⟩ ∧
      ¬ ((0 : ℚ) + 200 ≤ ((100 : Nat) : ℚ))) ∧
    (toDouble (3602879701896397 / 36028797018963968) = 3602879701896397 / 36028797018963968 ∧
      (handleMouseMove
        (movingState ⟨100, 100⟩ (depth2x3 .float32 [] "<f4".toList)
          ⟨0, 0, 3602879701896397 / 36028797018963968, 50⟩ passingReport ⟨0, 0⟩)
        ⟨200, 10⟩).cropArea
        = some ⟨3514918771674317 / 35184372088832, 10,
            3602879701896397 / 36028797018963968, 50⟩ ∧
      (3514918771674317 / 35184372088832 : ℚ) + 3602879701896397 / 36028797018963968
        = 100 + 205 / 2 ^ 55) := by
  have a10 : sub64 10 0 = 10 := by
    have := sub64_natCast_zero 10 (by norm_num)
    simpa using this
  have a200 : sub64 200 0 = 200 := by
    have := sub64_natCast_zero 200 (by norm_num)
    simpa using this
  refine ⟨⟨?_, by norm_num⟩, ?_, ?_, by norm_num⟩
  · simp only [handleMouseMove, movingState, loadedState, a10, sub64_wide_example,
      sub64_hundred_fifty]
    norm_num
  · exact toDouble_eval_pos _ (-4) 7205759403792794 _ (by norm_num) (by norm_num) (by norm_num)
      (by norm_num) (by norm_num) (by norm_num)
  · simp only [handleMouseMove, movingState, loadedState, a10, a200, sub64_tenth_example,
      sub64_hundred_fifty]
    norm_num

/-- C5 (geometry clamp), amended.  The differences are the doubles the program computes.  A
pointer move in move mode keeps the size of the rectangle and gives `x ≥ 0` and `y ≥ 0`.
When `w ≤ canvasWidth` it gives `x ≤ canvasWidth - w`, the rounded difference, so that
`x + w ≤ canvasWidth` when that difference is exact, and `x + w ≤ canvasWidth * (1 + 2^-53)`
for every `0 ≤ w ≤ canvasWidth`; the same holds for `y` and `h`.  A rectangle wider (taller)
than the canvas is put at `x = 0` (`y = 0`) and sticks out. -/
theorem geometry_clamp (s : State) (pos : Point) (r : Rect) (hdrag : s.isDragging = true)
    (hloaded : s.imageLoaded = true) (hmode : s.dragMode = .move) (hrect : s.cropArea = some r) :
    ∃ moved, (handleMouseMove s pos).cropArea = some moved ∧
      moved.width = r.width ∧ moved.height = r.height ∧
      0 ≤ moved.x ∧ 0 ≤ moved.y ∧
      (r.width ≤ s.canvas.width →
        moved.x ≤ sub64 s.canvas.width r.width ∧
        (sub64 s.canvas.width r.width = s.canvas.width - r.width →
          moved.x + moved.width ≤ s.canvas.width) ∧
        (0 ≤ r.width →
          moved.x + moved.width ≤ s.canvas.width + (s.canvas.width : ℚ) / 2 ^ 53)) ∧
      (r.height ≤ s.canvas.height →
        moved.y ≤ sub64 s.canvas.height r.height ∧
        (sub64 s.canvas.height r.height = s.canvas.height - r.height →
          moved.y + moved.height ≤ s.canvas.height) ∧
        (0 ≤ r.height →
          moved.y + moved.height ≤ s.canvas.height + (s.canvas.height : ℚ) / 2 ^ 53)) ∧
      ((s.canvas.width : ℚ) < r.width → moved.x = 0 ∧ moved.x + moved.width > s.canvas.width) ∧
      ((s.canvas.height : ℚ) < r.height →
        moved.y = 0 ∧ moved.y + moved.height > s.canvas.height) := by
  have axis : ∀ (p : ℚ) (c : Nat) (w : ℚ),
      0 ≤ max 0 (min p (sub64 c w)) ∧
      (w ≤ c →
        max 0 (min p (sub64 c w)) ≤ sub64 c w ∧
        (sub64 c w = c - w → max 0 (min p (sub64 c w)) + w ≤ c) ∧
        (0 ≤ w → max 0 (min p (sub64 c w)) + w ≤ c + (c : ℚ) / 2 ^ 53)) ∧
      ((c : ℚ) < w → max 0 (min p (sub64 c w)) = 0 ∧ max 0 (min p (sub64 c w)) + w > c) := by
    intro p c w
    refine ⟨le_max_left _ _, ?_, ?_⟩
    · intro hwc
      have hd0 : (0 : ℚ) ≤ (c : ℚ) - w := by linarith
      have hs0 : 0 ≤ sub64 c w := toDouble_nonneg hd0
      have hle : max 0 (min p (sub64 c w)) ≤ sub64 c w := max_le hs0 (min_le_right _ _)
      refine ⟨hle, ?_, ?_⟩
      · intro hex
        have h2 : max 0 (min p (sub64 c w)) ≤ (c : ℚ) - w := le_trans hle (le_of_eq hex)
        linarith
      · intro hw0
        have herr := toDouble_sub_le_of_le_nat ((c : ℚ) - w) c hd0 (by linarith)
        have h2 : sub64 c w ≤ (c : ℚ) - w + (c : ℚ) / 2 ^ 53 := by
          have := (abs_le.mp herr).2
          unfold sub64
          linarith
        linarith
    · intro hcw
      have hs0 : sub64 c w ≤ 0 := toDouble_nonpos (by linarith)
      have h0 : max 0 (min p (sub64 c w)) = 0 :=
        max_eq_left (le_trans (min_le_right _ _) hs0)
      exact ⟨h0, by rw [h0]; linarith⟩
  refine ⟨⟨max 0 (min (sub64 pos.x s.dragStart.x) (sub64 (s.canvas.width : ℚ) r.width)),
    max 0 (min (sub64 pos.y s.dragStart.y) (sub64 (s.canvas.height : ℚ) r.height)),
    r.width, r.height⟩, ?_, rfl, rfl, (axis _ _ _).1, (axis _ _ _).1, (axis _ _ _).2.1,
    (axis _ _ _).2.1, (axis _ _ _).2.2, (axis _ _ _).2.2⟩
  simp [handleMouseMove, hdrag, hloaded, hmode, hrect]

/-- C5, amended, on a canvas 100 by 100 with a rectangle 30 by 40 dragged far to the right:
the differences `100 - 30` and `100 - 40` are exact and the rectangle stays inside. -/
theorem geometry_clamp_witness :
    ∃ moved, (handleMouseMove
        (movingState ⟨100, 100⟩ (depth2x3 .float32 [] "<f4".toList) ⟨20, 20, 30, 40⟩
          passingReport ⟨5, 5⟩)
        ⟨200, 3⟩).cropArea = some moved ∧
      moved.x + moved.width ≤ 100 ∧ moved.y + moved.height ≤ 100 ∧ 0 ≤ moved.x ∧ 0 ≤ moved.y := by
  have e1 : sub64 ((100 : Nat) : ℚ) 30 = ((100 : Nat) : ℚ) - 30 := by
    unfold sub64
    have := toDouble_natCast 70 (by norm_num)
    norm_num at this ⊢
    exact this
  have e2 : sub64 ((100 : Nat) : ℚ) 40 = ((100 : Nat) : ℚ) - 40 := by
    unfold sub64
    have := toDouble_natCast 60 (by norm_num)
    norm_num at this ⊢
    exact this
  obtain ⟨moved, h, hw, hh, hx, hy, hxw, hyh, _, _⟩ := geometry_clamp
    (movingState ⟨100, 100⟩ (depth2x3 .float32 [] "<f4".toList) ⟨20, 20, 30, 40⟩
      passingReport ⟨5, 5⟩)
    ⟨200, 3⟩ ⟨20, 20, 30, 40⟩ rfl rfl rfl rfl
  refine ⟨moved, h, ?_, ?_, hx, hy⟩
  · have := (hxw (by simp only [movingState, loadedState]; norm_num)).2.1 e1
    simpa [movingState, loadedState] using this
  · have := (hyh (by simp only [movingState, loadedState]; norm_num)).2.1 e2
    simpa [movingState, loadedState] using this

theorem mul64_natCast (a b : Nat) (h : a * b ≤ 2 ^ 53) : mul64 (a : ℚ) (b : ℚ) = ((a * b : Nat) : ℚ) := by
  unfold mul64
  have := toDouble_natCast (a * b) h
  push_cast at this ⊢
  exact this

theorem mul64_raster_pos (W H : Nat) (hW : 0 < W) (hH : 0 < H) :
    (1 : ℚ) ≤ mul64 (W : ℚ) (H : ℚ) := by
  have h1 : (((1 : Int) : Int) : ℚ) ≤ (W : ℚ) * (H : ℚ) := by
    have : 1 ≤ W * H := Nat.mul_pos hW hH
    have : (1 : ℚ) ≤ ((W * H : Nat) : ℚ) := by exact_mod_cast this
    push_cast at this ⊢
    exact this
  have := le_toDouble_of_int_le 1 _ (by norm_num) (by norm_num) h1
  unfold mul64
  simpa using this

/-- On a raster with positive sides the area ratio is finite: the chain of roundings. -/
theorem areaPercentOf64_pos (r : Rect) (W H : Nat) (hW : 0 < W) (hH : 0 < H) :
    areaPercentOf64 r W H
      = .fin (mul64 (toDouble (mul64 r.width r.height / mul64 (W : ℚ) (H : ℚ))) 100) := by
  have hne : mul64 (W : ℚ) (H : ℚ) ≠ 0 := by
    have := mul64_raster_pos W H hW hH
    linarith
  unfold areaPercentOf64 div64 jsDiv
  rw [if_neg hne]
  rfl

theorem area_small_example :
    areaPercentOf64 ⟨0, 0, 133, 75⟩ 1000 1000
      = .fin (8984681256604139 / 9007199254740992) := by
  rw [areaPercentOf64_pos _ _ _ (by norm_num) (by norm_num)]
  have m1 : mul64 (133 : ℚ) 75 = 9975 := by
    have := mul64_natCast 133 75 (by norm_num)
    norm_num at this ⊢
    exact this
  have m2 : mul64 ((1000 : Nat) : ℚ) ((1000 : Nat) : ℚ) = 1000000 := by
    have := mul64_natCast 1000 1000 (by norm_num)
    norm_num at this ⊢
    exact this
  have d1 : toDouble ((9975 : ℚ) / 1000000) = 5750196004226649 / 576460752303423488 :=
    toDouble_eval_pos _ (-7) 5750196004226649 _ (by norm_num) (by norm_num) (by norm_num)
      (by norm_num) (by norm_num) (by norm_num)
  have d2 : mul64 (5750196004226649 / 576460752303423488) 100
      = 8984681256604139 / 9007199254740992 := by
    unfold mul64
    exact toDouble_eval_pos _ (-1) 8984681256604139 _ (by norm_num) (by norm_num) (by norm_num)
      (by norm_num) (by norm_num) (by norm_num)
  show JSNum.fin (mul64 (toDouble (mul64 (133 : ℚ) 75
    / mul64 ((1000 : Nat) : ℚ) ((1000 : Nat) : ℚ))) 100) = _
  rw [m1, m2, d1, d2]

theorem area_tie_example :
    areaPercentOf64 ⟨0, 0, 17, 3⟩ 20 8
      = .fin (8972014882652159 / 281474976710656) := by
  rw [areaPercentOf64_pos _ _ _ (by norm_num) (by norm_num)]
  have m1 : mul64 (17 : ℚ) 3 = 51 := by
    have := mul64_natCast 17 3 (by norm_num)
    norm_num at this ⊢
    exact this
  have m2 : mul64 ((20 : Nat) : ℚ) ((8 : Nat) : ℚ) = 160 := by
    have := mul64_natCast 20 8 (by norm_num)
    norm_num at this ⊢
    exact this
  have d1 : toDouble ((51 : ℚ) / 160) = 2871044762448691 / 9007199254740992 :=
    toDouble_eval_pos _ (-2) 5742089524897382 _ (by norm_num) (by norm_num) (by norm_num)
      (by norm_num) (by norm_num) (by norm_num)
  have d2 : mul64 (2871044762448691 / 9007199254740992) 100
      = 8972014882652159 / 281474976710656 := by
    unfold mul64
    exact toDouble_eval_pos _ 4 8972014882652159 _ (by norm_num) (by norm_num) (by norm_num)
      (by norm_num) (by norm_num) (by norm_num)
  show JSNum.fin (mul64 (toDouble (mul64 (17 : ℚ) 3
    / mul64 ((20 : Nat) : ℚ) ((8 : Nat) : ℚ))) 100) = _
  rw [m1, m2, d1, d2]

theorem scale64_fin (q k : ℚ) : (JSNum.fin q).scale64 k = .fin (toDouble (q * k)) := rfl

theorem roundDiv100At64_fin (q : ℚ) :
    (JSNum.fin q).roundDiv100At64 = .fin (toDouble ((jsRound q : ℚ) / 100)) := rfl

theorem details64_areaPercent (img : ImgElement) (dd : DepthData) (r : Rect) :
    (validationDetails64 img dd r).areaPercent
      = ((areaPercentOf64 r img.naturalWidth img.naturalHeight).scale64 100).roundDiv100At64 :=
  rfl

/-- C14 fails as stated, in two ways.  On a 1000 by 1000 raster the rectangle
`{0, 0, 133, 75}` covers 0.9975 % of the raster: `details.areaPercent` is 1, which is not
below 1, and yet the report holds the small-area warning, because the comparison is made on
the ratio before it is rounded to two decimals.  On a 20 by 8 raster the rectangle
`{0, 0, 17, 3}` covers exactly 31.875 %, which rounds to 31.88, but the doubles of the
program give `3187.4999999999995` before `Math.round`, and `details.areaPercent` is the
double `31.87`. -/
theorem area_ratio_counterexample :
    (∃ d, (runValidation64 (some ⟨1000, 1000⟩)
          (some ⟨⟨.float32, [0]⟩, [1000, 1000], "<f4".toList⟩)
          (some ⟨0, 0, 133, 75⟩)).details = some d ∧
      d.areaPercent = .fin 1 ∧ d.areaPercent.ltConst 1 = false ∧
      "Crop area is very small (< 1%)".toList
        ∈ (runValidation64 (some ⟨1000, 1000⟩)
          (some ⟨⟨.float32, [0]⟩, [1000, 1000], "<f4".toList⟩)
          (some ⟨0, 0, 133, 75⟩)).warnings) ∧
    (∃ d, (runValidation64 (some ⟨20, 8⟩) (some ⟨⟨.float32, [0]⟩, [8, 20], "<f4".toList⟩)
          (some ⟨0, 0, 17, 3⟩)).details = some d ∧
      d.areaPercent = .fin (toDouble (3187 / 100)) ∧
      toDouble (3187 / 100) = 8970607507768607 / 281474976710656 ∧
      (17 * 3 : ℚ) / (20 * 8) * 100 = 31875 / 1000 ∧
      jsRound ((17 * 3 : ℚ) / (20 * 8) * 100 * 100) = 3188) := by
  constructor
  · have hr : toDouble ((8984681256604139 / 9007199254740992 : ℚ) * 100) = 399 / 4 :=
      toDouble_eval_pos _ 6 7019282231721984 _ (by norm_num) (by norm_num) (by norm_num)
        (by norm_num) (by norm_num) (by norm_num)
    have hk : jsRound (399 / 4 : ℚ) = 100 := jsRound_eq _ _ (by norm_num) (by norm_num)
    have h1 : toDouble (((100 : Int) : ℚ) / 100) = 1 := by
      have := toDouble_natCast 1 (by norm_num)
      norm_num at this ⊢
      exact this
    have hd : (validationDetails64 ⟨1000, 1000⟩ ⟨⟨.float32, [0]⟩, [1000, 1000], "<f4".toList⟩
        ⟨0, 0, 133, 75⟩).areaPercent = .fin 1 := by
      rw [details64_areaPercent]
      show ((areaPercentOf64 ⟨0, 0, 133, 75⟩ 1000 1000).scale64 100).roundDiv100At64 = .fin 1
      rw [area_small_example, scale64_fin, hr, roundDiv100At64_fin, hk, h1]
    refine ⟨_, rfl, hd, ?_, ?_⟩
    · rw [hd]; simp [JSNum.ltConst]
    · refine (small_area_mem_iff64 ⟨1000, 1000⟩ ⟨⟨.float32, [0]⟩, [1000, 1000], "<f4".toList⟩
        ⟨0, 0, 133, 75⟩).mpr ?_
      rw [area_small_example]
      simp only [JSNum.ltConst, decide_eq_true_eq]
      norm_num
  · have hr : toDouble ((8972014882652159 / 281474976710656 : ℚ) * 100)
        = 7009386627071999 / 2199023255552 :=
      toDouble_eval_pos _ 11 7009386627071999 _ (by norm_num) (by norm_num) (by norm_num)
        (by norm_num) (by norm_num) (by norm_num)
    have hk : jsRound (7009386627071999 / 2199023255552 : ℚ) = 3187 :=
      jsRound_eq _ _ (by norm_num) (by norm_num)
    have hd : (validationDetails64 ⟨20, 8⟩ ⟨⟨.float32, [0]⟩, [8, 20], "<f4".toList⟩
        ⟨0, 0, 17, 3⟩).areaPercent = .fin (toDouble (3187 / 100)) := by
      rw [details64_areaPercent]
      show ((areaPercentOf64 ⟨0, 0, 17, 3⟩ 20 8).scale64 100).roundDiv100At64 = _
      rw [area_tie_example, scale64_fin, hr, roundDiv100At64_fin, hk]
      norm_num
    refine ⟨_, rfl, hd, ?_, by norm_num, ?_⟩
    · exact toDouble_eval_pos _ 4 8970607507768607 _ (by norm_num) (by norm_num) (by norm_num)
        (by norm_num) (by norm_num) (by norm_num)
    · exact jsRound_eq _ _ (by norm_num) (by norm_num)

/-- C14 (area ratio), amended.  Every product and quotient is the double the program
computes.  On a raster with positive sides the ratio
`a = ((width * height) / (rasterWidth * rasterHeight)) * 100` is finite and
`details.areaPercent` is `Math.round(a * 100) / 100` computed from that `a`; it need not be
the exact ratio rounded to two decimals.  The report holds the small-area warning exactly
when `a < 1` and the large-area warning exactly when `a > 95`, where `a` is the ratio before
`details` rounds it.  Neither warning is an issue, and `isValid` is true exactly when there is
no issue. -/
theorem area_ratio (img : ImgElement) (depthData : DepthData) (cropArea : Rect) :
    (∃ d, (runValidation64 (some img) (some depthData) (some cropArea)).details = some d ∧
      d.areaPercent
        = ((areaPercentOf64 cropArea img.naturalWidth img.naturalHeight).scale64
            100).roundDiv100At64 ∧
      (0 < img.naturalWidth → 0 < img.naturalHeight →
        ∃ a : ℚ,
          a = mul64 (toDouble (mul64 cropArea.width cropArea.height
                / mul64 (img.naturalWidth : ℚ) (img.naturalHeight : ℚ))) 100 ∧
          areaPercentOf64 cropArea img.naturalWidth img.naturalHeight = .fin a ∧
          d.areaPercent = .fin (toDouble ((jsRound (mul64 a 100) : ℚ) / 100)) ∧
          ("Crop area is very small (< 1%)".toList
              ∈ (runValidation64 (some img) (some depthData) (some cropArea)).warnings ↔
            a < 1) ∧
          ("Crop area is very large (> 95%)".toList
              ∈ (runValidation64 (some img) (some depthData) (some cropArea)).warnings ↔
            95 < a))) ∧
    ("Crop area is very small (< 1%)".toList
        ∈ (runValidation64 (some img) (some depthData) (some cropArea)).warnings ↔
      (areaPercentOf64 cropArea img.naturalWidth img.naturalHeight).ltConst 1 = true) ∧
    ("Crop area is very large (> 95%)".toList
        ∈ (runValidation64 (some img) (some depthData) (some cropArea)).warnings ↔
      (areaPercentOf64 cropArea img.naturalWidth img.naturalHeight).gtConst 95 = true) ∧
    "Crop area is very small (< 1%)".toList
      ∉ (runValidation64 (some img) (some depthData) (some cropArea)).issues ∧
    "Crop area is very large (> 95%)".toList
      ∉ (runValidation64 (some img) (some depthData) (some cropArea)).issues ∧
    ((runValidation64 (some img) (some depthData) (some cropArea)).isValid = true ↔
      (runValidation64 (some img) (some depthData) (some cropArea)).issues = []) := by
  refine ⟨⟨_, rfl, rfl, ?_⟩, small_area_mem_iff64 _ _ _, large_area_mem_iff64 _ _ _,
    (area_warning_not_issue64 _ _ _).1, (area_warning_not_issue64 _ _ _).2,
    isValid64_eq_true_iff _ _ _⟩
  intro hW hH
  have ha := areaPercentOf64_pos cropArea _ _ hW hH
  refine ⟨_, rfl, ha, ?_, ?_, ?_⟩
  · rw [details64_areaPercent, ha, scale64_fin, roundDiv100At64_fin]
    rfl
  · refine (small_area_mem_iff64 img depthData cropArea).trans ?_
    rw [ha]
    simp [JSNum.ltConst]
  · refine (large_area_mem_iff64 img depthData cropArea).trans ?_
    rw [ha]
    simp [JSNum.gtConst]

/-- C3 (export window consistency).  Whenever `downloadCropped` gets past its guards (a
rectangle, the image and the depth data are loaded and the stored report is valid), for every
rectangle and raster size: the integer crop window it computes is the window `runValidation`
computes on the same rectangle and image, so its `croppedWidth` and `croppedHeight` are the
`croppedDimensions` recorded in the details of that report.  The exported bundle carries these
dimensions: the region drawn for the RGB crop starts at the window's `(startX, startY)` and has
the recorded size, the cropped depth array holds `croppedHeight * croppedWidth` elements and
is encoded under the shape `[croppedHeight, croppedWidth]`, and `metadata.cropBox` records the
same width and height.  When the recorded size has a negative product the allocation of the
cropped array throws and the export fails with a `RangeError`. -/
theorem export_window_consistency (toFloat32 : DType → Option Nat → Nat) (iso : JSString)
    (s : State) (rect : Rect) (img : ImgElement) (dd : DepthData)
    (hrect : s.cropArea = some rect) (himg : s.img = some img) (hdd : s.depthData = some dd)
    (hil : s.imageLoaded = true) (hdl : s.depthLoaded = true)
    (hvalid : s.validationStatus.isValid = true) :
    validationWindow rect img.naturalWidth img.naturalHeight = exportWindow rect img ∧
    ∃ d, (runValidation (some img) (some dd) (some rect)).details = some d ∧
      d.croppedWidth = (exportWindow rect img).croppedWidth ∧
      d.croppedHeight = (exportWindow rect img).croppedHeight ∧
      (0 ≤ d.croppedHeight * d.croppedWidth →
        ∃ bundle dst,
          downloadCropped toFloat32 iso s = .exported bundle ∧
          bundle.cropRgb.sx
            = (validationWindow rect img.naturalWidth img.naturalHeight).startX ∧
          bundle.cropRgb.sy
            = (validationWindow rect img.naturalWidth img.naturalHeight).startY ∧
          bundle.cropRgb.width = d.croppedWidth ∧
          bundle.cropRgb.height = d.croppedHeight ∧
          createNpyFile dst [d.croppedHeight, d.croppedWidth] = .ok bundle.cropDepth ∧
          (dst.elems.length : Int) = d.croppedHeight * d.croppedWidth ∧
          bundle.metadata.cropBox.width = d.croppedWidth ∧
          bundle.metadata.cropBox.height = d.croppedHeight) ∧
      (d.croppedHeight * d.croppedWidth < 0 →
        downloadCropped toFloat32 iso s = .failed .rangeError) := by
  refine ⟨rfl, validationDetails img dd rect, rfl, rfl, rfl, ?_, ?_⟩
  · intro hsize
    have hsize' : 0 ≤ (exportWindow rect img).croppedHeight
        * (exportWindow rect img).croppedWidth := hsize
    have hexp := downloadCropped_exported toFloat32 iso s rect img dd hrect himg hdd hil hdl
      hvalid hsize'
    refine ⟨_, _, hexp, rfl, rfl, rfl, rfl, createNpyFile_eq_npyBytes _ _, ?_, rfl, rfl⟩
    simp only [fillRows_length, List.length_replicate]
    exact Int.toNat_of_nonneg hsize'
  · intro hneg
    have hneg' : (exportWindow rect img).croppedHeight
        * (exportWindow rect img).croppedWidth < 0 := hneg
    unfold downloadCropped
    simp only [hrect, hil, hdl, hdd, hvalid, himg]
    simp [cropDepth, hneg']

/-- C3 on a 3 by 2 image, a depth array of shape `[2, 3]` and the rectangle `{1, 0, 2, 2}`: the
bundle's RGB crop is 2 by 2, the `croppedDimensions` of the report. -/
theorem export_window_consistency_witness :
    ∃ d bundle,
      (runValidation (some ⟨3, 2⟩)
        (some (depth2x3 .float32 [10, 11, 12, 13, 14, 15] "<f4".toList))
        (some ⟨1, 0, 2, 2⟩)).details = some d ∧
      downloadCropped (fun _ v => v.getD 0x7FC00000) "2024-05-06T07:08:09.123Z".toList
          (loadedState ⟨3, 2⟩ (depth2x3 .float32 [10, 11, 12, 13, 14, 15] "<f4".toList)
            ⟨1, 0, 2, 2⟩ passingReport) = .exported bundle ∧
      bundle.cropRgb.width = d.croppedWidth ∧ bundle.cropRgb.height = d.croppedHeight ∧
      d.croppedWidth = 2 ∧ d.croppedHeight = 2 := by
  obtain ⟨-, d, hd, hw, hh, hexp, -⟩ :=
    export_window_consistency (fun _ v => v.getD 0x7FC00000) "2024-05-06T07:08:09.123Z".toList
      (loadedState ⟨3, 2⟩ (depth2x3 .float32 [10, 11, 12, 13, 14, 15] "<f4".toList)
        ⟨1, 0, 2, 2⟩ passingReport)
      ⟨1, 0, 2, 2⟩ ⟨3, 2⟩ (depth2x3 .float32 [10, 11, 12, 13, 14, 15] "<f4".toList)
      rfl rfl rfl rfl rfl rfl
  rw [exportWindow_example] at hw hh
  obtain ⟨bundle, dst, h1, -, -, h4, h5, -⟩ := hexp (by rw [hw, hh]; decide)
  exact ⟨d, bundle, hd, h1, h4, h5, hw, hh⟩

theorem roundHalfEven_tie_odd (m : Int) (h : m % 2 = 1) :
    roundHalfEven ((m : ℚ) + 1 / 2) = m + 1 := by
  have hf : ⌊(m : ℚ) + 1 / 2⌋ = m := by
    rw [Int.floor_eq_iff]; constructor <;> linarith
  unfold roundHalfEven
  rw [hf]
  have h1 : ¬ ((m : ℚ) + 1 / 2 - m < 1 / 2) := by norm_num
  have h2 : ¬ ((1 : ℚ) / 2 < (m : ℚ) + 1 / 2 - m) := by norm_num
  have h3 : ¬ (m % 2 = 0) := by omega
  rw [if_neg h1, if_neg h2, if_neg h3]

/-- The doubles nearest to 0.3 and 0.7 have an exact sum below 1, half a unit in the last
place under it, and the tie rounds to the double 1: on a 10 by 10 raster the window of the
rectangle `{0.3, 0, 0.7, 1}` is one pixel wide, where the floor of the exact sum is 0. -/
theorem window64_tie_example :
    add64 (5404319552844595 / 18014398509481984) (3152519739159347 / 4503599627370496) = 1 ∧
      jsFloor ((5404319552844595 / 18014398509481984 : ℚ)
        + 3152519739159347 / 4503599627370496) = 0 ∧
      validationWindow64
          ⟨5404319552844595 / 18014398509481984, 0, 3152519739159347 / 4503599627370496, 1⟩
          10 10
        = ⟨0, 0, 1, 1, 1, 1⟩ := by
  have hsum : add64 (5404319552844595 / 18014398509481984)
      (3152519739159347 / 4503599627370496) = 1 := by
    unfold add64
    have hq : (5404319552844595 / 18014398509481984 : ℚ) + 3152519739159347 / 4503599627370496
        = 18014398509481983 / 18014398509481984 := by norm_num
    rw [hq]
    have hz : (18014398509481983 / 18014398509481984 : ℚ) / 2 ^ ((-1 : Int) - 52)
        = ((9007199254740991 : Int) : ℚ) + 1 / 2 := by norm_num
    have hr : roundHalfEven ((18014398509481983 / 18014398509481984 : ℚ)
        / 2 ^ ((-1 : Int) - 52)) = 9007199254740992 := by
      rw [hz, roundHalfEven_tie_odd _ (by norm_num)]
      norm_num
    rw [toDouble_eq _ (-1) 9007199254740992 (by norm_num)
      (by rw [abs_of_pos (by norm_num)]; norm_num)
      (by rw [abs_of_pos (by norm_num)]; norm_num) hr]
    norm_num
  have f0 : jsFloor ((5404319552844595 / 18014398509481984 : ℚ)
      + 3152519739159347 / 4503599627370496) = 0 :=
    jsFloor_eq _ _ (by norm_num) (by norm_num)
  refine ⟨hsum, f0, ?_⟩
  have f1 : jsFloor (5404319552844595 / 18014398509481984 : ℚ) = 0 :=
    jsFloor_eq _ _ (by norm_num) (by norm_num)
  have f2 : jsFloor (1 : ℚ) = 1 := jsFloor_eq _ _ (by norm_num) (by norm_num)
  have f3 : jsFloor (0 : ℚ) = 0 := jsFloor_eq _ _ (by norm_num) (by norm_num)
  simp only [validationWindow64, hsum, add64_zero_one, f1, f2, f3]
  norm_num

end RGBDCropper
